import Mathlib

/-!
Verification of the TMC5072 register codec and SPI transaction engine.

This development gives a shallow embedding, in Lean, of the register codec layer
and the bus transaction engine of a Rust driver for the TMC5072 dual stepper
motor controller, and proves the key properties claimed by its specification.

Conventions of the embedding:
* Machine integers are modelled as `Nat` (for `u8`/`u16`/`u32` values) and `Int`
  (for `i8`/`i16`/`i32` values).  A `u32` value is a `Nat` below `2 ^ 32`;
  where a Rust operation can wrap (shifts inside the generic bit helpers), the
  embedding takes the result modulo `2 ^ 32`, and where Rust casts between
  integer types, the embedding applies the corresponding explicit
  reinterpretation function (`u32_as_i32`, `i32_as_u32`, ...).
* Each register struct of the Rust catalogue becomes a Lean structure, with
  `decode` embedding its `From<u32>` impl, `encode` embedding its
  `From<Self> for u32` impl and `default` its `Default` impl.  The Rust
  per-motor const generic parameter only selects the register address and does
  not influence the codec, so it is dropped here.
* The SPI transport and the chip-select pin are modelled as state machines
  whose operations may fail (`Except`); the transaction engine additionally
  returns the trace of frames handed to the transport, which lets us state
  how many exchanges happen and what they contain.
-/

namespace Tmc5072

/-! ## Bit-level codec helpers (src/bits.rs), instantiated at `u32` -/
/-- Embedding of `read_bool_from_bit` of bits.rs at `T = u32`: tests the bit at index
`bit` of `data`. -/
def read_bool_from_bit (data bit : Nat) : Bool :=
  data &&& ((1 <<< bit) % 4294967296) != 0

/-- Embedding of `write_bool_to_bit` of bits.rs at `T = u32`: sets (`value = true`) or
clears (`value = false`) the bit at index `bit` of `data`.  The clear path
uses the 32-bit complement of the single-bit mask, as `!` does on `u32`. -/
def write_bool_to_bit (data bit : Nat) (value : Bool) : Nat :=
  if value then data ||| ((1 <<< bit) % 4294967296)
  else data &&& (0xFFFFFFFF ^^^ ((1 <<< bit) % 4294967296))

/-- Embedding of `read_bool_from_bit` of bits.rs at `T = u8`. -/
def read_bool_from_bit8 (data bit : Nat) : Bool :=
  data &&& ((1 <<< bit) % 256) != 0

/-- Embedding of `write_bool_to_bit` of bits.rs at `T = u8`; the `!` complements within 8 bits. -/
def write_bool_to_bit8 (data bit : Nat) (value : Bool) : Nat :=
  if value then data ||| ((1 <<< bit) % 256)
  else data &&& (0xFF ^^^ ((1 <<< bit) % 256))

/-- Embedding of `read_from_bit` of bits.rs at `T = u32`: `(data >> off) & mask`. -/
def read_from_bit (data off mask : Nat) : Nat :=
  (data >>> off) &&& mask

/-- Embedding of `write_from_bit` of bits.rs at `T = u32`: clears the bits of the span
`mask << off` in `data` (via `data ^= data & (mask << off)`) and ORs in
`value << off`.  The `u32` shifts wrap modulo `2 ^ 32`. -/
def write_from_bit (data off mask value : Nat) : Nat :=
  (data ^^^ (data &&& ((mask <<< off) % 4294967296))) ||| ((value <<< off) % 4294967296)

/-- Reinterpretation of a `u32` bit pattern as an `i32` (Rust `as i32`). -/
def u32_as_i32 (n : Nat) : Int :=
  if n < 2 ^ 31 then (n : Int) else (n : Int) - 2 ^ 32

/-- Reinterpretation of an `i32` as a `u32` bit pattern (Rust `as u32`);
this is also the bit pattern produced by `i8 as u32` / `i16 as u32`
(sign extension to 32 bits). -/
def i32_as_u32 (v : Int) : Nat :=
  (v % 4294967296).toNat

/-- Rust `as i16` applied to a wider integer: truncate to the low 16 bits and
reinterpret as a signed 16-bit value. -/
def i32_as_i16 (v : Int) : Int :=
  (v + 2 ^ 15) % 2 ^ 16 - 2 ^ 15

/-- Rust `u32 as i16`: truncate to the low 16 bits and reinterpret. -/
def u32_as_i16 (n : Nat) : Int :=
  if n % 65536 < 2 ^ 15 then ((n % 65536 : Nat) : Int) else ((n % 65536 : Nat) : Int) - 2 ^ 16

/-- Rust `u8 as i8`: reinterpret an 8-bit pattern as signed. -/
def u8_as_i8 (n : Nat) : Int :=
  if n % 256 < 2 ^ 7 then ((n % 256 : Nat) : Int) else ((n % 256 : Nat) : Int) - 2 ^ 8

/-- Rust `i8 as u8` (and the bit pattern of an `i8` in general). -/
def i8_as_u8 (v : Int) : Nat :=
  (v % 256).toNat

/-- Embedding of `convert_to_signed_n` of bits.rs: reinterpret the low `bits` bits of the
`u32` value `x` as a two's-complement signed number.  If the sign bit
(bit `bits - 1`) is set, the result is the `i32` reinterpretation of
`!((1 << bits) - 1) | x`, i.e. of the sign-extended 32-bit pattern;
otherwise it is `x as i32`. -/
def convert_to_signed_n (x : Nat) (bits : Nat) : Int :=
  if (x >>> (bits - 1)) &&& 1 = 1 then
    u32_as_i32 ((((1 <<< bits) - 1) ^^^ 0xFFFFFFFF) ||| x)
  else
    u32_as_i32 x

/-- Embedding of `convert_from_signed_n` of bits.rs: `from as u32 & ((1 << bits) - 1)`. -/
def convert_from_signed_n (v : Int) (bits : Nat) : Nat :=
  i32_as_u32 v &&& ((1 <<< bits) - 1)

/-! ## Register catalogue (src/registers/) -/
/-- Read-operation address flag (registers/mod.rs). -/
def READ_FLAG : Nat := 0x00

/-- Write-operation address flag (registers/mod.rs). -/
def WRITE_FLAG : Nat := 0x80

/-- Expected IC version (registers/mod.rs). -/
def IC_VERSION : Nat := 0x10

/-- Register GConf (general_configuration_register.rs GCONF). -/
structure GConf where
  single_diver : Bool
  stepdir1_enable : Bool
  stepdir2_enable : Bool
  poscmp_enable : Bool
  enc1_refsel : Bool
  enc2_enable : Bool
  enc2_refsel : Bool
  test_mode : Bool
  shaft1 : Bool
  shaft2 : Bool
  lock_gconf : Bool
  dc_sync : Bool
deriving DecidableEq

/-- Embedding of the From(u32) impl for GConf. -/
def GConf.decode (data : Nat) : GConf :=
  {
    single_diver := read_bool_from_bit data 0
    stepdir1_enable := read_bool_from_bit data 1
    stepdir2_enable := read_bool_from_bit data 2
    poscmp_enable := read_bool_from_bit data 3
    enc1_refsel := read_bool_from_bit data 4
    enc2_enable := read_bool_from_bit data 5
    enc2_refsel := read_bool_from_bit data 6
    test_mode := read_bool_from_bit data 7
    shaft1 := read_bool_from_bit data 8
    shaft2 := read_bool_from_bit data 9
    lock_gconf := read_bool_from_bit data 10
    dc_sync := read_bool_from_bit data 11
  }

/-- Embedding of the From(GConf) for u32 impl. -/
def GConf.encode (data : GConf) : Nat :=
  let value := 0
  let value := write_bool_to_bit value 0 data.single_diver
  let value := write_bool_to_bit value 1 data.stepdir1_enable
  let value := write_bool_to_bit value 2 data.stepdir2_enable
  let value := write_bool_to_bit value 3 data.poscmp_enable
  let value := write_bool_to_bit value 4 data.enc1_refsel
  let value := write_bool_to_bit value 5 data.enc2_enable
  let value := write_bool_to_bit value 6 data.enc2_refsel
  let value := write_bool_to_bit value 7 data.test_mode
  let value := write_bool_to_bit value 8 data.shaft1
  let value := write_bool_to_bit value 9 data.shaft2
  let value := write_bool_to_bit value 10 data.lock_gconf
  let value := write_bool_to_bit value 11 data.dc_sync
  value

/-- Embedding of the Default impl for GConf (Self::from(0u32)). -/
def GConf.default : GConf := GConf.decode 0

/-- Register GStat (general_configuration_register.rs GSTAT). -/
structure GStat where
  reset : Bool
  drv_err1 : Bool
  drv_err2 : Bool
  uv_cp : Bool
deriving DecidableEq

/-- Embedding of the From(u32) impl for GStat. -/
def GStat.decode (data : Nat) : GStat :=
  {
    reset := read_bool_from_bit data 0
    drv_err1 := read_bool_from_bit data 1
    drv_err2 := read_bool_from_bit data 2
    uv_cp := read_bool_from_bit data 3
  }

/-- Embedding of the From(GStat) for u32 impl. -/
def GStat.encode (data : GStat) : Nat :=
  let value := 0
  let value := write_bool_to_bit value 0 data.reset
  let value := write_bool_to_bit value 1 data.drv_err1
  let value := write_bool_to_bit value 2 data.drv_err2
  let value := write_bool_to_bit value 3 data.uv_cp
  value

/-- Embedding of the Default impl for GStat (Self::from(0u32)). -/
def GStat.default : GStat := GStat.decode 0

/-- Register IfCnt (general_configuration_register.rs IFCNT). -/
structure IfCnt where
  if_cnt : Nat
deriving DecidableEq

/-- Embedding of the From(u32) impl for IfCnt. -/
def IfCnt.decode (data : Nat) : IfCnt :=
  {
    if_cnt := (read_from_bit data 0 0xFF) % 256
  }

/-- Embedding of the From(IfCnt) for u32 impl. -/
def IfCnt.encode (data : IfCnt) : Nat :=
  let value := 0
  let value := write_from_bit value 0 0xFF data.if_cnt
  value

/-- Embedding of the Default impl for IfCnt (Self::from(0u32)). -/
def IfCnt.default : IfCnt := IfCnt.decode 0

/-- Register SlaveConf (general_configuration_register.rs SLAVECONF). -/
structure SlaveConf where
  slave_addr : Nat
  send_delay : Nat
deriving DecidableEq

/-- Embedding of the From(u32) impl for SlaveConf. -/
def SlaveConf.decode (data : Nat) : SlaveConf :=
  {
    slave_addr := (read_from_bit data 0 0xFF) % 256
    send_delay := (read_from_bit data 8 0xF) % 256
  }

/-- Embedding of the From(SlaveConf) for u32 impl. -/
def SlaveConf.encode (data : SlaveConf) : Nat :=
  let value := 0
  let value := write_from_bit value 0 0xFF data.slave_addr
  let value := write_from_bit value 8 0xF data.send_delay
  value

/-- Embedding of the Default impl for SlaveConf (Self::from(0u32)). -/
def SlaveConf.default : SlaveConf := SlaveConf.decode 0

/-- Register Input (general_configuration_register.rs INPUT). -/
structure Input where
  io0 : Bool
  io1 : Bool
  io2 : Bool
  io3 : Bool
  iop : Bool
  ion : Bool
  next_addr : Bool
  drv_enn : Bool
  sw_comp : Bool
  version : Nat
deriving DecidableEq

/-- Embedding of the From(u32) impl for Input. -/
def Input.decode (data : Nat) : Input :=
  {
    io0 := read_bool_from_bit data 0
    io1 := read_bool_from_bit data 1
    io2 := read_bool_from_bit data 2
    io3 := read_bool_from_bit data 3
    iop := read_bool_from_bit data 4
    ion := read_bool_from_bit data 5
    next_addr := read_bool_from_bit data 6
    drv_enn := read_bool_from_bit data 7
    sw_comp := read_bool_from_bit data 8
    version := (read_from_bit data 24 0xFF) % 256
  }

/-- Embedding of the From(Input) for u32 impl. -/
def Input.encode (data : Input) : Nat :=
  let value := 0
  let value := write_bool_to_bit value 0 data.io0
  let value := write_bool_to_bit value 1 data.io1
  let value := write_bool_to_bit value 2 data.io2
  let value := write_bool_to_bit value 3 data.io3
  let value := write_bool_to_bit value 4 data.iop
  let value := write_bool_to_bit value 5 data.ion
  let value := write_bool_to_bit value 6 data.next_addr
  let value := write_bool_to_bit value 7 data.drv_enn
  let value := write_bool_to_bit value 8 data.sw_comp
  let value := write_from_bit value 24 0xFF data.version
  value

/-- Embedding of the Default impl for Input (Self::from(0u32)). -/
def Input.default : Input := Input.decode 0

/-- Register XCompare (general_configuration_register.rs X_COMPARE). -/
structure XCompare where
  x_compare : Nat
deriving DecidableEq

/-- Embedding of the From(u32) impl for XCompare. -/
def XCompare.decode (data : Nat) : XCompare :=
  {
    x_compare := read_from_bit data 0 0xFFFFFFFF
  }

/-- Embedding of the From(XCompare) for u32 impl. -/
def XCompare.encode (data : XCompare) : Nat :=
  let value := 0
  let value := write_from_bit value 0 0xFFFFFFFF data.x_compare
  value

/-- Embedding of the Default impl for XCompare (Self::from(0u32)). -/
def XCompare.default : XCompare := XCompare.decode 0

/-- Register ChopConf (motor_driver_register.rs CHOPCONF). -/
structure ChopConf where
  toff : Nat
  hstrt : Nat
  hend : Nat
  fd3 : Bool
  disfdcc : Bool
  rndtf : Bool
  chm : Bool
  tbl : Nat
  vsense : Bool
  vhighfs : Bool
  vhighchm : Bool
  mres : Nat
  intpol16 : Bool
  dedge : Bool
  diss2g : Bool
deriving DecidableEq

/-- Embedding of the From(u32) impl for ChopConf. -/
def ChopConf.decode (data : Nat) : ChopConf :=
  {
    toff := (read_from_bit data 0 0xF) % 256
    hstrt := (read_from_bit data 4 0x7) % 256
    hend := (read_from_bit data 7 0xF) % 256
    fd3 := read_bool_from_bit data 11
    disfdcc := read_bool_from_bit data 12
    rndtf := read_bool_from_bit data 13
    chm := read_bool_from_bit data 14
    tbl := (read_from_bit data 15 0x3) % 256
    vsense := read_bool_from_bit data 17
    vhighfs := read_bool_from_bit data 18
    vhighchm := read_bool_from_bit data 19
    mres := (read_from_bit data 24 0xF) % 256
    intpol16 := read_bool_from_bit data 28
    dedge := read_bool_from_bit data 29
    diss2g := read_bool_from_bit data 30
  }

/-- Embedding of the From(ChopConf) for u32 impl. -/
def ChopConf.encode (data : ChopConf) : Nat :=
  let value := 0
  let value := write_from_bit value 0 0xF data.toff
  let value := write_from_bit value 4 0x7 data.hstrt
  let value := write_from_bit value 7 0xF data.hend
  let value := write_bool_to_bit value 11 data.fd3
  let value := write_bool_to_bit value 12 data.disfdcc
  let value := write_bool_to_bit value 13 data.rndtf
  let value := write_bool_to_bit value 14 data.chm
  let value := write_from_bit value 15 0x3 data.tbl
  let value := write_bool_to_bit value 17 data.vsense
  let value := write_bool_to_bit value 18 data.vhighfs
  let value := write_bool_to_bit value 19 data.vhighchm
  let value := write_from_bit value 24 0xF data.mres
  let value := write_bool_to_bit value 28 data.intpol16
  let value := write_bool_to_bit value 29 data.dedge
  let value := write_bool_to_bit value 30 data.diss2g
  value

/-- Embedding of the Default impl for ChopConf (Self::from(0u32)). -/
def ChopConf.default : ChopConf := ChopConf.decode 0

/-- Register DrvStatus (motor_driver_register.rs DRV_STATUS). -/
structure DrvStatus where
  sg_result : Nat
  fsactive : Bool
  cs_actual : Nat
  stall_guard : Bool
  ot : Bool
  otpw : Bool
  s2ga : Bool
  s2gb : Bool
  ola : Bool
  olb : Bool
  stst : Bool
deriving DecidableEq

/-- Embedding of the From(u32) impl for DrvStatus. -/
def DrvStatus.decode (data : Nat) : DrvStatus :=
  {
    sg_result := (read_from_bit data 0 0x3FF) % 65536
    fsactive := read_bool_from_bit data 15
    cs_actual := (read_from_bit data 16 0x1F) % 256
    stall_guard := read_bool_from_bit data 24
    ot := read_bool_from_bit data 25
    otpw := read_bool_from_bit data 26
    s2ga := read_bool_from_bit data 27
    s2gb := read_bool_from_bit data 28
    ola := read_bool_from_bit data 29
    olb := read_bool_from_bit data 30
    stst := read_bool_from_bit data 31
  }

/-- Embedding of the From(DrvStatus) for u32 impl. -/
def DrvStatus.encode (data : DrvStatus) : Nat :=
  let value := 0
  let value := write_from_bit value 0 0x3FF data.sg_result
  let value := write_bool_to_bit value 15 data.fsactive
  let value := write_from_bit value 16 0x1F data.cs_actual
  let value := write_bool_to_bit value 24 data.stall_guard
  let value := write_bool_to_bit value 25 data.ot
  let value := write_bool_to_bit value 26 data.otpw
  let value := write_bool_to_bit value 27 data.s2ga
  let value := write_bool_to_bit value 28 data.s2gb
  let value := write_bool_to_bit value 29 data.ola
  let value := write_bool_to_bit value 30 data.olb
  let value := write_bool_to_bit value 31 data.stst
  value

/-- Embedding of the Default impl for DrvStatus (Self::from(0u32)). -/
def DrvStatus.default : DrvStatus := DrvStatus.decode 0

/-- Register Output (general_configuration_register.rs OUTPUT). -/
structure Output where
  io0 : Bool
  io1 : Bool
  io2 : Bool
  io_ddr0 : Bool
  io_ddr1 : Bool
  io_ddr2 : Bool
deriving DecidableEq

/-- Embedding of the From(u32) impl for Output. -/
def Output.decode (data : Nat) : Output :=
  {
    io0 := read_bool_from_bit data 0
    io1 := read_bool_from_bit data 1
    io2 := read_bool_from_bit data 2
    io_ddr0 := read_bool_from_bit data 8
    io_ddr1 := read_bool_from_bit data 9
    io_ddr2 := read_bool_from_bit data 10
  }

/-- Embedding of the From(Output) for u32 impl. -/
def Output.encode (data : Output) : Nat :=
  let value := 0
  let value := write_bool_to_bit value 0 data.io0
  let value := write_bool_to_bit value 1 data.io1
  let value := write_bool_to_bit value 2 data.io2
  let value := write_bool_to_bit value 8 data.io_ddr0
  let value := write_bool_to_bit value 9 data.io_ddr1
  let value := write_bool_to_bit value 10 data.io_ddr2
  value

/-- Embedding of the Default impl for Output (Self::from(0u32)). -/
def Output.default : Output := Output.decode 0

/-- Register MsLut0 (microstep_table_register.rs MSLUT[0]). -/
structure MsLut0 where
  ms_lut0 : Nat
deriving DecidableEq

/-- Embedding of the From(u32) impl for MsLut0. -/
def MsLut0.decode (data : Nat) : MsLut0 :=
  {
    ms_lut0 := read_from_bit data 0 0xFFFFFFFF
  }

/-- Embedding of the From(MsLut0) for u32 impl. -/
def MsLut0.encode (data : MsLut0) : Nat :=
  let value := 0
  let value := write_from_bit value 0 0xFFFFFFFF data.ms_lut0
  value

/-- Embedding of the Default impl for MsLut0 (Self::from(0u32)). -/
def MsLut0.default : MsLut0 := MsLut0.decode 0

/-- Register MsLut1 (microstep_table_register.rs MSLUT[1]). -/
structure MsLut1 where
  ms_lut1 : Nat
deriving DecidableEq

/-- Embedding of the From(u32) impl for MsLut1. -/
def MsLut1.decode (data : Nat) : MsLut1 :=
  {
    ms_lut1 := read_from_bit data 0 0xFFFFFFFF
  }

/-- Embedding of the From(MsLut1) for u32 impl. -/
def MsLut1.encode (data : MsLut1) : Nat :=
  let value := 0
  let value := write_from_bit value 0 0xFFFFFFFF data.ms_lut1
  value

/-- Embedding of the Default impl for MsLut1 (Self::from(0u32)). -/
def MsLut1.default : MsLut1 := MsLut1.decode 0

/-- Register MsLut2 (microstep_table_register.rs MSLUT[2]). -/
structure MsLut2 where
  ms_lut2 : Nat
deriving DecidableEq

/-- Embedding of the From(u32) impl for MsLut2. -/
def MsLut2.decode (data : Nat) : MsLut2 :=
  {
    ms_lut2 := read_from_bit data 0 0xFFFFFFFF
  }

/-- Embedding of the From(MsLut2) for u32 impl. -/
def MsLut2.encode (data : MsLut2) : Nat :=
  let value := 0
  let value := write_from_bit value 0 0xFFFFFFFF data.ms_lut2
  value

/-- Embedding of the Default impl for MsLut2 (Self::from(0u32)). -/
def MsLut2.default : MsLut2 := MsLut2.decode 0

/-- Register MsLut3 (microstep_table_register.rs MSLUT[3]). -/
structure MsLut3 where
  ms_lut3 : Nat
deriving DecidableEq

/-- Embedding of the From(u32) impl for MsLut3. -/
def MsLut3.decode (data : Nat) : MsLut3 :=
  {
    ms_lut3 := read_from_bit data 0 0xFFFFFFFF
  }

/-- Embedding of the From(MsLut3) for u32 impl. -/
def MsLut3.encode (data : MsLut3) : Nat :=
  let value := 0
  let value := write_from_bit value 0 0xFFFFFFFF data.ms_lut3
  value

/-- Embedding of the Default impl for MsLut3 (Self::from(0u32)). -/
def MsLut3.default : MsLut3 := MsLut3.decode 0

/-- Register MsLut4 (microstep_table_register.rs MSLUT[4]). -/
structure MsLut4 where
  ms_lut4 : Nat
deriving DecidableEq

/-- Embedding of the From(u32) impl for MsLut4. -/
def MsLut4.decode (data : Nat) : MsLut4 :=
  {
    ms_lut4 := read_from_bit data 0 0xFFFFFFFF
  }

/-- Embedding of the From(MsLut4) for u32 impl. -/
def MsLut4.encode (data : MsLut4) : Nat :=
  let value := 0
  let value := write_from_bit value 0 0xFFFFFFFF data.ms_lut4
  value

/-- Embedding of the Default impl for MsLut4 (Self::from(0u32)). -/
def MsLut4.default : MsLut4 := MsLut4.decode 0

/-- Register MsLut5 (microstep_table_register.rs MSLUT[5]). -/
structure MsLut5 where
  ms_lut5 : Nat
deriving DecidableEq

/-- Embedding of the From(u32) impl for MsLut5. -/
def MsLut5.decode (data : Nat) : MsLut5 :=
  {
    ms_lut5 := read_from_bit data 0 0xFFFFFFFF
  }

/-- Embedding of the From(MsLut5) for u32 impl. -/
def MsLut5.encode (data : MsLut5) : Nat :=
  let value := 0
  let value := write_from_bit value 0 0xFFFFFFFF data.ms_lut5
  value

/-- Embedding of the Default impl for MsLut5 (Self::from(0u32)). -/
def MsLut5.default : MsLut5 := MsLut5.decode 0

/-- Register MsLut6 (microstep_table_register.rs MSLUT[6]). -/
structure MsLut6 where
  ms_lut6 : Nat
deriving DecidableEq

/-- Embedding of the From(u32) impl for MsLut6. -/
def MsLut6.decode (data : Nat) : MsLut6 :=
  {
    ms_lut6 := read_from_bit data 0 0xFFFFFFFF
  }

/-- Embedding of the From(MsLut6) for u32 impl. -/
def MsLut6.encode (data : MsLut6) : Nat :=
  let value := 0
  let value := write_from_bit value 0 0xFFFFFFFF data.ms_lut6
  value

/-- Embedding of the Default impl for MsLut6 (Self::from(0u32)). -/
def MsLut6.default : MsLut6 := MsLut6.decode 0

/-- Register MsLut7 (microstep_table_register.rs MSLUT[7]). -/
structure MsLut7 where
  ms_lut7 : Nat
deriving DecidableEq

/-- Embedding of the From(u32) impl for MsLut7. -/
def MsLut7.decode (data : Nat) : MsLut7 :=
  {
    ms_lut7 := read_from_bit data 0 0xFFFFFFFF
  }

/-- Embedding of the From(MsLut7) for u32 impl. -/
def MsLut7.encode (data : MsLut7) : Nat :=
  let value := 0
  let value := write_from_bit value 0 0xFFFFFFFF data.ms_lut7
  value

/-- Embedding of the Default impl for MsLut7 (Self::from(0u32)). -/
def MsLut7.default : MsLut7 := MsLut7.decode 0

/-- Register MsLutSel (microstep_table_register.rs MSLUTSEL). -/
structure MsLutSel where
  w0 : Nat
  w1 : Nat
  w2 : Nat
  w3 : Nat
  x1 : Nat
  x2 : Nat
  x3 : Nat
deriving DecidableEq

/-- Embedding of the From(u32) impl for MsLutSel. -/
def MsLutSel.decode (data : Nat) : MsLutSel :=
  {
    w0 := (read_from_bit data 0 0x3) % 256
    w1 := (read_from_bit data 2 0x3) % 256
    w2 := (read_from_bit data 4 0x3) % 256
    w3 := (read_from_bit data 6 0x3) % 256
    x1 := (read_from_bit data 8 0xFF) % 256
    x2 := (read_from_bit data 16 0xFF) % 256
    x3 := (read_from_bit data 24 0xFF) % 256
  }

/-- Embedding of the From(MsLutSel) for u32 impl. -/
def MsLutSel.encode (data : MsLutSel) : Nat :=
  let value := 0
  let value := write_from_bit value 0 0x3 data.w0
  let value := write_from_bit value 2 0x3 data.w1
  let value := write_from_bit value 4 0x3 data.w2
  let value := write_from_bit value 6 0x3 data.w3
  let value := write_from_bit value 8 0xFF data.x1
  let value := write_from_bit value 16 0xFF data.x2
  let value := write_from_bit value 24 0xFF data.x3
  value

/-- Embedding of the Default impl for MsLutSel (Self::from(0u32)). -/
def MsLutSel.default : MsLutSel := MsLutSel.decode 0

/-- Register MsLutStart (microstep_table_register.rs MSLUTSTART). -/
structure MsLutStart where
  start_sin : Nat
  start_sin90 : Nat
deriving DecidableEq

/-- Embedding of the From(u32) impl for MsLutStart. -/
def MsLutStart.decode (data : Nat) : MsLutStart :=
  {
    start_sin := (read_from_bit data 0 0xFF) % 256
    start_sin90 := (read_from_bit data 8 0xFF) % 256
  }

/-- Embedding of the From(MsLutStart) for u32 impl. -/
def MsLutStart.encode (data : MsLutStart) : Nat :=
  let value := 0
  let value := write_from_bit value 0 0xFF data.start_sin
  let value := write_from_bit value 8 0xFF data.start_sin90
  value

/-- Embedding of the Default impl for MsLutStart: an explicit non-zero default
with start_sin = 0 and start_sin90 = 247, not derived from decode 0. -/
def MsLutStart.default : MsLutStart := { start_sin := 0, start_sin90 := 247 }

/-- Register MsCnt (motor_driver_register.rs MSCNT). -/
structure MsCnt where
  ms_cnt : Nat
deriving DecidableEq

/-- Embedding of the From(u32) impl for MsCnt. -/
def MsCnt.decode (data : Nat) : MsCnt :=
  {
    ms_cnt := (read_from_bit data 0 0x3FF) % 65536
  }

/-- Embedding of the From(MsCnt) for u32 impl. -/
def MsCnt.encode (data : MsCnt) : Nat :=
  let value := 0
  let value := write_from_bit value 0 0x3FF data.ms_cnt
  value

/-- Embedding of the Default impl for MsCnt (Self::from(0u32)). -/
def MsCnt.default : MsCnt := MsCnt.decode 0

/-- Register DcCtrl (motor_driver_register.rs DCCTRL). -/
structure DcCtrl where
  dc_time : Nat
  dc_sg : Nat
deriving DecidableEq

/-- Embedding of the From(u32) impl for DcCtrl. -/
def DcCtrl.decode (data : Nat) : DcCtrl :=
  {
    dc_time := (read_from_bit data 0 0xFF) % 256
    dc_sg := (read_from_bit data 8 0xFF) % 256
  }

/-- Embedding of the From(DcCtrl) for u32 impl. -/
def DcCtrl.encode (data : DcCtrl) : Nat :=
  let value := 0
  let value := write_from_bit value 0 0xFF data.dc_time
  let value := write_from_bit value 8 0xFF data.dc_sg
  value

/-- Embedding of the Default impl for DcCtrl (Self::from(0u32)). -/
def DcCtrl.default : DcCtrl := DcCtrl.decode 0

/-- Register RampMode (ramp_generator_register.rs RAMPMODE). -/
structure RampMode where
  ramp_mode : Nat
deriving DecidableEq

/-- Embedding of the From(u32) impl for RampMode. -/
def RampMode.decode (data : Nat) : RampMode :=
  {
    ramp_mode := (read_from_bit data 0 0x3) % 256
  }

/-- Embedding of the From(RampMode) for u32 impl. -/
def RampMode.encode (data : RampMode) : Nat :=
  let value := 0
  let value := write_from_bit value 0 0x3 data.ramp_mode
  value

/-- Embedding of the Default impl for RampMode (Self::from(0u32)). -/
def RampMode.default : RampMode := RampMode.decode 0

/-- Register VStart (ramp_generator_register.rs VSTART). -/
structure VStart where
  v_start : Nat
deriving DecidableEq

/-- Embedding of the From(u32) impl for VStart. -/
def VStart.decode (data : Nat) : VStart :=
  {
    v_start := read_from_bit data 0 0x3FFFF
  }

/-- Embedding of the From(VStart) for u32 impl. -/
def VStart.encode (data : VStart) : Nat :=
  let value := 0
  let value := write_from_bit value 0 0x3FFFF data.v_start
  value

/-- Embedding of the Default impl for VStart (Self::from(0u32)). -/
def VStart.default : VStart := VStart.decode 0

/-- Register A1 (ramp_generator_register.rs A1). -/
structure A1 where
  a1 : Nat
deriving DecidableEq

/-- Embedding of the From(u32) impl for A1. -/
def A1.decode (data : Nat) : A1 :=
  {
    a1 := (read_from_bit data 0 0xFFFF) % 65536
  }

/-- Embedding of the From(A1) for u32 impl. -/
def A1.encode (data : A1) : Nat :=
  let value := 0
  let value := write_from_bit value 0 0xFFFF data.a1
  value

/-- Embedding of the Default impl for A1 (Self::from(0u32)). -/
def A1.default : A1 := A1.decode 0

/-- Register V1 (ramp_generator_register.rs V1). -/
structure V1 where
  v1 : Nat
deriving DecidableEq

/-- Embedding of the From(u32) impl for V1. -/
def V1.decode (data : Nat) : V1 :=
  {
    v1 := read_from_bit data 0 0xFFFFF
  }

/-- Embedding of the From(V1) for u32 impl. -/
def V1.encode (data : V1) : Nat :=
  let value := 0
  let value := write_from_bit value 0 0xFFFFF data.v1
  value

/-- Embedding of the Default impl for V1 (Self::from(0u32)). -/
def V1.default : V1 := V1.decode 0

/-- Register AMax (ramp_generator_register.rs AMAX). -/
structure AMax where
  a_max : Nat
deriving DecidableEq

/-- Embedding of the From(u32) impl for AMax. -/
def AMax.decode (data : Nat) : AMax :=
  {
    a_max := (read_from_bit data 0 0xFFFF) % 65536
  }

/-- Embedding of the From(AMax) for u32 impl. -/
def AMax.encode (data : AMax) : Nat :=
  let value := 0
  let value := write_from_bit value 0 0xFFFF data.a_max
  value

/-- Embedding of the Default impl for AMax (Self::from(0u32)). -/
def AMax.default : AMax := AMax.decode 0

/-- Register VMax (ramp_generator_register.rs VMAX). -/
structure VMax where
  v_max : Nat
deriving DecidableEq

/-- Embedding of the From(u32) impl for VMax. -/
def VMax.decode (data : Nat) : VMax :=
  {
    v_max := read_from_bit data 0 0x7FFFFF
  }

/-- Embedding of the From(VMax) for u32 impl. -/
def VMax.encode (data : VMax) : Nat :=
  let value := 0
  let value := write_from_bit value 0 0x7FFFFF data.v_max
  value

/-- Embedding of the Default impl for VMax (Self::from(0u32)). -/
def VMax.default : VMax := VMax.decode 0

/-- Register DMax (ramp_generator_register.rs DMAX). -/
structure DMax where
  d_max : Nat
deriving DecidableEq

/-- Embedding of the From(u32) impl for DMax. -/
def DMax.decode (data : Nat) : DMax :=
  {
    d_max := (read_from_bit data 0 0xFFFF) % 65536
  }

/-- Embedding of the From(DMax) for u32 impl. -/
def DMax.encode (data : DMax) : Nat :=
  let value := 0
  let value := write_from_bit value 0 0xFFFF data.d_max
  value

/-- Embedding of the Default impl for DMax (Self::from(0u32)). -/
def DMax.default : DMax := DMax.decode 0

/-- Register D1 (ramp_generator_register.rs D1). -/
structure D1 where
  d1 : Nat
deriving DecidableEq

/-- Embedding of the From(u32) impl for D1. -/
def D1.decode (data : Nat) : D1 :=
  {
    d1 := (read_from_bit data 0 0xFFFF) % 65536
  }

/-- Embedding of the From(D1) for u32 impl. -/
def D1.encode (data : D1) : Nat :=
  let value := 0
  let value := write_from_bit value 0 0xFFFF data.d1
  value

/-- Embedding of the Default impl for D1 (Self::from(0u32)). -/
def D1.default : D1 := D1.decode 0

/-- Register VStop (ramp_generator_register.rs VSTOP). -/
structure VStop where
  v_stop : Nat
deriving DecidableEq

/-- Embedding of the From(u32) impl for VStop. -/
def VStop.decode (data : Nat) : VStop :=
  {
    v_stop := read_from_bit data 0 0x3FFFF
  }

/-- Embedding of the From(VStop) for u32 impl. -/
def VStop.encode (data : VStop) : Nat :=
  let value := 0
  let value := write_from_bit value 0 0x3FFFF data.v_stop
  value

/-- Embedding of the Default impl for VStop (Self::from(0u32)). -/
def VStop.default : VStop := VStop.decode 0

/-- Register TZeroWait (ramp_generator_register.rs TZEROWAIT). -/
structure TZeroWait where
  t_zero_wait : Nat
deriving DecidableEq

/-- Embedding of the From(u32) impl for TZeroWait. -/
def TZeroWait.decode (data : Nat) : TZeroWait :=
  {
    t_zero_wait := (read_from_bit data 0 0xFFFF) % 65536
  }

/-- Embedding of the From(TZeroWait) for u32 impl. -/
def TZeroWait.encode (data : TZeroWait) : Nat :=
  let value := 0
  let value := write_from_bit value 0 0xFFFF data.t_zero_wait
  value

/-- Embedding of the Default impl for TZeroWait (Self::from(0u32)). -/
def TZeroWait.default : TZeroWait := TZeroWait.decode 0

/-- Register IHoldIRun (ramp_generator_driver_feature_control_register.rs IHOLD_IRUN). -/
structure IHoldIRun where
  i_hold : Nat
  i_run : Nat
  i_hold_delay : Nat
deriving DecidableEq

/-- Embedding of the From(u32) impl for IHoldIRun. -/
def IHoldIRun.decode (data : Nat) : IHoldIRun :=
  {
    i_hold := (read_from_bit data 0 0x1F) % 256
    i_run := (read_from_bit data 8 0x1F) % 256
    i_hold_delay := (read_from_bit data 16 0xF) % 256
  }

/-- Embedding of the From(IHoldIRun) for u32 impl. -/
def IHoldIRun.encode (data : IHoldIRun) : Nat :=
  let value := 0
  let value := write_from_bit value 0 0x1F data.i_hold
  let value := write_from_bit value 8 0x1F data.i_run
  let value := write_from_bit value 16 0xF data.i_hold_delay
  value

/-- Embedding of the Default impl for IHoldIRun (Self::from(0u32)). -/
def IHoldIRun.default : IHoldIRun := IHoldIRun.decode 0

/-- Register VCoolThrs (ramp_generator_driver_feature_control_register.rs VCOOLTHRS). -/
structure VCoolThrs where
  v_cool_thrs : Nat
deriving DecidableEq

/-- Embedding of the From(u32) impl for VCoolThrs. -/
def VCoolThrs.decode (data : Nat) : VCoolThrs :=
  {
    v_cool_thrs := read_from_bit data 0 0x7FFFFF
  }

/-- Embedding of the From(VCoolThrs) for u32 impl. -/
def VCoolThrs.encode (data : VCoolThrs) : Nat :=
  let value := 0
  let value := write_from_bit value 0 0x7FFFFF data.v_cool_thrs
  value

/-- Embedding of the Default impl for VCoolThrs (Self::from(0u32)). -/
def VCoolThrs.default : VCoolThrs := VCoolThrs.decode 0

/-- Register VHigh (ramp_generator_driver_feature_control_register.rs VHIGH). -/
structure VHigh where
  v_high : Nat
deriving DecidableEq

/-- Embedding of the From(u32) impl for VHigh. -/
def VHigh.decode (data : Nat) : VHigh :=
  {
    v_high := read_from_bit data 0 0x7FFFFF
  }

/-- Embedding of the From(VHigh) for u32 impl. -/
def VHigh.encode (data : VHigh) : Nat :=
  let value := 0
  let value := write_from_bit value 0 0x7FFFFF data.v_high
  value

/-- Embedding of the Default impl for VHigh (Self::from(0u32)). -/
def VHigh.default : VHigh := VHigh.decode 0

/-- Register VDcMin (ramp_generator_driver_feature_control_register.rs VDCMIN). -/
structure VDcMin where
  v_dc_min : Nat
deriving DecidableEq

/-- Embedding of the From(u32) impl for VDcMin. -/
def VDcMin.decode (data : Nat) : VDcMin :=
  {
    v_dc_min := read_from_bit data 0 0x7FFFFF
  }

/-- Embedding of the From(VDcMin) for u32 impl. -/
def VDcMin.encode (data : VDcMin) : Nat :=
  let value := 0
  let value := write_from_bit value 0 0x7FFFFF data.v_dc_min
  value

/-- Embedding of the Default impl for VDcMin (Self::from(0u32)). -/
def VDcMin.default : VDcMin := VDcMin.decode 0

/-- Register SwMode (ramp_generator_driver_feature_control_register.rs SW_MODE). -/
structure SwMode where
  stop_l_enable : Bool
  stop_r_enable : Bool
  pol_stop_l : Bool
  pol_stop_r : Bool
  swap_lr : Bool
  latch_l_active : Bool
  latch_l_inactive : Bool
  latch_r_active : Bool
  latch_r_inactive : Bool
  en_latch_encoder : Bool
  sg_stop : Bool
  en_softstop : Bool
deriving DecidableEq

/-- Embedding of the From(u32) impl for SwMode. -/
def SwMode.decode (data : Nat) : SwMode :=
  {
    stop_l_enable := read_bool_from_bit data 0
    stop_r_enable := read_bool_from_bit data 1
    pol_stop_l := read_bool_from_bit data 2
    pol_stop_r := read_bool_from_bit data 3
    swap_lr := read_bool_from_bit data 4
    latch_l_active := read_bool_from_bit data 5
    latch_l_inactive := read_bool_from_bit data 6
    latch_r_active := read_bool_from_bit data 7
    latch_r_inactive := read_bool_from_bit data 8
    en_latch_encoder := read_bool_from_bit data 9
    sg_stop := read_bool_from_bit data 10
    en_softstop := read_bool_from_bit data 11
  }

/-- Embedding of the From(SwMode) for u32 impl. -/
def SwMode.encode (data : SwMode) : Nat :=
  let value := 0
  let value := write_bool_to_bit value 0 data.stop_l_enable
  let value := write_bool_to_bit value 1 data.stop_r_enable
  let value := write_bool_to_bit value 2 data.pol_stop_l
  let value := write_bool_to_bit value 3 data.pol_stop_r
  let value := write_bool_to_bit value 4 data.swap_lr
  let value := write_bool_to_bit value 5 data.latch_l_active
  let value := write_bool_to_bit value 6 data.latch_l_inactive
  let value := write_bool_to_bit value 7 data.latch_r_active
  let value := write_bool_to_bit value 8 data.latch_r_inactive
  let value := write_bool_to_bit value 9 data.en_latch_encoder
  let value := write_bool_to_bit value 10 data.sg_stop
  let value := write_bool_to_bit value 11 data.en_softstop
  value

/-- Embedding of the Default impl for SwMode (Self::from(0u32)). -/
def SwMode.default : SwMode := SwMode.decode 0

/-- Register RampStat (ramp_generator_driver_feature_control_register.rs RAMP_STAT). -/
structure RampStat where
  status_stop_l : Bool
  status_stop_r : Bool
  status_latch_l : Bool
  status_latch_r : Bool
  event_stop_l : Bool
  event_stop_r : Bool
  event_stop_sg : Bool
  event_pos_reached : Bool
  velocity_reached : Bool
  position_reached : Bool
  vzero : Bool
  t_zerowait_active : Bool
  second_move : Bool
  status_sg : Bool
deriving DecidableEq

/-- Embedding of the From(u32) impl for RampStat. -/
def RampStat.decode (data : Nat) : RampStat :=
  {
    status_stop_l := read_bool_from_bit data 0
    status_stop_r := read_bool_from_bit data 1
    status_latch_l := read_bool_from_bit data 2
    status_latch_r := read_bool_from_bit data 3
    event_stop_l := read_bool_from_bit data 4
    event_stop_r := read_bool_from_bit data 5
    event_stop_sg := read_bool_from_bit data 6
    event_pos_reached := read_bool_from_bit data 7
    velocity_reached := read_bool_from_bit data 8
    position_reached := read_bool_from_bit data 9
    vzero := read_bool_from_bit data 10
    t_zerowait_active := read_bool_from_bit data 11
    second_move := read_bool_from_bit data 12
    status_sg := read_bool_from_bit data 13
  }

/-- Embedding of the From(RampStat) for u32 impl. -/
def RampStat.encode (data : RampStat) : Nat :=
  let value := 0
  let value := write_bool_to_bit value 0 data.status_stop_l
  let value := write_bool_to_bit value 1 data.status_stop_r
  let value := write_bool_to_bit value 2 data.status_latch_l
  let value := write_bool_to_bit value 3 data.status_latch_r
  let value := write_bool_to_bit value 4 data.event_stop_l
  let value := write_bool_to_bit value 5 data.event_stop_r
  let value := write_bool_to_bit value 6 data.event_stop_sg
  let value := write_bool_to_bit value 7 data.event_pos_reached
  let value := write_bool_to_bit value 8 data.velocity_reached
  let value := write_bool_to_bit value 9 data.position_reached
  let value := write_bool_to_bit value 10 data.vzero
  let value := write_bool_to_bit value 11 data.t_zerowait_active
  let value := write_bool_to_bit value 12 data.second_move
  let value := write_bool_to_bit value 13 data.status_sg
  value

/-- Embedding of the Default impl for RampStat (Self::from(0u32)). -/
def RampStat.default : RampStat := RampStat.decode 0

/-- Register XLatch (ramp_generator_driver_feature_control_register.rs XLATCH). -/
structure XLatch where
  x_latch : Nat
deriving DecidableEq

/-- Embedding of the From(u32) impl for XLatch. -/
def XLatch.decode (data : Nat) : XLatch :=
  {
    x_latch := read_from_bit data 0 0xFFFFFFFF
  }

/-- Embedding of the From(XLatch) for u32 impl. -/
def XLatch.encode (data : XLatch) : Nat :=
  let value := 0
  let value := write_from_bit value 0 0xFFFFFFFF data.x_latch
  value

/-- Embedding of the Default impl for XLatch (Self::from(0u32)). -/
def XLatch.default : XLatch := XLatch.decode 0

/-- Register EncMode (encoder_registers.rs ENCMODE). -/
structure EncMode where
  pol_a : Bool
  pol_b : Bool
  pol_n : Bool
  ignore_ab : Bool
  clr_cont : Bool
  clr_once : Bool
  pos_edge : Bool
  neg_edge : Bool
  clr_enc_x : Bool
  latch_x_act : Bool
  enc_sel_decimal : Bool
  latch_now : Bool
deriving DecidableEq

/-- Embedding of the From(u32) impl for EncMode. -/
def EncMode.decode (data : Nat) : EncMode :=
  {
    pol_a := read_bool_from_bit data 0
    pol_b := read_bool_from_bit data 1
    pol_n := read_bool_from_bit data 2
    ignore_ab := read_bool_from_bit data 3
    clr_cont := read_bool_from_bit data 4
    clr_once := read_bool_from_bit data 5
    pos_edge := read_bool_from_bit data 6
    neg_edge := read_bool_from_bit data 7
    clr_enc_x := read_bool_from_bit data 8
    latch_x_act := read_bool_from_bit data 9
    enc_sel_decimal := read_bool_from_bit data 10
    latch_now := read_bool_from_bit data 11
  }

/-- Embedding of the From(EncMode) for u32 impl. -/
def EncMode.encode (data : EncMode) : Nat :=
  let value := 0
  let value := write_bool_to_bit value 0 data.pol_a
  let value := write_bool_to_bit value 1 data.pol_b
  let value := write_bool_to_bit value 2 data.pol_n
  let value := write_bool_to_bit value 3 data.ignore_ab
  let value := write_bool_to_bit value 4 data.clr_cont
  let value := write_bool_to_bit value 5 data.clr_once
  let value := write_bool_to_bit value 6 data.pos_edge
  let value := write_bool_to_bit value 7 data.neg_edge
  let value := write_bool_to_bit value 8 data.clr_enc_x
  let value := write_bool_to_bit value 9 data.latch_x_act
  let value := write_bool_to_bit value 10 data.enc_sel_decimal
  let value := write_bool_to_bit value 11 data.latch_now
  value

/-- Embedding of the Default impl for EncMode (Self::from(0u32)). -/
def EncMode.default : EncMode := EncMode.decode 0

/-- Register EncStatus (encoder_registers.rs ENC_STATUS). -/
structure EncStatus where
  enc_status : Bool
deriving DecidableEq

/-- Embedding of the From(u32) impl for EncStatus. -/
def EncStatus.decode (data : Nat) : EncStatus :=
  {
    enc_status := read_bool_from_bit data 0
  }

/-- Embedding of the From(EncStatus) for u32 impl. -/
def EncStatus.encode (data : EncStatus) : Nat :=
  let value := 0
  let value := write_bool_to_bit value 0 data.enc_status
  value

/-- Embedding of the Default impl for EncStatus (Self::from(0u32)). -/
def EncStatus.default : EncStatus := EncStatus.decode 0

/-- Register PwmConf (voltage_pwm_mode_stealth_chop.rs PWMCONF). -/
structure PwmConf where
  pwm_ampl : Nat
  pwm_grad : Nat
  pwm_freq : Nat
  pwm_autoscale : Bool
  freewheel : Nat
deriving DecidableEq

/-- Embedding of the From(u32) impl for PwmConf. -/
def PwmConf.decode (data : Nat) : PwmConf :=
  {
    pwm_ampl := (read_from_bit data 0 0xFF) % 256
    pwm_grad := (read_from_bit data 8 0xFF) % 256
    pwm_freq := (read_from_bit data 16 0x3) % 256
    pwm_autoscale := read_bool_from_bit data 18
    freewheel := (read_from_bit data 20 0x3) % 256
  }

/-- Embedding of the From(PwmConf) for u32 impl. -/
def PwmConf.encode (data : PwmConf) : Nat :=
  let value := 0
  let value := write_from_bit value 0 0xFF data.pwm_ampl
  let value := write_from_bit value 8 0xFF data.pwm_grad
  let value := write_from_bit value 16 0x3 data.pwm_freq
  let value := write_bool_to_bit value 18 data.pwm_autoscale
  let value := write_from_bit value 20 0x3 data.freewheel
  value

/-- Embedding of the Default impl for PwmConf (Self::from(0u32)). -/
def PwmConf.default : PwmConf := PwmConf.decode 0

/-- Register PwmStatus (voltage_pwm_mode_stealth_chop.rs PWM_STATUS). -/
structure PwmStatus where
  pwm_status : Nat
deriving DecidableEq

/-- Embedding of the From(u32) impl for PwmStatus. -/
def PwmStatus.decode (data : Nat) : PwmStatus :=
  {
    pwm_status := (read_from_bit data 0 0xFF) % 256
  }

/-- Embedding of the From(PwmStatus) for u32 impl. -/
def PwmStatus.encode (data : PwmStatus) : Nat :=
  let value := 0
  let value := write_from_bit value 0 0xFF data.pwm_status
  value

/-- Embedding of the Default impl for PwmStatus (Self::from(0u32)). -/
def PwmStatus.default : PwmStatus := PwmStatus.decode 0

/-- Register XActual (ramp_generator_register.rs XACTUAL): a full 32-bit signed
position, decoded by reinterpreting the raw word as an `i32`. -/
structure XActual where
  x_actual : Int
deriving DecidableEq

/-- Embedding of the From(u32) impl for XActual. -/
def XActual.decode (data : Nat) : XActual :=
  { x_actual := u32_as_i32 (read_from_bit data 0 0xFFFFFFFF) }

/-- Embedding of the From(XActual) for u32 impl. -/
def XActual.encode (data : XActual) : Nat :=
  let value := 0
  let value := write_from_bit value 0 0xFFFFFFFF (i32_as_u32 data.x_actual)
  value

/-- Embedding of the Default impl for XActual (Self::from(0u32)). -/
def XActual.default : XActual := XActual.decode 0

/-- Register XTarget (ramp_generator_register.rs XTARGET): full 32-bit signed
target position, decoded by reinterpreting the raw word as an `i32`. -/
structure XTarget where
  x_target : Int
deriving DecidableEq

/-- Embedding of the From(u32) impl for XTarget. -/
def XTarget.decode (data : Nat) : XTarget :=
  { x_target := u32_as_i32 (read_from_bit data 0 0xFFFFFFFF) }

/-- Embedding of the From(XTarget) for u32 impl. -/
def XTarget.encode (data : XTarget) : Nat :=
  let value := 0
  let value := write_from_bit value 0 0xFFFFFFFF (i32_as_u32 data.x_target)
  value

/-- Embedding of the Default impl for XTarget (Self::from(0u32)). -/
def XTarget.default : XTarget := XTarget.decode 0

/-- Register XEnc (encoder_registers.rs X_ENC): full 32-bit signed encoder
position, decoded by reinterpreting the raw word as an `i32`. -/
structure XEnc where
  x_enc : Int
deriving DecidableEq

/-- Embedding of the From(u32) impl for XEnc. -/
def XEnc.decode (data : Nat) : XEnc :=
  { x_enc := u32_as_i32 (read_from_bit data 0 0xFFFFFFFF) }

/-- Embedding of the From(XEnc) for u32 impl. -/
def XEnc.encode (data : XEnc) : Nat :=
  let value := 0
  let value := write_from_bit value 0 0xFFFFFFFF (i32_as_u32 data.x_enc)
  value

/-- Embedding of the Default impl for XEnc (Self::from(0u32)). -/
def XEnc.default : XEnc := XEnc.decode 0

/-- Register EncLatch (encoder_registers.rs ENC_LATCH): full 32-bit signed
latched encoder position, decoded by reinterpreting the raw word as an `i32`. -/
structure EncLatch where
  enc_latch : Int
deriving DecidableEq

/-- Embedding of the From(u32) impl for EncLatch. -/
def EncLatch.decode (data : Nat) : EncLatch :=
  { enc_latch := u32_as_i32 (read_from_bit data 0 0xFFFFFFFF) }

/-- Embedding of the From(EncLatch) for u32 impl. -/
def EncLatch.encode (data : EncLatch) : Nat :=
  let value := 0
  let value := write_from_bit value 0 0xFFFFFFFF (i32_as_u32 data.enc_latch)
  value

/-- Embedding of the Default impl for EncLatch (Self::from(0u32)). -/
def EncLatch.default : EncLatch := EncLatch.decode 0

/-- Register VActual (ramp_generator_register.rs VACTUAL): 24-bit signed
velocity using the generic signed-n conversion. -/
structure VActual where
  v_actual : Int
deriving DecidableEq

/-- Embedding of the From(u32) impl for VActual. -/
def VActual.decode (data : Nat) : VActual :=
  { v_actual := convert_to_signed_n (read_from_bit data 0 0xFFFFFF) 24 }

/-- Embedding of the From(VActual) for u32 impl. -/
def VActual.encode (data : VActual) : Nat :=
  let value := 0
  let value := write_from_bit value 0 0xFFFFFF (convert_from_signed_n data.v_actual 24)
  value

/-- Embedding of the Default impl for VActual (Self::from(0u32)). -/
def VActual.default : VActual := VActual.decode 0

/-- Register MsCurAct (motor_driver_register.rs MSCURACT): two 9-bit signed
phase currents, decoded through the generic signed-n conversion and then cast
to `i16`. -/
structure MsCurAct where
  cur_a : Int
  cur_b : Int
deriving DecidableEq

/-- Embedding of the From(u32) impl for MsCurAct. -/
def MsCurAct.decode (data : Nat) : MsCurAct :=
  { cur_a := i32_as_i16 (convert_to_signed_n (read_from_bit data 0 0x1FF) 9)
    cur_b := i32_as_i16 (convert_to_signed_n (read_from_bit data 16 0x1FF) 9) }

/-- Embedding of the From(MsCurAct) for u32 impl. -/
def MsCurAct.encode (data : MsCurAct) : Nat :=
  let value := 0
  let value := write_from_bit value 0 0x1FF (convert_from_signed_n data.cur_a 9)
  let value := write_from_bit value 16 0x1FF (convert_from_signed_n data.cur_b 9)
  value

/-- Embedding of the Default impl for MsCurAct (Self::from(0u32)). -/
def MsCurAct.default : MsCurAct := MsCurAct.decode 0

/-- Register EncConst (encoder_registers.rs ENC_CONST): 16-bit signed integer
part and 16-bit unsigned fractional part of the encoder accumulation
constant. -/
structure EncConst where
  enc_const_int : Int
  enc_const_frac : Nat
deriving DecidableEq

/-- Embedding of the From(u32) impl for EncConst. -/
def EncConst.decode (data : Nat) : EncConst :=
  { enc_const_frac := (read_from_bit data 0 0xFFFF) % 65536
    enc_const_int := u32_as_i16 (read_from_bit data 16 0xFFFF) }

/-- Embedding of the From(EncConst) for u32 impl; the `i16` integer part is
sign-extended to a `u32` bit pattern before the masked write, whose `u32`
shift wraps. -/
def EncConst.encode (data : EncConst) : Nat :=
  let value := 0
  let value := write_from_bit value 0 0xFFFF data.enc_const_frac
  let value := write_from_bit value 16 0xFFFF (i32_as_u32 data.enc_const_int)
  value

/-- Embedding of the Default impl for EncConst (Self::from(0u32)). -/
def EncConst.default : EncConst := EncConst.decode 0

/-! ## Bespoke register CoolConf (motor_driver_register.rs COOLCONF) -/
/-- Embedding of the sgt branch of CoolConf's From(u32) impl: the raw 7-bit
field is reinterpreted via the inverted-magnitude scheme.  If bit 6 is set,
the value is the negation of ((NOT raw) AND 0x3F), taken as an i8, plus 1;
otherwise it is the raw byte reinterpreted as an i8. -/
def CoolConf.decode_sgt (sgt : Nat) : Int :=
  if (sgt >>> 6) &&& 1 = 1 then -((((sgt ^^^ 0xFF) &&& 0x3F : Nat) : Int) + 1)
  else u8_as_i8 sgt

/-- Embedding of the corrected_sgt computation in CoolConf's From for u32
impl: a negative sgt becomes (NOT (-(sgt + 1))) AND 0x3F, as a u8 bit
pattern, with bit 6 set; a non-negative sgt passes through as a u8. -/
def CoolConf.encode_sgt (sgt : Int) : Nat :=
  if sgt < 0 then ((i8_as_u8 (-(sgt + 1)) ^^^ 0xFF) &&& 0x3F) ||| (1 <<< 6)
  else i8_as_u8 sgt

/-- Register CoolConf (motor_driver_register.rs COOLCONF): coolStep and
stallGuard2 configuration, with the bespoke inverted-magnitude sgt codec. -/
structure CoolConf where
  semin : Nat
  seup : Nat
  semax : Nat
  sedn : Nat
  seimin : Bool
  sgt : Int
  sfilt : Bool
deriving DecidableEq

/-- Embedding of the From(u32) impl for CoolConf. -/
def CoolConf.decode (data : Nat) : CoolConf :=
  { semin := (read_from_bit data 0 0x0F) % 256
    seup := (read_from_bit data 5 0x03) % 256
    semax := (read_from_bit data 8 0x0F) % 256
    sedn := (read_from_bit data 13 0x03) % 256
    seimin := read_bool_from_bit data 15
    sgt := CoolConf.decode_sgt ((read_from_bit data 16 0x7F) % 256)
    sfilt := read_bool_from_bit data 24 }

/-- Embedding of the From(CoolConf) for u32 impl. -/
def CoolConf.encode (data : CoolConf) : Nat :=
  let corrected_sgt := CoolConf.encode_sgt data.sgt
  let value := 0
  let value := write_from_bit value 0 0x0F data.semin
  let value := write_from_bit value 5 0x03 data.seup
  let value := write_from_bit value 8 0x0F data.semax
  let value := write_from_bit value 13 0x03 data.sedn
  let value := write_bool_to_bit value 15 data.seimin
  let value := write_from_bit value 16 0x7F corrected_sgt
  let value := write_bool_to_bit value 24 data.sfilt
  value

/-- Embedding of the Default impl for CoolConf (Self::from(0u32)). -/
def CoolConf.default : CoolConf := CoolConf.decode 0

/-! ## SPI status byte (src/status.rs) -/
/-- SPI status bits SPI_STATUS: the seven flags decoded from byte 0 of every
exchange. -/
structure SpiStatus where
  reset_flag : Bool
  driver_error1 : Bool
  driver_error2 : Bool
  velocity_reached1 : Bool
  velocity_reached2 : Bool
  status_stop_l1 : Bool
  status_stop_l2 : Bool
deriving DecidableEq

/-- Embedding of the From(u8) impl for SpiStatus: reads bits 0 through 6. -/
def SpiStatus.fromByte (data : Nat) : SpiStatus :=
  { reset_flag := read_bool_from_bit8 data 0
    driver_error1 := read_bool_from_bit8 data 1
    driver_error2 := read_bool_from_bit8 data 2
    velocity_reached1 := read_bool_from_bit8 data 3
    velocity_reached2 := read_bool_from_bit8 data 4
    status_stop_l1 := read_bool_from_bit8 data 5
    status_stop_l2 := read_bool_from_bit8 data 6 }

/-- Embedding of the From(SpiStatus) for u8 impl: writes bits 0 through 6. -/
def SpiStatus.toByte (data : SpiStatus) : Nat :=
  let value := 0
  let value := write_bool_to_bit8 value 0 data.reset_flag
  let value := write_bool_to_bit8 value 1 data.driver_error1
  let value := write_bool_to_bit8 value 2 data.driver_error2
  let value := write_bool_to_bit8 value 3 data.velocity_reached1
  let value := write_bool_to_bit8 value 4 data.velocity_reached2
  let value := write_bool_to_bit8 value 5 data.status_stop_l1
  let value := write_bool_to_bit8 value 6 data.status_stop_l2
  value

/-- Embedding of the Default impl for SpiStatus (Self::from(0u8)). -/
def SpiStatus.default : SpiStatus := SpiStatus.fromByte 0

/-! ## SPI result types and frame decoding (src/spi.rs) -/
/-- One 5-byte SPI frame: a command/status byte followed by four payload
bytes. -/
structure Frame where
  b0 : Nat
  b1 : Nat
  b2 : Nat
  b3 : Nat
  b4 : Nat
deriving DecidableEq

/-- Embedding of SpiOk: bundles the SPI status and the transferred data. -/
structure SpiOk (T : Type) where
  status : SpiStatus
  data : T

/-- Embedding of SpiOk::map. -/
def SpiOk.map {T U : Type} (x : SpiOk T) (f : T → U) : SpiOk U :=
  { status := x.status, data := f x.data }

/-- Embedding of SpiOk::(u32)::from_buffer: parses a 5-byte buffer into the
SPI status (from byte 0) and the big-endian u32 payload (bytes 1-4). -/
def SpiOk.from_buffer (buffer : Frame) : SpiOk Nat :=
  { status := SpiStatus.fromByte buffer.b0
    data := (buffer.b1 <<< 24) ||| (buffer.b2 <<< 16) ||| (buffer.b3 <<< 8) ||| buffer.b4 }

/-- Embedding of SpiOk::(unit)::from_buffer: parses only the SPI status. -/
def SpiOk.from_buffer_unit (buffer : Frame) : SpiOk Unit :=
  { status := SpiStatus.fromByte buffer.b0, data := () }

/-- Embedding of SpiError: a data-exchange failure wraps the transport's
error, a chip-select failure wraps the pin's error in a distinct variant. -/
inductive SpiError (SPI CS : Type) where
  | SpiError : SPI → SpiError SPI CS
  | CSError : CS → SpiError SPI CS
deriving DecidableEq

/-! ## Transaction engine (src/lib.rs) -/
/-- Abstract duplex SPI transport: a state machine whose transfer either
fails with an error `Es` or returns the received frame and a new state. -/
structure SpiDevice (S Es : Type) where
  transfer : S → Frame → Except Es (S × Frame)

/-- Abstract chip-select pin: set_low / set_high either fail with `Ec` or
return the new pin state. -/
structure CsPin (C Ec : Type) where
  set_low : C → Except Ec C
  set_high : C → Except Ec C

/-- Embedding of Tmc5072::read_raw: the two-phase read protocol.  The first
frame carries the read command (READ_FLAG ||| addr) with a zero payload; the
received payload is junk and is ignored, only byte 0 of the buffer is
rewritten with the same command before the second exchange (so the second
frame re-transmits the junk payload bytes, exactly as the Rust buffer reuse
does).  The status and data returned come from the second received frame
only.  Each exchange is bracketed by set_low / set_high, and any failure
aborts immediately, chip-select failures as CSError and transfer failures as
SpiError.  Alongside the result we return the trace of frames handed to the
transport, which lets the theorems below count and inspect the exchanges. -/
def read_raw {S C Es Ec : Type} (dev : SpiDevice S Es) (cs : CsPin C Ec)
    (addr : Nat) (s : S) (c : C) :
    List Frame × Except (SpiError Es Ec) (S × C × SpiOk Nat) :=
  let buffer : Frame := ⟨READ_FLAG ||| addr, 0, 0, 0, 0⟩
  match cs.set_low c with
  | .error e => ([], .error (.CSError e))
  | .ok c =>
    match dev.transfer s buffer with
    | .error e => ([buffer], .error (.SpiError e))
    | .ok (s, recv) =>
      match cs.set_high c with
      | .error e => ([buffer], .error (.CSError e))
      | .ok c =>
        let buffer2 : Frame := { recv with b0 := READ_FLAG ||| addr }
        match cs.set_low c with
        | .error e => ([buffer], .error (.CSError e))
        | .ok c =>
          match dev.transfer s buffer2 with
          | .error e => ([buffer, buffer2], .error (.SpiError e))
          | .ok (s, recv2) =>
            match cs.set_high c with
            | .error e => ([buffer, buffer2], .error (.CSError e))
            | .ok c => ([buffer, buffer2], .ok (s, c, SpiOk.from_buffer recv2))

/-- Embedding of Tmc5072::write_raw: builds one 5-byte frame with the write
flag and address in byte 0 and the payload big-endian in bytes 1-4, performs
a single bracketed exchange, and decodes only the status byte of the echoed
frame. -/
def write_raw {S C Es Ec : Type} (dev : SpiDevice S Es) (cs : CsPin C Ec)
    (addr data : Nat) (s : S) (c : C) :
    List Frame × Except (SpiError Es Ec) (S × C × SpiOk Unit) :=
  let buffer : Frame :=
    ⟨WRITE_FLAG ||| addr, (data >>> 24) % 256, (data >>> 16) % 256, (data >>> 8) % 256,
      data % 256⟩
  match cs.set_low c with
  | .error e => ([], .error (.CSError e))
  | .ok c =>
    match dev.transfer s buffer with
    | .error e => ([buffer], .error (.SpiError e))
    | .ok (s, recv) =>
      match cs.set_high c with
      | .error e => ([buffer], .error (.CSError e))
      | .ok c => ([buffer], .ok (s, c, SpiOk.from_buffer_unit recv))

/-- Embedding of Tmc5072::read_register: read_raw at the register's address,
then decode the payload (Result::map over SpiOk::map). -/
def read_register {S C Es Ec R : Type} (dev : SpiDevice S Es) (cs : CsPin C Ec)
    (decode : Nat → R) (addr : Nat) (s : S) (c : C) :
    List Frame × Except (SpiError Es Ec) (S × C × SpiOk R) :=
  let r := read_raw dev cs addr s c
  (r.1, r.2.map (fun x => (x.1, x.2.1, SpiOk.map x.2.2 decode)))

/-- Embedding of Tmc5072::write_register: encode the value, then write_raw at
the register's address. -/
def write_register {S C Es Ec R : Type} (dev : SpiDevice S Es) (cs : CsPin C Ec)
    (encode : R → Nat) (addr : Nat) (r : R) (s : S) (c : C) :
    List Frame × Except (SpiError Es Ec) (S × C × SpiOk Unit) :=
  write_raw dev cs addr (encode r) s c

/-- Concrete SPI transport for witnesses: counts exchanges in its Nat state and
always answers the fixed frame 53 AB CD 12 34. -/
def devOkS : SpiDevice Nat Unit :=
  ⟨fun s _ => .ok (s + 1, ⟨0x53, 0xAB, 0xCD, 0x12, 0x34⟩)⟩

/-- Concrete chip-select pin for witnesses: both edges always succeed. -/
def csOk : CsPin Unit Unit := ⟨fun _ => .ok (), fun _ => .ok ()⟩

/-- Concrete failing SPI transport for witnesses: every transfer fails. -/
def devFail : SpiDevice Nat Unit := ⟨fun _ _ => .error ()⟩

/-- Concrete chip-select pin whose assertion (set_low) always fails. -/
def csLowFail : CsPin Unit Unit := ⟨fun _ => .error (), fun _ => .ok ()⟩

/-! ## General bitwise toolkit -/
theorem or_eq_add (a b : Nat) (h : a &&& b = 0) : a ||| b = a + b := by
  induction a using Nat.binaryRec generalizing b with
  | z => simp
  | f x m ih =>
    induction b using Nat.bitCasesOn with
    | h y n =>
      rw [Nat.land_bit] at h
      rw [Nat.bit_eq_zero_iff] at h
      rw [Nat.lor_bit, Nat.bit_val, Nat.bit_val, Nat.bit_val, ih n h.1]
      have hx : (x && y) = false := h.2
      cases x <;> cases y <;> simp_all <;> omega

theorem lor_and_right (a b c : Nat) : (a ||| b) &&& c = (a &&& c) ||| (b &&& c) := by
  apply Nat.eq_of_testBit_eq
  intro i
  simp only [Nat.testBit_and, Nat.testBit_or]
  cases a.testBit i <;> cases b.testBit i <;> cases c.testBit i <;> rfl

theorem shr_or (a b n : Nat) : (a ||| b) >>> n = (a >>> n) ||| (b >>> n) := by
  apply Nat.eq_of_testBit_eq
  intro i
  simp [Nat.testBit_or, Nat.testBit_shiftRight]

theorem shr_and (a b n : Nat) : (a &&& b) >>> n = (a >>> n) &&& (b >>> n) := by
  apply Nat.eq_of_testBit_eq
  intro i
  simp [Nat.testBit_and, Nat.testBit_shiftRight]

theorem and_shl (y m o : Nat) : (y &&& m) <<< o = (y <<< o) &&& (m <<< o) := by
  apply Nat.eq_of_testBit_eq
  intro i
  simp only [Nat.testBit_and, Nat.testBit_shiftLeft]
  cases hd : decide (i ≥ o) <;> simp

theorem shl_shr_of_le (y a c : Nat) (h : c ≤ a) : (y <<< a) >>> c = y <<< (a - c) := by
  have ha : a = (a - c) + c := by omega
  have h2 : 0 < 2 ^ c := Nat.pos_pow_of_pos c (by norm_num)
  calc (y <<< a) >>> c = (y <<< ((a - c) + c)) >>> c := by rw [← ha]
  _ = y <<< (a - c) := by
      rw [Nat.shiftLeft_eq, Nat.shiftLeft_eq, Nat.shiftRight_eq_div_pow, pow_add,
        ← Nat.mul_assoc, Nat.mul_div_cancel _ h2]

theorem shl_shr_of_ge (y a c : Nat) (h : a ≤ c) : (y <<< a) >>> c = y >>> (c - a) := by
  have hc : c = a + (c - a) := by omega
  have h2 : 0 < 2 ^ a := Nat.pos_pow_of_pos a (by norm_num)
  calc (y <<< a) >>> c = (y <<< a) >>> (a + (c - a)) := by rw [← hc]
  _ = y >>> (c - a) := by
      rw [Nat.shiftLeft_eq, Nat.shiftRight_eq_div_pow, Nat.shiftRight_eq_div_pow, pow_add,
        ← Nat.div_div_eq_div_mul, Nat.mul_div_cancel _ h2]

theorem and_le_of_le (a m c : Nat) (h : m ≤ c) : a &&& m ≤ c :=
  Nat.le_trans Nat.and_le_right h

theorem and_mod_elide (y m c : Nat) (h : m < c) : (y &&& m) % c = y &&& m :=
  Nat.mod_eq_of_lt (Nat.lt_of_le_of_lt Nat.and_le_right h)

theorem and_shl_mod_elide (y m o c : Nat) (h : m <<< o < c) :
    ((y &&& m) <<< o) % c = (y &&& m) <<< o := by
  apply Nat.mod_eq_of_lt
  apply Nat.lt_of_le_of_lt _ h
  rw [Nat.shiftLeft_eq, Nat.shiftLeft_eq]
  exact Nat.mul_le_mul_right _ Nat.and_le_right

theorem land_land_zero (a m c : Nat) (h : m &&& c = 0) : (a &&& m) &&& c = 0 := by
  rw [Nat.and_assoc, h, Nat.and_zero]

theorem land_land_self (a m c : Nat) (h : m &&& c = m) : (a &&& m) &&& c = a &&& m := by
  rw [Nat.and_assoc, h]

theorem and_self_mask (y m : Nat) : (y &&& m) &&& m = y &&& m := by
  rw [Nat.and_assoc, Nat.and_self]

theorem extract_shl (x off mask : Nat) :
    ((x >>> off) &&& mask) <<< off = x &&& (mask <<< off) := by
  apply Nat.eq_of_testBit_eq
  intro i
  simp only [Nat.testBit_and, Nat.testBit_shiftLeft, Nat.testBit_shiftRight]
  rcases Nat.lt_or_ge i off with h | h
  · simp [Nat.not_le_of_lt h, h]
  · simp [h, Nat.add_sub_cancel' h, Bool.and_comm]

/-! ### write helpers, normalized under in-range side conditions -/
theorem write_from_bit_disjoint (d off mask v : Nat)
    (hm : mask <<< off < 4294967296) (hv : (v <<< off) % 4294967296 = v <<< off)
    (hd : d &&& (mask <<< off) = 0) :
    write_from_bit d off mask v = d ||| (v <<< off) := by
  unfold write_from_bit
  rw [Nat.mod_eq_of_lt hm, hv, hd, Nat.xor_zero]

theorem write_bool_to_bit_disjoint (d bit : Nat) (v : Bool) (hb : bit < 32)
    (hd : d &&& (1 <<< bit) = 0) (hm : d &&& 0xFFFFFFFF = d) :
    write_bool_to_bit d bit v = d ||| ((cond v 1 0) <<< bit) := by
  have hfit : (1 <<< bit) % 4294967296 = 1 <<< bit := by
    apply Nat.mod_eq_of_lt
    rw [Nat.shiftLeft_eq, one_mul, show (4294967296 : Nat) = 2 ^ 32 from by norm_num]
    exact Nat.pow_lt_pow_right (by norm_num) hb
  unfold write_bool_to_bit
  rw [hfit]
  cases v with
  | true => rfl
  | false =>
    simp only [cond_false, Nat.zero_shiftLeft, Nat.or_zero, if_neg Bool.false_ne_true]
    apply Nat.eq_of_testBit_eq
    intro i
    have h1 := congrArg (fun t => t.testBit i) hd
    have h2 := congrArg (fun t => t.testBit i) hm
    simp only [Nat.testBit_and, Nat.zero_testBit] at h1 h2
    rw [Nat.testBit_and, Nat.testBit_xor]
    cases hdi : d.testBit i with
    | false => simp
    | true =>
      rw [hdi] at h1 h2
      simp only [Bool.true_and] at h1 h2
      rw [h1, h2]
      rfl

theorem cond_read_bool (x b : Nat) (hb : b < 32) :
    (cond (read_bool_from_bit x b) 1 0) <<< b = x &&& (1 <<< b) := by
  have hfit : (1 <<< b) % 4294967296 = 1 <<< b := by
    apply Nat.mod_eq_of_lt
    rw [Nat.shiftLeft_eq, one_mul, show (4294967296 : Nat) = 2 ^ 32 from by norm_num]
    exact Nat.pow_lt_pow_right (by norm_num) hb
  unfold read_bool_from_bit
  rw [hfit]
  rcases hx : x &&& (1 <<< b) != 0 with _ | _
  · simp only [bne_eq_false_iff_eq] at hx
    simp [hx]
  · simp only [bne_iff_ne] at hx
    simp only [cond_true]
    have hone : ∀ j, ((1:Nat) <<< b).testBit j = decide (b = j) := by
      intro j
      rw [Nat.shiftLeft_eq, one_mul, Nat.testBit_two_pow]
    have hbit : x.testBit b = true := by
      by_contra hc
      apply hx
      apply Nat.eq_of_testBit_eq
      intro j
      rw [Nat.testBit_and, hone j, Nat.zero_testBit]
      rcases eq_or_ne b j with rfl | hne
      · simp [Bool.eq_false_iff.mpr hc]
      · simp [hne]
    apply Nat.eq_of_testBit_eq
    intro i
    rw [Nat.testBit_and, hone i]
    rcases eq_or_ne b i with rfl | hne
    · simp [hbit]
    · simp [hne]

theorem cond_shl_and (v : Bool) (b D : Nat) (h : (1 <<< b) &&& D = 0) :
    ((cond v 1 0) <<< b) &&& D = 0 := by
  cases v
  · simp
  · simpa using h

theorem cond_piece_mask (v : Bool) (b C : Nat) (h : (1 <<< b) &&& C = 1 <<< b) :
    ((cond v 1 0) <<< b) &&& C = (cond v 1 0) <<< b := by
  cases v
  · simp
  · simpa using h

theorem cond_shr (v : Bool) (c : Nat) (h : 1 ≤ c) : (cond v 1 0) >>> c = 0 := by
  have h2 : 2 ≤ 2 ^ c := by
    calc 2 = 2 ^ 1 := by norm_num
    _ ≤ 2 ^ c := Nat.pow_le_pow_right (by norm_num) h
  cases v
  · simp
  · simp only [cond_true, Nat.shiftRight_eq_div_pow]
    exact Nat.div_eq_of_lt (by omega)

theorem cond_shl_bne (v : Bool) (b : Nat) : (((cond v 1 0) <<< b) != 0) = v := by
  have h2 : 0 < 2 ^ b := Nat.pos_pow_of_pos b (by norm_num)
  cases v
  · simp
  · simp only [cond_true, bne_iff_ne, ne_eq, Nat.shiftLeft_eq, one_mul]
    omega

theorem cond_shl_mod_elide (v : Bool) (b c : Nat) (h : 1 <<< b < c) :
    ((cond v 1 0) <<< b) % c = (cond v 1 0) <<< b := by
  cases v
  · simp only [cond_false, Nat.zero_shiftLeft, Nat.zero_mod]
  · exact Nat.mod_eq_of_lt (by simpa using h)

theorem write_from_bit_zero (off mask v : Nat)
    (hm : mask <<< off < 4294967296) (hv : (v <<< off) % 4294967296 = v <<< off) :
    write_from_bit 0 off mask v = v <<< off := by
  rw [write_from_bit_disjoint _ _ _ _ hm hv (Nat.zero_and _), Nat.zero_or]

theorem write_bool_to_bit_zero (b : Nat) (v : Bool) (hb : b < 32) :
    write_bool_to_bit 0 b v = (cond v 1 0) <<< b := by
  rw [write_bool_to_bit_disjoint _ _ _ hb (Nat.zero_and _) (Nat.zero_and _), Nat.zero_or]

/-! ### accumulation lemmas for `encode ∘ decode` normalisation -/
theorem acc_field0 (x off mask : Nat) (hm : mask <<< off < 4294967296) :
    write_from_bit 0 off mask ((x >>> off) &&& mask) = x &&& (mask <<< off) := by
  rw [write_from_bit_disjoint _ _ _ _ hm (and_shl_mod_elide _ _ _ _ hm) (Nat.zero_and _),
    Nat.zero_or, extract_shl]

theorem acc_field (x S off mask : Nat) (hm : mask <<< off < 4294967296)
    (hS : S &&& (mask <<< off) = 0) :
    write_from_bit (x &&& S) off mask ((x >>> off) &&& mask) = x &&& (S ||| (mask <<< off)) := by
  rw [write_from_bit_disjoint _ _ _ _ hm (and_shl_mod_elide _ _ _ _ hm)
      (by rw [Nat.and_assoc, hS, Nat.and_zero]),
    extract_shl, ← Nat.and_or_distrib_left]

theorem acc_bool0 (x b : Nat) (hb : b < 32) :
    write_bool_to_bit 0 b (read_bool_from_bit x b) = x &&& (1 <<< b) := by
  rw [write_bool_to_bit_zero _ _ hb, cond_read_bool _ _ hb]

theorem acc_bool (x S b : Nat) (hb : b < 32) (hS : S &&& (1 <<< b) = 0)
    (hS32 : S &&& 0xFFFFFFFF = S) :
    write_bool_to_bit (x &&& S) b (read_bool_from_bit x b) = x &&& (S ||| (1 <<< b)) := by
  rw [write_bool_to_bit_disjoint (x &&& S) b _ hb
      (by rw [Nat.and_assoc, hS, Nat.and_zero])
      (by rw [Nat.and_assoc, hS32]),
    cond_read_bool _ _ hb, ← Nat.and_or_distrib_left]

/-! ### arithmetic characterisation of the signed conversions -/
theorem i32_as_u32_eq (v : Int) : (i32_as_u32 v : Int) = v % 2 ^ 32 := by
  unfold i32_as_u32
  rw [show (4294967296 : Int) = 2 ^ 32 from by norm_num]
  exact Int.toNat_of_nonneg (Int.emod_nonneg v (by norm_num))

theorem u32_as_i32_of_lt (n : Nat) (h : n < 2 ^ 31) : u32_as_i32 n = (n : Int) := by
  unfold u32_as_i32
  rw [if_pos h]

theorem u32_as_i32_of_ge (n : Nat) (h : 2 ^ 31 ≤ n) : u32_as_i32 n = (n : Int) - 2 ^ 32 := by
  unfold u32_as_i32
  rw [if_neg (by omega)]

theorem u32_i32_roundtrip (n : Nat) (h : n < 2 ^ 32) : i32_as_u32 (u32_as_i32 n) = n := by
  unfold u32_as_i32 i32_as_u32
  rcases Nat.lt_or_ge n (2 ^ 31) with h31 | h31
  · rw [if_pos h31]
    omega
  · rw [if_neg (by omega)]
    omega

theorem i32_u32_roundtrip (v : Int) (hlo : -(2 ^ 31) ≤ v) (hhi : v < 2 ^ 31) :
    u32_as_i32 (i32_as_u32 v) = v := by
  unfold u32_as_i32 i32_as_u32
  rcases le_or_lt 0 v with hpos | hneg
  · rw [if_pos (by omega)]
    omega
  · rw [if_neg (by omega)]
    omega

theorem comp_mask (bits : Nat) (hb : bits ≤ 32) :
    ((1 <<< bits) - 1) ^^^ 0xFFFFFFFF = 2 ^ 32 - 2 ^ bits := by
  have h1 : (1:Nat) <<< bits = 2 ^ bits := by rw [Nat.shiftLeft_eq, one_mul]
  have h2 : (2:Nat) ^ 32 - 2 ^ bits = (2 ^ (32 - bits) - 1) <<< bits := by
    rw [Nat.shiftLeft_eq, Nat.sub_mul, one_mul, ← pow_add]
    congr 2
    omega
  rw [h1, h2, show (0xFFFFFFFF : Nat) = 2 ^ 32 - 1 from by norm_num]
  apply Nat.eq_of_testBit_eq
  intro i
  rw [Nat.testBit_xor, Nat.testBit_two_pow_sub_one, Nat.testBit_two_pow_sub_one,
    Nat.testBit_shiftLeft, Nat.testBit_two_pow_sub_one]
  rcases Nat.lt_or_ge i bits with h | h
  · simp [h, Nat.lt_of_lt_of_le h hb, Nat.not_le_of_lt h]
  · rcases Nat.lt_or_ge i 32 with h32 | h32
    · simp [Nat.not_lt_of_le h, h32, h]
      omega
    · simp [Nat.not_lt_of_le h, Nat.not_lt_of_le h32, h]
      omega

theorem high_and_lt (x bits : Nat) (hx : x < 2 ^ bits) (hb : bits ≤ 32) :
    (2 ^ 32 - 2 ^ bits) &&& x = 0 := by
  have h2 : (2:Nat) ^ 32 - 2 ^ bits = (2 ^ (32 - bits) - 1) <<< bits := by
    rw [Nat.shiftLeft_eq, Nat.sub_mul, one_mul, ← pow_add]
    congr 2
    omega
  rw [h2]
  apply Nat.eq_of_testBit_eq
  intro i
  rw [Nat.testBit_and, Nat.testBit_shiftLeft, Nat.zero_testBit]
  rcases Nat.lt_or_ge i bits with h | h
  · simp [Nat.not_le_of_lt h]
  · have : x.testBit i = false :=
      Nat.testBit_lt_two_pow (Nat.lt_of_lt_of_le hx (Nat.pow_le_pow_right (by norm_num) h))
    simp [this]

theorem shiftRight_div (x bits : Nat) :
    (x >>> (bits - 1)) &&& 1 = x / 2 ^ (bits - 1) % 2 := by
  rw [Nat.shiftRight_eq_div_pow, Nat.and_one_is_mod]

theorem to_signed_lo (x bits : Nat) (h1 : 1 ≤ bits) (hb : bits ≤ 31) (hx : x < 2 ^ (bits - 1)) :
    convert_to_signed_n x bits = (x : Int) := by
  unfold convert_to_signed_n
  rw [shiftRight_div x bits, Nat.div_eq_of_lt hx]
  simp only [Nat.zero_mod, if_neg (by norm_num : ¬ (0:Nat) = 1)]
  apply u32_as_i32_of_lt
  calc x < 2 ^ (bits - 1) := hx
  _ ≤ 2 ^ 31 := Nat.pow_le_pow_right (by norm_num) (by omega)

theorem to_signed_hi (x bits : Nat) (h1 : 1 ≤ bits) (hb : bits ≤ 31)
    (hlo : 2 ^ (bits - 1) ≤ x) (hhi : x < 2 ^ bits) :
    convert_to_signed_n x bits = (x : Int) - 2 ^ bits := by
  unfold convert_to_signed_n
  have hdiv : x / 2 ^ (bits - 1) = 1 := by
    apply Nat.div_eq_of_lt_le
    · rwa [one_mul]
    · rw [show 2 * 2 ^ (bits - 1) = 2 ^ bits from by
        rw [← pow_succ']
        congr 1
        omega]
      exact hhi
  rw [shiftRight_div x bits, hdiv]
  simp only [Nat.one_mod, reduceIte]
  rw [comp_mask bits (by omega), or_eq_add _ _ (high_and_lt x bits hhi (by omega))]
  have hble : (2:Nat) ^ bits ≤ 2 ^ 32 := Nat.pow_le_pow_right (by norm_num) (by omega)
  have hble31 : (2:Nat) ^ 31 ≤ 2 ^ 32 - 2 ^ bits + x := by
    have : (2:Nat) ^ bits ≤ 2 ^ 31 := Nat.pow_le_pow_right (by norm_num) (by omega)
    have h32 : (2:Nat) ^ 32 = 2 ^ 31 + 2 ^ 31 := by norm_num
    omega
  rw [u32_as_i32_of_ge _ hble31]
  have hcb : ((2 ^ bits : Nat) : Int) = 2 ^ bits := by push_cast ; ring
  omega

theorem to_signed_range (x bits : Nat) (h1 : 1 ≤ bits) (hb : bits ≤ 31) (hx : x < 2 ^ bits) :
    -(2 ^ (bits - 1)) ≤ convert_to_signed_n x bits ∧
      convert_to_signed_n x bits < 2 ^ (bits - 1) := by
  have hcb1 : ((2 ^ (bits - 1) : Nat) : Int) = 2 ^ (bits - 1) := by push_cast ; ring
  have hsplit : (2:Nat) ^ bits = 2 ^ (bits - 1) + 2 ^ (bits - 1) := by
    rw [← two_mul, ← pow_succ']
    congr 1
    omega
  rcases Nat.lt_or_ge x (2 ^ (bits - 1)) with hxlo | hxhi
  · rw [to_signed_lo x bits h1 hb hxlo]
    constructor <;> omega
  · rw [to_signed_hi x bits h1 hb hxhi hx]
    have hcb : ((2 ^ bits : Nat) : Int) = 2 ^ bits := by push_cast ; ring
    constructor <;> omega

theorem to_from_signed (v : Int) (bits : Nat) (h1 : 1 ≤ bits) (hb : bits ≤ 31)
    (hlo : -(2 ^ (bits - 1)) ≤ v) (hhi : v < 2 ^ (bits - 1)) :
    convert_to_signed_n (convert_from_signed_n v bits) bits = v := by
  have hcb : ((2 ^ bits : Nat) : Int) = 2 ^ bits := by push_cast ; ring
  have hcb1 : ((2 ^ (bits - 1) : Nat) : Int) = 2 ^ (bits - 1) := by push_cast ; ring
  have hsplit : (2:Nat) ^ bits = 2 ^ (bits - 1) + 2 ^ (bits - 1) := by
    rw [← two_mul, ← pow_succ']
    congr 1
    omega
  have hb31 : (2:Nat) ^ (bits - 1) ≤ 2 ^ 30 := Nat.pow_le_pow_right (by norm_num) (by omega)
  unfold convert_from_signed_n i32_as_u32
  rw [show (1:Nat) <<< bits - 1 = 2 ^ bits - 1 from by rw [Nat.shiftLeft_eq, one_mul],
    Nat.and_pow_two_sub_one_eq_mod, show (4294967296 : Int) = 2 ^ 32 from by norm_num]
  rcases le_or_lt 0 v with hpos | hneg
  · have hv32 : v % 2 ^ 32 = v := Int.emod_eq_of_lt hpos (by omega)
    rw [hv32]
    have hlt : v.toNat < 2 ^ (bits - 1) := by omega
    rw [Nat.mod_eq_of_lt (by omega)]
    rw [to_signed_lo _ bits h1 hb hlt]
    omega
  · have hv32 : v % 2 ^ 32 = v + 2 ^ 32 := by omega
    rw [hv32]
    set n : Nat := (v + 2 ^ 32).toNat with hn
    have hncast : (n : Int) = v + 2 ^ 32 := Int.toNat_of_nonneg (by omega)
    set m : Nat := n % 2 ^ bits with hm
    have hmcast : (m : Int) = v + 2 ^ bits := by
      have e1 : (m : Int) = (n : Int) % ((2 ^ bits : Nat) : Int) := by
        rw [hm]
        push_cast
        ring_nf
      rw [e1, hcb, hncast]
      have hpow32 : (2:Int) ^ 32 = 2 ^ bits * 2 ^ (32 - bits) := by
        rw [← pow_add]
        congr 1
        omega
      rw [hpow32, Int.add_mul_emod_self_left,
        show v % (2 ^ bits : Int) = (v + 2 ^ bits * 1) % 2 ^ bits from by
          rw [Int.add_mul_emod_self_left],
        mul_one]
      apply Int.emod_eq_of_lt
      · omega
      · omega
    have hmlo : 2 ^ (bits - 1) ≤ m := by omega
    have hmhi : m < 2 ^ bits := by omega
    rw [to_signed_hi m bits h1 hb hmlo hmhi]
    omega

theorem from_to_signed (x : Nat) (bits : Nat) (h1 : 1 ≤ bits) (hb : bits ≤ 31)
    (hx : x < 2 ^ bits) :
    convert_from_signed_n (convert_to_signed_n x bits) bits = x := by
  have hcb : ((2 ^ bits : Nat) : Int) = 2 ^ bits := by push_cast ; ring
  have hcb1 : ((2 ^ (bits - 1) : Nat) : Int) = 2 ^ (bits - 1) := by push_cast ; ring
  have hsplit : (2:Nat) ^ bits = 2 ^ (bits - 1) + 2 ^ (bits - 1) := by
    rw [← two_mul, ← pow_succ']
    congr 1
    omega
  have hb31 : (2:Nat) ^ (bits - 1) ≤ 2 ^ 30 := Nat.pow_le_pow_right (by norm_num) (by omega)
  unfold convert_from_signed_n i32_as_u32
  rw [show (1:Nat) <<< bits - 1 = 2 ^ bits - 1 from by rw [Nat.shiftLeft_eq, one_mul],
    Nat.and_pow_two_sub_one_eq_mod, show (4294967296 : Int) = 2 ^ 32 from by norm_num]
  rcases Nat.lt_or_ge x (2 ^ (bits - 1)) with hxlo | hxhi
  · rw [to_signed_lo x bits h1 hb hxlo]
    have hmod : ((x : Int)) % 2 ^ 32 = (x : Int) := Int.emod_eq_of_lt (by omega) (by omega)
    rw [hmod, show ((x : Int)).toNat = x from by omega]
    exact Nat.mod_eq_of_lt hx
  · rw [to_signed_hi x bits h1 hb hxhi hx]
    have hv : ((x : Int) - 2 ^ bits) % 2 ^ 32 = (x : Int) - 2 ^ bits + 2 ^ 32 := by omega
    rw [hv]
    set n : Nat := ((x : Int) - 2 ^ bits + 2 ^ 32).toNat with hn
    have hncast : (n : Int) = (x : Int) - 2 ^ bits + 2 ^ 32 := Int.toNat_of_nonneg (by omega)
    have e1 : ((n % 2 ^ bits : Nat) : Int) = (n : Int) % ((2 ^ bits : Nat) : Int) := by
      push_cast
      ring_nf
    have e2 : (n : Int) % ((2 ^ bits : Nat) : Int) = (x : Int) % 2 ^ bits := by
      rw [hcb, hncast]
      have hpow32 : (2:Int) ^ 32 = 2 ^ bits * 2 ^ (32 - bits) := by
        rw [← pow_add]
        congr 1
        omega
      rw [show (x : Int) - 2 ^ bits + 2 ^ 32 = x + 2 ^ bits * (2 ^ (32 - bits) - 1) from by
        rw [hpow32] ; ring]
      rw [Int.add_mul_emod_self_left]
    have e3 : (x : Int) % 2 ^ bits = (x : Int) := Int.emod_eq_of_lt (by omega) (by omega)
    omega

theorem from_signed_self_masked (v : Int) (bits : Nat) :
    (convert_from_signed_n v bits) &&& ((1 <<< bits) - 1) = convert_from_signed_n v bits := by
  unfold convert_from_signed_n
  exact and_self_mask _ _

theorem from_signed_lt (v : Int) (bits : Nat) (hb : 1 ≤ bits) :
    convert_from_signed_n v bits < 2 ^ bits := by
  unfold convert_from_signed_n
  rw [show (1:Nat) <<< bits - 1 = 2 ^ bits - 1 from by rw [Nat.shiftLeft_eq, one_mul]]
  have h2 : 0 < 2 ^ bits := Nat.pos_pow_of_pos bits (by norm_num)
  exact Nat.lt_of_le_of_lt Nat.and_le_right (by omega)

theorem i32_as_i16_of_range (v : Int) (hlo : -(2 ^ 15) ≤ v) (hhi : v < 2 ^ 15) :
    i32_as_i16 v = v := by
  unfold i32_as_i16
  omega

theorem cond_and (v : Bool) (D : Nat) (h : 1 &&& D = 0) : (cond v 1 0) &&& D = 0 := by
  cases v
  · simp
  · simpa using h

theorem cond_mask (v : Bool) (C : Nat) (h : 1 &&& C = 1) : (cond v 1 0) &&& C = cond v 1 0 := by
  cases v
  · simp
  · simpa using h

theorem cond_bne (v : Bool) : ((cond v 1 0) != 0) = v := by
  cases v <;> rfl

theorem GConf_encode_decode (x : Nat) :
    GConf.encode (GConf.decode x) = x &&& 0xFFF := by
  simp only [GConf.encode, GConf.decode]
  simp +decide only [read_from_bit, and_mod_elide, acc_bool0, acc_bool, acc_field0, acc_field,
    Nat.reduceShiftLeft, Nat.reduceOr, Nat.reduceMod, Nat.reduceLT, Nat.reduceLeDiff]

theorem GConf_decode_encode (single_diver stepdir1_enable stepdir2_enable poscmp_enable enc1_refsel enc2_enable enc2_refsel test_mode shaft1 shaft2 lock_gconf dc_sync : Bool)
    :
    GConf.decode (GConf.encode ⟨single_diver, stepdir1_enable, stepdir2_enable, poscmp_enable, enc1_refsel, enc2_enable, enc2_refsel, test_mode, shaft1, shaft2, lock_gconf, dc_sync⟩) = ⟨single_diver, stepdir1_enable, stepdir2_enable, poscmp_enable, enc1_refsel, enc2_enable, enc2_refsel, test_mode, shaft1, shaft2, lock_gconf, dc_sync⟩ := by
  simp only [GConf.encode, GConf.decode]
  simp +decide only [read_from_bit, read_bool_from_bit, write_from_bit_zero, write_from_bit_disjoint,
    write_bool_to_bit_zero, write_bool_to_bit_disjoint, and_shl, lor_and_right, shr_or,
    shr_and, land_land_zero, land_land_self, cond_shl_and, cond_piece_mask, cond_shr,
    cond_shl_bne, cond_and, cond_mask, cond_bne, and_mod_elide, and_shl_mod_elide,
    cond_shl_mod_elide, shl_shr_of_le, shl_shr_of_ge, Nat.shiftLeft_zero,
    Nat.shiftRight_zero, Nat.zero_and, Nat.and_zero, Nat.zero_or, Nat.or_zero,
    Nat.reduceShiftLeft, Nat.reduceShiftRight, Nat.reduceOr, Nat.reduceMod,
    Nat.reduceLT, Nat.reduceLeDiff, Nat.reduceSub]

theorem GStat_encode_decode (x : Nat) :
    GStat.encode (GStat.decode x) = x &&& 0xF := by
  simp only [GStat.encode, GStat.decode]
  simp +decide only [read_from_bit, and_mod_elide, acc_bool0, acc_bool, acc_field0, acc_field,
    Nat.reduceShiftLeft, Nat.reduceOr, Nat.reduceMod, Nat.reduceLT, Nat.reduceLeDiff]

theorem GStat_decode_encode (reset drv_err1 drv_err2 uv_cp : Bool)
    :
    GStat.decode (GStat.encode ⟨reset, drv_err1, drv_err2, uv_cp⟩) = ⟨reset, drv_err1, drv_err2, uv_cp⟩ := by
  simp only [GStat.encode, GStat.decode]
  simp +decide only [read_from_bit, read_bool_from_bit, write_from_bit_zero, write_from_bit_disjoint,
    write_bool_to_bit_zero, write_bool_to_bit_disjoint, and_shl, lor_and_right, shr_or,
    shr_and, land_land_zero, land_land_self, cond_shl_and, cond_piece_mask, cond_shr,
    cond_shl_bne, cond_and, cond_mask, cond_bne, and_mod_elide, and_shl_mod_elide,
    cond_shl_mod_elide, shl_shr_of_le, shl_shr_of_ge, Nat.shiftLeft_zero,
    Nat.shiftRight_zero, Nat.zero_and, Nat.and_zero, Nat.zero_or, Nat.or_zero,
    Nat.reduceShiftLeft, Nat.reduceShiftRight, Nat.reduceOr, Nat.reduceMod,
    Nat.reduceLT, Nat.reduceLeDiff, Nat.reduceSub]

theorem IfCnt_encode_decode (x : Nat) :
    IfCnt.encode (IfCnt.decode x) = x &&& 0xFF := by
  simp only [IfCnt.encode, IfCnt.decode]
  simp +decide only [read_from_bit, and_mod_elide, acc_bool0, acc_bool, acc_field0, acc_field,
    Nat.reduceShiftLeft, Nat.reduceOr, Nat.reduceMod, Nat.reduceLT, Nat.reduceLeDiff]

theorem IfCnt_decode_encode (if_cnt : Nat)
    (hif_cnt : if_cnt &&& 0xFF = if_cnt) :
    IfCnt.decode (IfCnt.encode ⟨if_cnt⟩) = ⟨if_cnt⟩ := by
  rw [← hif_cnt]
  simp only [IfCnt.encode, IfCnt.decode]
  simp +decide only [read_from_bit, read_bool_from_bit, write_from_bit_zero, write_from_bit_disjoint,
    write_bool_to_bit_zero, write_bool_to_bit_disjoint, and_shl, lor_and_right, shr_or,
    shr_and, land_land_zero, land_land_self, cond_shl_and, cond_piece_mask, cond_shr,
    cond_shl_bne, cond_and, cond_mask, cond_bne, and_mod_elide, and_shl_mod_elide,
    cond_shl_mod_elide, shl_shr_of_le, shl_shr_of_ge, Nat.shiftLeft_zero,
    Nat.shiftRight_zero, Nat.zero_and, Nat.and_zero, Nat.zero_or, Nat.or_zero,
    Nat.reduceShiftLeft, Nat.reduceShiftRight, Nat.reduceOr, Nat.reduceMod,
    Nat.reduceLT, Nat.reduceLeDiff, Nat.reduceSub]

theorem SlaveConf_encode_decode (x : Nat) :
    SlaveConf.encode (SlaveConf.decode x) = x &&& 0xFFF := by
  simp only [SlaveConf.encode, SlaveConf.decode]
  simp +decide only [read_from_bit, and_mod_elide, acc_bool0, acc_bool, acc_field0, acc_field,
    Nat.reduceShiftLeft, Nat.reduceOr, Nat.reduceMod, Nat.reduceLT, Nat.reduceLeDiff]

theorem SlaveConf_decode_encode (slave_addr send_delay : Nat)
    (hslave_addr : slave_addr &&& 0xFF = slave_addr) (hsend_delay : send_delay &&& 0xF = send_delay) :
    SlaveConf.decode (SlaveConf.encode ⟨slave_addr, send_delay⟩) = ⟨slave_addr, send_delay⟩ := by
  rw [← hslave_addr, ← hsend_delay]
  simp only [SlaveConf.encode, SlaveConf.decode]
  simp +decide only [read_from_bit, read_bool_from_bit, write_from_bit_zero, write_from_bit_disjoint,
    write_bool_to_bit_zero, write_bool_to_bit_disjoint, and_shl, lor_and_right, shr_or,
    shr_and, land_land_zero, land_land_self, cond_shl_and, cond_piece_mask, cond_shr,
    cond_shl_bne, cond_and, cond_mask, cond_bne, and_mod_elide, and_shl_mod_elide,
    cond_shl_mod_elide, shl_shr_of_le, shl_shr_of_ge, Nat.shiftLeft_zero,
    Nat.shiftRight_zero, Nat.zero_and, Nat.and_zero, Nat.zero_or, Nat.or_zero,
    Nat.reduceShiftLeft, Nat.reduceShiftRight, Nat.reduceOr, Nat.reduceMod,
    Nat.reduceLT, Nat.reduceLeDiff, Nat.reduceSub]

theorem Input_encode_decode (x : Nat) :
    Input.encode (Input.decode x) = x &&& 0xFF0001FF := by
  simp only [Input.encode, Input.decode]
  simp +decide only [read_from_bit, and_mod_elide, acc_bool0, acc_bool, acc_field0, acc_field,
    Nat.reduceShiftLeft, Nat.reduceOr, Nat.reduceMod, Nat.reduceLT, Nat.reduceLeDiff]

theorem Input_decode_encode (version : Nat) (io0 io1 io2 io3 iop ion next_addr drv_enn sw_comp : Bool)
    (hversion : version &&& 0xFF = version) :
    Input.decode (Input.encode ⟨io0, io1, io2, io3, iop, ion, next_addr, drv_enn, sw_comp, version⟩) = ⟨io0, io1, io2, io3, iop, ion, next_addr, drv_enn, sw_comp, version⟩ := by
  rw [← hversion]
  simp only [Input.encode, Input.decode]
  simp +decide only [read_from_bit, read_bool_from_bit, write_from_bit_zero, write_from_bit_disjoint,
    write_bool_to_bit_zero, write_bool_to_bit_disjoint, and_shl, lor_and_right, shr_or,
    shr_and, land_land_zero, land_land_self, cond_shl_and, cond_piece_mask, cond_shr,
    cond_shl_bne, cond_and, cond_mask, cond_bne, and_mod_elide, and_shl_mod_elide,
    cond_shl_mod_elide, shl_shr_of_le, shl_shr_of_ge, Nat.shiftLeft_zero,
    Nat.shiftRight_zero, Nat.zero_and, Nat.and_zero, Nat.zero_or, Nat.or_zero,
    Nat.reduceShiftLeft, Nat.reduceShiftRight, Nat.reduceOr, Nat.reduceMod,
    Nat.reduceLT, Nat.reduceLeDiff, Nat.reduceSub]

theorem XCompare_encode_decode (x : Nat) :
    XCompare.encode (XCompare.decode x) = x &&& 0xFFFFFFFF := by
  simp only [XCompare.encode, XCompare.decode]
  simp +decide only [read_from_bit, and_mod_elide, acc_bool0, acc_bool, acc_field0, acc_field,
    Nat.reduceShiftLeft, Nat.reduceOr, Nat.reduceMod, Nat.reduceLT, Nat.reduceLeDiff]

theorem XCompare_decode_encode (x_compare : Nat)
    (hx_compare : x_compare &&& 0xFFFFFFFF = x_compare) :
    XCompare.decode (XCompare.encode ⟨x_compare⟩) = ⟨x_compare⟩ := by
  rw [← hx_compare]
  simp only [XCompare.encode, XCompare.decode]
  simp +decide only [read_from_bit, read_bool_from_bit, write_from_bit_zero, write_from_bit_disjoint,
    write_bool_to_bit_zero, write_bool_to_bit_disjoint, and_shl, lor_and_right, shr_or,
    shr_and, land_land_zero, land_land_self, cond_shl_and, cond_piece_mask, cond_shr,
    cond_shl_bne, cond_and, cond_mask, cond_bne, and_mod_elide, and_shl_mod_elide,
    cond_shl_mod_elide, shl_shr_of_le, shl_shr_of_ge, Nat.shiftLeft_zero,
    Nat.shiftRight_zero, Nat.zero_and, Nat.and_zero, Nat.zero_or, Nat.or_zero,
    Nat.reduceShiftLeft, Nat.reduceShiftRight, Nat.reduceOr, Nat.reduceMod,
    Nat.reduceLT, Nat.reduceLeDiff, Nat.reduceSub]

theorem ChopConf_encode_decode (x : Nat) :
    ChopConf.encode (ChopConf.decode x) = x &&& 0x7F0FFFFF := by
  simp only [ChopConf.encode, ChopConf.decode]
  simp +decide only [read_from_bit, and_mod_elide, acc_bool0, acc_bool, acc_field0, acc_field,
    Nat.reduceShiftLeft, Nat.reduceOr, Nat.reduceMod, Nat.reduceLT, Nat.reduceLeDiff]

theorem ChopConf_decode_encode (toff hstrt hend tbl mres : Nat) (fd3 disfdcc rndtf chm vsense vhighfs vhighchm intpol16 dedge diss2g : Bool)
    (htoff : toff &&& 0xF = toff) (hhstrt : hstrt &&& 0x7 = hstrt) (hhend : hend &&& 0xF = hend) (htbl : tbl &&& 0x3 = tbl) (hmres : mres &&& 0xF = mres) :
    ChopConf.decode (ChopConf.encode ⟨toff, hstrt, hend, fd3, disfdcc, rndtf, chm, tbl, vsense, vhighfs, vhighchm, mres, intpol16, dedge, diss2g⟩) = ⟨toff, hstrt, hend, fd3, disfdcc, rndtf, chm, tbl, vsense, vhighfs, vhighchm, mres, intpol16, dedge, diss2g⟩ := by
  rw [← htoff, ← hhstrt, ← hhend, ← htbl, ← hmres]
  simp only [ChopConf.encode, ChopConf.decode]
  simp +decide only [read_from_bit, read_bool_from_bit, write_from_bit_zero, write_from_bit_disjoint,
    write_bool_to_bit_zero, write_bool_to_bit_disjoint, and_shl, lor_and_right, shr_or,
    shr_and, land_land_zero, land_land_self, cond_shl_and, cond_piece_mask, cond_shr,
    cond_shl_bne, cond_and, cond_mask, cond_bne, and_mod_elide, and_shl_mod_elide,
    cond_shl_mod_elide, shl_shr_of_le, shl_shr_of_ge, Nat.shiftLeft_zero,
    Nat.shiftRight_zero, Nat.zero_and, Nat.and_zero, Nat.zero_or, Nat.or_zero,
    Nat.reduceShiftLeft, Nat.reduceShiftRight, Nat.reduceOr, Nat.reduceMod,
    Nat.reduceLT, Nat.reduceLeDiff, Nat.reduceSub]

theorem DrvStatus_encode_decode (x : Nat) :
    DrvStatus.encode (DrvStatus.decode x) = x &&& 0xFF1F83FF := by
  simp only [DrvStatus.encode, DrvStatus.decode]
  simp +decide only [read_from_bit, and_mod_elide, acc_bool0, acc_bool, acc_field0, acc_field,
    Nat.reduceShiftLeft, Nat.reduceOr, Nat.reduceMod, Nat.reduceLT, Nat.reduceLeDiff]

theorem DrvStatus_decode_encode (sg_result cs_actual : Nat) (fsactive stall_guard ot otpw s2ga s2gb ola olb stst : Bool)
    (hsg_result : sg_result &&& 0x3FF = sg_result) (hcs_actual : cs_actual &&& 0x1F = cs_actual) :
    DrvStatus.decode (DrvStatus.encode ⟨sg_result, fsactive, cs_actual, stall_guard, ot, otpw, s2ga, s2gb, ola, olb, stst⟩) = ⟨sg_result, fsactive, cs_actual, stall_guard, ot, otpw, s2ga, s2gb, ola, olb, stst⟩ := by
  rw [← hsg_result, ← hcs_actual]
  simp only [DrvStatus.encode, DrvStatus.decode]
  simp +decide only [read_from_bit, read_bool_from_bit, write_from_bit_zero, write_from_bit_disjoint,
    write_bool_to_bit_zero, write_bool_to_bit_disjoint, and_shl, lor_and_right, shr_or,
    shr_and, land_land_zero, land_land_self, cond_shl_and, cond_piece_mask, cond_shr,
    cond_shl_bne, cond_and, cond_mask, cond_bne, and_mod_elide, and_shl_mod_elide,
    cond_shl_mod_elide, shl_shr_of_le, shl_shr_of_ge, Nat.shiftLeft_zero,
    Nat.shiftRight_zero, Nat.zero_and, Nat.and_zero, Nat.zero_or, Nat.or_zero,
    Nat.reduceShiftLeft, Nat.reduceShiftRight, Nat.reduceOr, Nat.reduceMod,
    Nat.reduceLT, Nat.reduceLeDiff, Nat.reduceSub]

theorem Output_encode_decode (x : Nat) :
    Output.encode (Output.decode x) = x &&& 0x707 := by
  simp only [Output.encode, Output.decode]
  simp +decide only [read_from_bit, and_mod_elide, acc_bool0, acc_bool, acc_field0, acc_field,
    Nat.reduceShiftLeft, Nat.reduceOr, Nat.reduceMod, Nat.reduceLT, Nat.reduceLeDiff]

theorem Output_decode_encode (io0 io1 io2 io_ddr0 io_ddr1 io_ddr2 : Bool)
    :
    Output.decode (Output.encode ⟨io0, io1, io2, io_ddr0, io_ddr1, io_ddr2⟩) = ⟨io0, io1, io2, io_ddr0, io_ddr1, io_ddr2⟩ := by
  simp only [Output.encode, Output.decode]
  simp +decide only [read_from_bit, read_bool_from_bit, write_from_bit_zero, write_from_bit_disjoint,
    write_bool_to_bit_zero, write_bool_to_bit_disjoint, and_shl, lor_and_right, shr_or,
    shr_and, land_land_zero, land_land_self, cond_shl_and, cond_piece_mask, cond_shr,
    cond_shl_bne, cond_and, cond_mask, cond_bne, and_mod_elide, and_shl_mod_elide,
    cond_shl_mod_elide, shl_shr_of_le, shl_shr_of_ge, Nat.shiftLeft_zero,
    Nat.shiftRight_zero, Nat.zero_and, Nat.and_zero, Nat.zero_or, Nat.or_zero,
    Nat.reduceShiftLeft, Nat.reduceShiftRight, Nat.reduceOr, Nat.reduceMod,
    Nat.reduceLT, Nat.reduceLeDiff, Nat.reduceSub]

theorem MsLut0_encode_decode (x : Nat) :
    MsLut0.encode (MsLut0.decode x) = x &&& 0xFFFFFFFF := by
  simp only [MsLut0.encode, MsLut0.decode]
  simp +decide only [read_from_bit, and_mod_elide, acc_bool0, acc_bool, acc_field0, acc_field,
    Nat.reduceShiftLeft, Nat.reduceOr, Nat.reduceMod, Nat.reduceLT, Nat.reduceLeDiff]

theorem MsLut0_decode_encode (ms_lut0 : Nat)
    (hms_lut0 : ms_lut0 &&& 0xFFFFFFFF = ms_lut0) :
    MsLut0.decode (MsLut0.encode ⟨ms_lut0⟩) = ⟨ms_lut0⟩ := by
  rw [← hms_lut0]
  simp only [MsLut0.encode, MsLut0.decode]
  simp +decide only [read_from_bit, read_bool_from_bit, write_from_bit_zero, write_from_bit_disjoint,
    write_bool_to_bit_zero, write_bool_to_bit_disjoint, and_shl, lor_and_right, shr_or,
    shr_and, land_land_zero, land_land_self, cond_shl_and, cond_piece_mask, cond_shr,
    cond_shl_bne, cond_and, cond_mask, cond_bne, and_mod_elide, and_shl_mod_elide,
    cond_shl_mod_elide, shl_shr_of_le, shl_shr_of_ge, Nat.shiftLeft_zero,
    Nat.shiftRight_zero, Nat.zero_and, Nat.and_zero, Nat.zero_or, Nat.or_zero,
    Nat.reduceShiftLeft, Nat.reduceShiftRight, Nat.reduceOr, Nat.reduceMod,
    Nat.reduceLT, Nat.reduceLeDiff, Nat.reduceSub]

theorem MsLut1_encode_decode (x : Nat) :
    MsLut1.encode (MsLut1.decode x) = x &&& 0xFFFFFFFF := by
  simp only [MsLut1.encode, MsLut1.decode]
  simp +decide only [read_from_bit, and_mod_elide, acc_bool0, acc_bool, acc_field0, acc_field,
    Nat.reduceShiftLeft, Nat.reduceOr, Nat.reduceMod, Nat.reduceLT, Nat.reduceLeDiff]

theorem MsLut1_decode_encode (ms_lut1 : Nat)
    (hms_lut1 : ms_lut1 &&& 0xFFFFFFFF = ms_lut1) :
    MsLut1.decode (MsLut1.encode ⟨ms_lut1⟩) = ⟨ms_lut1⟩ := by
  rw [← hms_lut1]
  simp only [MsLut1.encode, MsLut1.decode]
  simp +decide only [read_from_bit, read_bool_from_bit, write_from_bit_zero, write_from_bit_disjoint,
    write_bool_to_bit_zero, write_bool_to_bit_disjoint, and_shl, lor_and_right, shr_or,
    shr_and, land_land_zero, land_land_self, cond_shl_and, cond_piece_mask, cond_shr,
    cond_shl_bne, cond_and, cond_mask, cond_bne, and_mod_elide, and_shl_mod_elide,
    cond_shl_mod_elide, shl_shr_of_le, shl_shr_of_ge, Nat.shiftLeft_zero,
    Nat.shiftRight_zero, Nat.zero_and, Nat.and_zero, Nat.zero_or, Nat.or_zero,
    Nat.reduceShiftLeft, Nat.reduceShiftRight, Nat.reduceOr, Nat.reduceMod,
    Nat.reduceLT, Nat.reduceLeDiff, Nat.reduceSub]

theorem MsLut2_encode_decode (x : Nat) :
    MsLut2.encode (MsLut2.decode x) = x &&& 0xFFFFFFFF := by
  simp only [MsLut2.encode, MsLut2.decode]
  simp +decide only [read_from_bit, and_mod_elide, acc_bool0, acc_bool, acc_field0, acc_field,
    Nat.reduceShiftLeft, Nat.reduceOr, Nat.reduceMod, Nat.reduceLT, Nat.reduceLeDiff]

theorem MsLut2_decode_encode (ms_lut2 : Nat)
    (hms_lut2 : ms_lut2 &&& 0xFFFFFFFF = ms_lut2) :
    MsLut2.decode (MsLut2.encode ⟨ms_lut2⟩) = ⟨ms_lut2⟩ := by
  rw [← hms_lut2]
  simp only [MsLut2.encode, MsLut2.decode]
  simp +decide only [read_from_bit, read_bool_from_bit, write_from_bit_zero, write_from_bit_disjoint,
    write_bool_to_bit_zero, write_bool_to_bit_disjoint, and_shl, lor_and_right, shr_or,
    shr_and, land_land_zero, land_land_self, cond_shl_and, cond_piece_mask, cond_shr,
    cond_shl_bne, cond_and, cond_mask, cond_bne, and_mod_elide, and_shl_mod_elide,
    cond_shl_mod_elide, shl_shr_of_le, shl_shr_of_ge, Nat.shiftLeft_zero,
    Nat.shiftRight_zero, Nat.zero_and, Nat.and_zero, Nat.zero_or, Nat.or_zero,
    Nat.reduceShiftLeft, Nat.reduceShiftRight, Nat.reduceOr, Nat.reduceMod,
    Nat.reduceLT, Nat.reduceLeDiff, Nat.reduceSub]

theorem MsLut3_encode_decode (x : Nat) :
    MsLut3.encode (MsLut3.decode x) = x &&& 0xFFFFFFFF := by
  simp only [MsLut3.encode, MsLut3.decode]
  simp +decide only [read_from_bit, and_mod_elide, acc_bool0, acc_bool, acc_field0, acc_field,
    Nat.reduceShiftLeft, Nat.reduceOr, Nat.reduceMod, Nat.reduceLT, Nat.reduceLeDiff]

theorem MsLut3_decode_encode (ms_lut3 : Nat)
    (hms_lut3 : ms_lut3 &&& 0xFFFFFFFF = ms_lut3) :
    MsLut3.decode (MsLut3.encode ⟨ms_lut3⟩) = ⟨ms_lut3⟩ := by
  rw [← hms_lut3]
  simp only [MsLut3.encode, MsLut3.decode]
  simp +decide only [read_from_bit, read_bool_from_bit, write_from_bit_zero, write_from_bit_disjoint,
    write_bool_to_bit_zero, write_bool_to_bit_disjoint, and_shl, lor_and_right, shr_or,
    shr_and, land_land_zero, land_land_self, cond_shl_and, cond_piece_mask, cond_shr,
    cond_shl_bne, cond_and, cond_mask, cond_bne, and_mod_elide, and_shl_mod_elide,
    cond_shl_mod_elide, shl_shr_of_le, shl_shr_of_ge, Nat.shiftLeft_zero,
    Nat.shiftRight_zero, Nat.zero_and, Nat.and_zero, Nat.zero_or, Nat.or_zero,
    Nat.reduceShiftLeft, Nat.reduceShiftRight, Nat.reduceOr, Nat.reduceMod,
    Nat.reduceLT, Nat.reduceLeDiff, Nat.reduceSub]

theorem MsLut4_encode_decode (x : Nat) :
    MsLut4.encode (MsLut4.decode x) = x &&& 0xFFFFFFFF := by
  simp only [MsLut4.encode, MsLut4.decode]
  simp +decide only [read_from_bit, and_mod_elide, acc_bool0, acc_bool, acc_field0, acc_field,
    Nat.reduceShiftLeft, Nat.reduceOr, Nat.reduceMod, Nat.reduceLT, Nat.reduceLeDiff]

theorem MsLut4_decode_encode (ms_lut4 : Nat)
    (hms_lut4 : ms_lut4 &&& 0xFFFFFFFF = ms_lut4) :
    MsLut4.decode (MsLut4.encode ⟨ms_lut4⟩) = ⟨ms_lut4⟩ := by
  rw [← hms_lut4]
  simp only [MsLut4.encode, MsLut4.decode]
  simp +decide only [read_from_bit, read_bool_from_bit, write_from_bit_zero, write_from_bit_disjoint,
    write_bool_to_bit_zero, write_bool_to_bit_disjoint, and_shl, lor_and_right, shr_or,
    shr_and, land_land_zero, land_land_self, cond_shl_and, cond_piece_mask, cond_shr,
    cond_shl_bne, cond_and, cond_mask, cond_bne, and_mod_elide, and_shl_mod_elide,
    cond_shl_mod_elide, shl_shr_of_le, shl_shr_of_ge, Nat.shiftLeft_zero,
    Nat.shiftRight_zero, Nat.zero_and, Nat.and_zero, Nat.zero_or, Nat.or_zero,
    Nat.reduceShiftLeft, Nat.reduceShiftRight, Nat.reduceOr, Nat.reduceMod,
    Nat.reduceLT, Nat.reduceLeDiff, Nat.reduceSub]

theorem MsLut5_encode_decode (x : Nat) :
    MsLut5.encode (MsLut5.decode x) = x &&& 0xFFFFFFFF := by
  simp only [MsLut5.encode, MsLut5.decode]
  simp +decide only [read_from_bit, and_mod_elide, acc_bool0, acc_bool, acc_field0, acc_field,
    Nat.reduceShiftLeft, Nat.reduceOr, Nat.reduceMod, Nat.reduceLT, Nat.reduceLeDiff]

theorem MsLut5_decode_encode (ms_lut5 : Nat)
    (hms_lut5 : ms_lut5 &&& 0xFFFFFFFF = ms_lut5) :
    MsLut5.decode (MsLut5.encode ⟨ms_lut5⟩) = ⟨ms_lut5⟩ := by
  rw [← hms_lut5]
  simp only [MsLut5.encode, MsLut5.decode]
  simp +decide only [read_from_bit, read_bool_from_bit, write_from_bit_zero, write_from_bit_disjoint,
    write_bool_to_bit_zero, write_bool_to_bit_disjoint, and_shl, lor_and_right, shr_or,
    shr_and, land_land_zero, land_land_self, cond_shl_and, cond_piece_mask, cond_shr,
    cond_shl_bne, cond_and, cond_mask, cond_bne, and_mod_elide, and_shl_mod_elide,
    cond_shl_mod_elide, shl_shr_of_le, shl_shr_of_ge, Nat.shiftLeft_zero,
    Nat.shiftRight_zero, Nat.zero_and, Nat.and_zero, Nat.zero_or, Nat.or_zero,
    Nat.reduceShiftLeft, Nat.reduceShiftRight, Nat.reduceOr, Nat.reduceMod,
    Nat.reduceLT, Nat.reduceLeDiff, Nat.reduceSub]

theorem MsLut6_encode_decode (x : Nat) :
    MsLut6.encode (MsLut6.decode x) = x &&& 0xFFFFFFFF := by
  simp only [MsLut6.encode, MsLut6.decode]
  simp +decide only [read_from_bit, and_mod_elide, acc_bool0, acc_bool, acc_field0, acc_field,
    Nat.reduceShiftLeft, Nat.reduceOr, Nat.reduceMod, Nat.reduceLT, Nat.reduceLeDiff]

theorem MsLut6_decode_encode (ms_lut6 : Nat)
    (hms_lut6 : ms_lut6 &&& 0xFFFFFFFF = ms_lut6) :
    MsLut6.decode (MsLut6.encode ⟨ms_lut6⟩) = ⟨ms_lut6⟩ := by
  rw [← hms_lut6]
  simp only [MsLut6.encode, MsLut6.decode]
  simp +decide only [read_from_bit, read_bool_from_bit, write_from_bit_zero, write_from_bit_disjoint,
    write_bool_to_bit_zero, write_bool_to_bit_disjoint, and_shl, lor_and_right, shr_or,
    shr_and, land_land_zero, land_land_self, cond_shl_and, cond_piece_mask, cond_shr,
    cond_shl_bne, cond_and, cond_mask, cond_bne, and_mod_elide, and_shl_mod_elide,
    cond_shl_mod_elide, shl_shr_of_le, shl_shr_of_ge, Nat.shiftLeft_zero,
    Nat.shiftRight_zero, Nat.zero_and, Nat.and_zero, Nat.zero_or, Nat.or_zero,
    Nat.reduceShiftLeft, Nat.reduceShiftRight, Nat.reduceOr, Nat.reduceMod,
    Nat.reduceLT, Nat.reduceLeDiff, Nat.reduceSub]

theorem MsLut7_encode_decode (x : Nat) :
    MsLut7.encode (MsLut7.decode x) = x &&& 0xFFFFFFFF := by
  simp only [MsLut7.encode, MsLut7.decode]
  simp +decide only [read_from_bit, and_mod_elide, acc_bool0, acc_bool, acc_field0, acc_field,
    Nat.reduceShiftLeft, Nat.reduceOr, Nat.reduceMod, Nat.reduceLT, Nat.reduceLeDiff]

theorem MsLut7_decode_encode (ms_lut7 : Nat)
    (hms_lut7 : ms_lut7 &&& 0xFFFFFFFF = ms_lut7) :
    MsLut7.decode (MsLut7.encode ⟨ms_lut7⟩) = ⟨ms_lut7⟩ := by
  rw [← hms_lut7]
  simp only [MsLut7.encode, MsLut7.decode]
  simp +decide only [read_from_bit, read_bool_from_bit, write_from_bit_zero, write_from_bit_disjoint,
    write_bool_to_bit_zero, write_bool_to_bit_disjoint, and_shl, lor_and_right, shr_or,
    shr_and, land_land_zero, land_land_self, cond_shl_and, cond_piece_mask, cond_shr,
    cond_shl_bne, cond_and, cond_mask, cond_bne, and_mod_elide, and_shl_mod_elide,
    cond_shl_mod_elide, shl_shr_of_le, shl_shr_of_ge, Nat.shiftLeft_zero,
    Nat.shiftRight_zero, Nat.zero_and, Nat.and_zero, Nat.zero_or, Nat.or_zero,
    Nat.reduceShiftLeft, Nat.reduceShiftRight, Nat.reduceOr, Nat.reduceMod,
    Nat.reduceLT, Nat.reduceLeDiff, Nat.reduceSub]

theorem MsLutSel_encode_decode (x : Nat) :
    MsLutSel.encode (MsLutSel.decode x) = x &&& 0xFFFFFFFF := by
  simp only [MsLutSel.encode, MsLutSel.decode]
  simp +decide only [read_from_bit, and_mod_elide, acc_bool0, acc_bool, acc_field0, acc_field,
    Nat.reduceShiftLeft, Nat.reduceOr, Nat.reduceMod, Nat.reduceLT, Nat.reduceLeDiff]

theorem MsLutSel_decode_encode (w0 w1 w2 w3 x1 x2 x3 : Nat)
    (hw0 : w0 &&& 0x3 = w0) (hw1 : w1 &&& 0x3 = w1) (hw2 : w2 &&& 0x3 = w2) (hw3 : w3 &&& 0x3 = w3) (hx1 : x1 &&& 0xFF = x1) (hx2 : x2 &&& 0xFF = x2) (hx3 : x3 &&& 0xFF = x3) :
    MsLutSel.decode (MsLutSel.encode ⟨w0, w1, w2, w3, x1, x2, x3⟩) = ⟨w0, w1, w2, w3, x1, x2, x3⟩ := by
  rw [← hw0, ← hw1, ← hw2, ← hw3, ← hx1, ← hx2, ← hx3]
  simp only [MsLutSel.encode, MsLutSel.decode]
  simp +decide only [read_from_bit, read_bool_from_bit, write_from_bit_zero, write_from_bit_disjoint,
    write_bool_to_bit_zero, write_bool_to_bit_disjoint, and_shl, lor_and_right, shr_or,
    shr_and, land_land_zero, land_land_self, cond_shl_and, cond_piece_mask, cond_shr,
    cond_shl_bne, cond_and, cond_mask, cond_bne, and_mod_elide, and_shl_mod_elide,
    cond_shl_mod_elide, shl_shr_of_le, shl_shr_of_ge, Nat.shiftLeft_zero,
    Nat.shiftRight_zero, Nat.zero_and, Nat.and_zero, Nat.zero_or, Nat.or_zero,
    Nat.reduceShiftLeft, Nat.reduceShiftRight, Nat.reduceOr, Nat.reduceMod,
    Nat.reduceLT, Nat.reduceLeDiff, Nat.reduceSub]

theorem MsLutStart_encode_decode (x : Nat) :
    MsLutStart.encode (MsLutStart.decode x) = x &&& 0xFFFF := by
  simp only [MsLutStart.encode, MsLutStart.decode]
  simp +decide only [read_from_bit, and_mod_elide, acc_bool0, acc_bool, acc_field0, acc_field,
    Nat.reduceShiftLeft, Nat.reduceOr, Nat.reduceMod, Nat.reduceLT, Nat.reduceLeDiff]

theorem MsLutStart_decode_encode (start_sin start_sin90 : Nat)
    (hstart_sin : start_sin &&& 0xFF = start_sin) (hstart_sin90 : start_sin90 &&& 0xFF = start_sin90) :
    MsLutStart.decode (MsLutStart.encode ⟨start_sin, start_sin90⟩) = ⟨start_sin, start_sin90⟩ := by
  rw [← hstart_sin, ← hstart_sin90]
  simp only [MsLutStart.encode, MsLutStart.decode]
  simp +decide only [read_from_bit, read_bool_from_bit, write_from_bit_zero, write_from_bit_disjoint,
    write_bool_to_bit_zero, write_bool_to_bit_disjoint, and_shl, lor_and_right, shr_or,
    shr_and, land_land_zero, land_land_self, cond_shl_and, cond_piece_mask, cond_shr,
    cond_shl_bne, cond_and, cond_mask, cond_bne, and_mod_elide, and_shl_mod_elide,
    cond_shl_mod_elide, shl_shr_of_le, shl_shr_of_ge, Nat.shiftLeft_zero,
    Nat.shiftRight_zero, Nat.zero_and, Nat.and_zero, Nat.zero_or, Nat.or_zero,
    Nat.reduceShiftLeft, Nat.reduceShiftRight, Nat.reduceOr, Nat.reduceMod,
    Nat.reduceLT, Nat.reduceLeDiff, Nat.reduceSub]

theorem MsCnt_encode_decode (x : Nat) :
    MsCnt.encode (MsCnt.decode x) = x &&& 0x3FF := by
  simp only [MsCnt.encode, MsCnt.decode]
  simp +decide only [read_from_bit, and_mod_elide, acc_bool0, acc_bool, acc_field0, acc_field,
    Nat.reduceShiftLeft, Nat.reduceOr, Nat.reduceMod, Nat.reduceLT, Nat.reduceLeDiff]

theorem MsCnt_decode_encode (ms_cnt : Nat)
    (hms_cnt : ms_cnt &&& 0x3FF = ms_cnt) :
    MsCnt.decode (MsCnt.encode ⟨ms_cnt⟩) = ⟨ms_cnt⟩ := by
  rw [← hms_cnt]
  simp only [MsCnt.encode, MsCnt.decode]
  simp +decide only [read_from_bit, read_bool_from_bit, write_from_bit_zero, write_from_bit_disjoint,
    write_bool_to_bit_zero, write_bool_to_bit_disjoint, and_shl, lor_and_right, shr_or,
    shr_and, land_land_zero, land_land_self, cond_shl_and, cond_piece_mask, cond_shr,
    cond_shl_bne, cond_and, cond_mask, cond_bne, and_mod_elide, and_shl_mod_elide,
    cond_shl_mod_elide, shl_shr_of_le, shl_shr_of_ge, Nat.shiftLeft_zero,
    Nat.shiftRight_zero, Nat.zero_and, Nat.and_zero, Nat.zero_or, Nat.or_zero,
    Nat.reduceShiftLeft, Nat.reduceShiftRight, Nat.reduceOr, Nat.reduceMod,
    Nat.reduceLT, Nat.reduceLeDiff, Nat.reduceSub]

theorem DcCtrl_encode_decode (x : Nat) :
    DcCtrl.encode (DcCtrl.decode x) = x &&& 0xFFFF := by
  simp only [DcCtrl.encode, DcCtrl.decode]
  simp +decide only [read_from_bit, and_mod_elide, acc_bool0, acc_bool, acc_field0, acc_field,
    Nat.reduceShiftLeft, Nat.reduceOr, Nat.reduceMod, Nat.reduceLT, Nat.reduceLeDiff]

theorem DcCtrl_decode_encode (dc_time dc_sg : Nat)
    (hdc_time : dc_time &&& 0xFF = dc_time) (hdc_sg : dc_sg &&& 0xFF = dc_sg) :
    DcCtrl.decode (DcCtrl.encode ⟨dc_time, dc_sg⟩) = ⟨dc_time, dc_sg⟩ := by
  rw [← hdc_time, ← hdc_sg]
  simp only [DcCtrl.encode, DcCtrl.decode]
  simp +decide only [read_from_bit, read_bool_from_bit, write_from_bit_zero, write_from_bit_disjoint,
    write_bool_to_bit_zero, write_bool_to_bit_disjoint, and_shl, lor_and_right, shr_or,
    shr_and, land_land_zero, land_land_self, cond_shl_and, cond_piece_mask, cond_shr,
    cond_shl_bne, cond_and, cond_mask, cond_bne, and_mod_elide, and_shl_mod_elide,
    cond_shl_mod_elide, shl_shr_of_le, shl_shr_of_ge, Nat.shiftLeft_zero,
    Nat.shiftRight_zero, Nat.zero_and, Nat.and_zero, Nat.zero_or, Nat.or_zero,
    Nat.reduceShiftLeft, Nat.reduceShiftRight, Nat.reduceOr, Nat.reduceMod,
    Nat.reduceLT, Nat.reduceLeDiff, Nat.reduceSub]

theorem RampMode_encode_decode (x : Nat) :
    RampMode.encode (RampMode.decode x) = x &&& 0x3 := by
  simp only [RampMode.encode, RampMode.decode]
  simp +decide only [read_from_bit, and_mod_elide, acc_bool0, acc_bool, acc_field0, acc_field,
    Nat.reduceShiftLeft, Nat.reduceOr, Nat.reduceMod, Nat.reduceLT, Nat.reduceLeDiff]

theorem RampMode_decode_encode (ramp_mode : Nat)
    (hramp_mode : ramp_mode &&& 0x3 = ramp_mode) :
    RampMode.decode (RampMode.encode ⟨ramp_mode⟩) = ⟨ramp_mode⟩ := by
  rw [← hramp_mode]
  simp only [RampMode.encode, RampMode.decode]
  simp +decide only [read_from_bit, read_bool_from_bit, write_from_bit_zero, write_from_bit_disjoint,
    write_bool_to_bit_zero, write_bool_to_bit_disjoint, and_shl, lor_and_right, shr_or,
    shr_and, land_land_zero, land_land_self, cond_shl_and, cond_piece_mask, cond_shr,
    cond_shl_bne, cond_and, cond_mask, cond_bne, and_mod_elide, and_shl_mod_elide,
    cond_shl_mod_elide, shl_shr_of_le, shl_shr_of_ge, Nat.shiftLeft_zero,
    Nat.shiftRight_zero, Nat.zero_and, Nat.and_zero, Nat.zero_or, Nat.or_zero,
    Nat.reduceShiftLeft, Nat.reduceShiftRight, Nat.reduceOr, Nat.reduceMod,
    Nat.reduceLT, Nat.reduceLeDiff, Nat.reduceSub]

theorem VStart_encode_decode (x : Nat) :
    VStart.encode (VStart.decode x) = x &&& 0x3FFFF := by
  simp only [VStart.encode, VStart.decode]
  simp +decide only [read_from_bit, and_mod_elide, acc_bool0, acc_bool, acc_field0, acc_field,
    Nat.reduceShiftLeft, Nat.reduceOr, Nat.reduceMod, Nat.reduceLT, Nat.reduceLeDiff]

theorem VStart_decode_encode (v_start : Nat)
    (hv_start : v_start &&& 0x3FFFF = v_start) :
    VStart.decode (VStart.encode ⟨v_start⟩) = ⟨v_start⟩ := by
  rw [← hv_start]
  simp only [VStart.encode, VStart.decode]
  simp +decide only [read_from_bit, read_bool_from_bit, write_from_bit_zero, write_from_bit_disjoint,
    write_bool_to_bit_zero, write_bool_to_bit_disjoint, and_shl, lor_and_right, shr_or,
    shr_and, land_land_zero, land_land_self, cond_shl_and, cond_piece_mask, cond_shr,
    cond_shl_bne, cond_and, cond_mask, cond_bne, and_mod_elide, and_shl_mod_elide,
    cond_shl_mod_elide, shl_shr_of_le, shl_shr_of_ge, Nat.shiftLeft_zero,
    Nat.shiftRight_zero, Nat.zero_and, Nat.and_zero, Nat.zero_or, Nat.or_zero,
    Nat.reduceShiftLeft, Nat.reduceShiftRight, Nat.reduceOr, Nat.reduceMod,
    Nat.reduceLT, Nat.reduceLeDiff, Nat.reduceSub]

theorem A1_encode_decode (x : Nat) :
    A1.encode (A1.decode x) = x &&& 0xFFFF := by
  simp only [A1.encode, A1.decode]
  simp +decide only [read_from_bit, and_mod_elide, acc_bool0, acc_bool, acc_field0, acc_field,
    Nat.reduceShiftLeft, Nat.reduceOr, Nat.reduceMod, Nat.reduceLT, Nat.reduceLeDiff]

theorem A1_decode_encode (a1 : Nat)
    (ha1 : a1 &&& 0xFFFF = a1) :
    A1.decode (A1.encode ⟨a1⟩) = ⟨a1⟩ := by
  rw [← ha1]
  simp only [A1.encode, A1.decode]
  simp +decide only [read_from_bit, read_bool_from_bit, write_from_bit_zero, write_from_bit_disjoint,
    write_bool_to_bit_zero, write_bool_to_bit_disjoint, and_shl, lor_and_right, shr_or,
    shr_and, land_land_zero, land_land_self, cond_shl_and, cond_piece_mask, cond_shr,
    cond_shl_bne, cond_and, cond_mask, cond_bne, and_mod_elide, and_shl_mod_elide,
    cond_shl_mod_elide, shl_shr_of_le, shl_shr_of_ge, Nat.shiftLeft_zero,
    Nat.shiftRight_zero, Nat.zero_and, Nat.and_zero, Nat.zero_or, Nat.or_zero,
    Nat.reduceShiftLeft, Nat.reduceShiftRight, Nat.reduceOr, Nat.reduceMod,
    Nat.reduceLT, Nat.reduceLeDiff, Nat.reduceSub]

theorem V1_encode_decode (x : Nat) :
    V1.encode (V1.decode x) = x &&& 0xFFFFF := by
  simp only [V1.encode, V1.decode]
  simp +decide only [read_from_bit, and_mod_elide, acc_bool0, acc_bool, acc_field0, acc_field,
    Nat.reduceShiftLeft, Nat.reduceOr, Nat.reduceMod, Nat.reduceLT, Nat.reduceLeDiff]

theorem V1_decode_encode (v1 : Nat)
    (hv1 : v1 &&& 0xFFFFF = v1) :
    V1.decode (V1.encode ⟨v1⟩) = ⟨v1⟩ := by
  rw [← hv1]
  simp only [V1.encode, V1.decode]
  simp +decide only [read_from_bit, read_bool_from_bit, write_from_bit_zero, write_from_bit_disjoint,
    write_bool_to_bit_zero, write_bool_to_bit_disjoint, and_shl, lor_and_right, shr_or,
    shr_and, land_land_zero, land_land_self, cond_shl_and, cond_piece_mask, cond_shr,
    cond_shl_bne, cond_and, cond_mask, cond_bne, and_mod_elide, and_shl_mod_elide,
    cond_shl_mod_elide, shl_shr_of_le, shl_shr_of_ge, Nat.shiftLeft_zero,
    Nat.shiftRight_zero, Nat.zero_and, Nat.and_zero, Nat.zero_or, Nat.or_zero,
    Nat.reduceShiftLeft, Nat.reduceShiftRight, Nat.reduceOr, Nat.reduceMod,
    Nat.reduceLT, Nat.reduceLeDiff, Nat.reduceSub]

theorem AMax_encode_decode (x : Nat) :
    AMax.encode (AMax.decode x) = x &&& 0xFFFF := by
  simp only [AMax.encode, AMax.decode]
  simp +decide only [read_from_bit, and_mod_elide, acc_bool0, acc_bool, acc_field0, acc_field,
    Nat.reduceShiftLeft, Nat.reduceOr, Nat.reduceMod, Nat.reduceLT, Nat.reduceLeDiff]

theorem AMax_decode_encode (a_max : Nat)
    (ha_max : a_max &&& 0xFFFF = a_max) :
    AMax.decode (AMax.encode ⟨a_max⟩) = ⟨a_max⟩ := by
  rw [← ha_max]
  simp only [AMax.encode, AMax.decode]
  simp +decide only [read_from_bit, read_bool_from_bit, write_from_bit_zero, write_from_bit_disjoint,
    write_bool_to_bit_zero, write_bool_to_bit_disjoint, and_shl, lor_and_right, shr_or,
    shr_and, land_land_zero, land_land_self, cond_shl_and, cond_piece_mask, cond_shr,
    cond_shl_bne, cond_and, cond_mask, cond_bne, and_mod_elide, and_shl_mod_elide,
    cond_shl_mod_elide, shl_shr_of_le, shl_shr_of_ge, Nat.shiftLeft_zero,
    Nat.shiftRight_zero, Nat.zero_and, Nat.and_zero, Nat.zero_or, Nat.or_zero,
    Nat.reduceShiftLeft, Nat.reduceShiftRight, Nat.reduceOr, Nat.reduceMod,
    Nat.reduceLT, Nat.reduceLeDiff, Nat.reduceSub]

theorem VMax_encode_decode (x : Nat) :
    VMax.encode (VMax.decode x) = x &&& 0x7FFFFF := by
  simp only [VMax.encode, VMax.decode]
  simp +decide only [read_from_bit, and_mod_elide, acc_bool0, acc_bool, acc_field0, acc_field,
    Nat.reduceShiftLeft, Nat.reduceOr, Nat.reduceMod, Nat.reduceLT, Nat.reduceLeDiff]

theorem VMax_decode_encode (v_max : Nat)
    (hv_max : v_max &&& 0x7FFFFF = v_max) :
    VMax.decode (VMax.encode ⟨v_max⟩) = ⟨v_max⟩ := by
  rw [← hv_max]
  simp only [VMax.encode, VMax.decode]
  simp +decide only [read_from_bit, read_bool_from_bit, write_from_bit_zero, write_from_bit_disjoint,
    write_bool_to_bit_zero, write_bool_to_bit_disjoint, and_shl, lor_and_right, shr_or,
    shr_and, land_land_zero, land_land_self, cond_shl_and, cond_piece_mask, cond_shr,
    cond_shl_bne, cond_and, cond_mask, cond_bne, and_mod_elide, and_shl_mod_elide,
    cond_shl_mod_elide, shl_shr_of_le, shl_shr_of_ge, Nat.shiftLeft_zero,
    Nat.shiftRight_zero, Nat.zero_and, Nat.and_zero, Nat.zero_or, Nat.or_zero,
    Nat.reduceShiftLeft, Nat.reduceShiftRight, Nat.reduceOr, Nat.reduceMod,
    Nat.reduceLT, Nat.reduceLeDiff, Nat.reduceSub]

theorem DMax_encode_decode (x : Nat) :
    DMax.encode (DMax.decode x) = x &&& 0xFFFF := by
  simp only [DMax.encode, DMax.decode]
  simp +decide only [read_from_bit, and_mod_elide, acc_bool0, acc_bool, acc_field0, acc_field,
    Nat.reduceShiftLeft, Nat.reduceOr, Nat.reduceMod, Nat.reduceLT, Nat.reduceLeDiff]

theorem DMax_decode_encode (d_max : Nat)
    (hd_max : d_max &&& 0xFFFF = d_max) :
    DMax.decode (DMax.encode ⟨d_max⟩) = ⟨d_max⟩ := by
  rw [← hd_max]
  simp only [DMax.encode, DMax.decode]
  simp +decide only [read_from_bit, read_bool_from_bit, write_from_bit_zero, write_from_bit_disjoint,
    write_bool_to_bit_zero, write_bool_to_bit_disjoint, and_shl, lor_and_right, shr_or,
    shr_and, land_land_zero, land_land_self, cond_shl_and, cond_piece_mask, cond_shr,
    cond_shl_bne, cond_and, cond_mask, cond_bne, and_mod_elide, and_shl_mod_elide,
    cond_shl_mod_elide, shl_shr_of_le, shl_shr_of_ge, Nat.shiftLeft_zero,
    Nat.shiftRight_zero, Nat.zero_and, Nat.and_zero, Nat.zero_or, Nat.or_zero,
    Nat.reduceShiftLeft, Nat.reduceShiftRight, Nat.reduceOr, Nat.reduceMod,
    Nat.reduceLT, Nat.reduceLeDiff, Nat.reduceSub]

theorem D1_encode_decode (x : Nat) :
    D1.encode (D1.decode x) = x &&& 0xFFFF := by
  simp only [D1.encode, D1.decode]
  simp +decide only [read_from_bit, and_mod_elide, acc_bool0, acc_bool, acc_field0, acc_field,
    Nat.reduceShiftLeft, Nat.reduceOr, Nat.reduceMod, Nat.reduceLT, Nat.reduceLeDiff]

theorem D1_decode_encode (d1 : Nat)
    (hd1 : d1 &&& 0xFFFF = d1) :
    D1.decode (D1.encode ⟨d1⟩) = ⟨d1⟩ := by
  rw [← hd1]
  simp only [D1.encode, D1.decode]
  simp +decide only [read_from_bit, read_bool_from_bit, write_from_bit_zero, write_from_bit_disjoint,
    write_bool_to_bit_zero, write_bool_to_bit_disjoint, and_shl, lor_and_right, shr_or,
    shr_and, land_land_zero, land_land_self, cond_shl_and, cond_piece_mask, cond_shr,
    cond_shl_bne, cond_and, cond_mask, cond_bne, and_mod_elide, and_shl_mod_elide,
    cond_shl_mod_elide, shl_shr_of_le, shl_shr_of_ge, Nat.shiftLeft_zero,
    Nat.shiftRight_zero, Nat.zero_and, Nat.and_zero, Nat.zero_or, Nat.or_zero,
    Nat.reduceShiftLeft, Nat.reduceShiftRight, Nat.reduceOr, Nat.reduceMod,
    Nat.reduceLT, Nat.reduceLeDiff, Nat.reduceSub]

theorem VStop_encode_decode (x : Nat) :
    VStop.encode (VStop.decode x) = x &&& 0x3FFFF := by
  simp only [VStop.encode, VStop.decode]
  simp +decide only [read_from_bit, and_mod_elide, acc_bool0, acc_bool, acc_field0, acc_field,
    Nat.reduceShiftLeft, Nat.reduceOr, Nat.reduceMod, Nat.reduceLT, Nat.reduceLeDiff]

theorem VStop_decode_encode (v_stop : Nat)
    (hv_stop : v_stop &&& 0x3FFFF = v_stop) :
    VStop.decode (VStop.encode ⟨v_stop⟩) = ⟨v_stop⟩ := by
  rw [← hv_stop]
  simp only [VStop.encode, VStop.decode]
  simp +decide only [read_from_bit, read_bool_from_bit, write_from_bit_zero, write_from_bit_disjoint,
    write_bool_to_bit_zero, write_bool_to_bit_disjoint, and_shl, lor_and_right, shr_or,
    shr_and, land_land_zero, land_land_self, cond_shl_and, cond_piece_mask, cond_shr,
    cond_shl_bne, cond_and, cond_mask, cond_bne, and_mod_elide, and_shl_mod_elide,
    cond_shl_mod_elide, shl_shr_of_le, shl_shr_of_ge, Nat.shiftLeft_zero,
    Nat.shiftRight_zero, Nat.zero_and, Nat.and_zero, Nat.zero_or, Nat.or_zero,
    Nat.reduceShiftLeft, Nat.reduceShiftRight, Nat.reduceOr, Nat.reduceMod,
    Nat.reduceLT, Nat.reduceLeDiff, Nat.reduceSub]

theorem TZeroWait_encode_decode (x : Nat) :
    TZeroWait.encode (TZeroWait.decode x) = x &&& 0xFFFF := by
  simp only [TZeroWait.encode, TZeroWait.decode]
  simp +decide only [read_from_bit, and_mod_elide, acc_bool0, acc_bool, acc_field0, acc_field,
    Nat.reduceShiftLeft, Nat.reduceOr, Nat.reduceMod, Nat.reduceLT, Nat.reduceLeDiff]

theorem TZeroWait_decode_encode (t_zero_wait : Nat)
    (ht_zero_wait : t_zero_wait &&& 0xFFFF = t_zero_wait) :
    TZeroWait.decode (TZeroWait.encode ⟨t_zero_wait⟩) = ⟨t_zero_wait⟩ := by
  rw [← ht_zero_wait]
  simp only [TZeroWait.encode, TZeroWait.decode]
  simp +decide only [read_from_bit, read_bool_from_bit, write_from_bit_zero, write_from_bit_disjoint,
    write_bool_to_bit_zero, write_bool_to_bit_disjoint, and_shl, lor_and_right, shr_or,
    shr_and, land_land_zero, land_land_self, cond_shl_and, cond_piece_mask, cond_shr,
    cond_shl_bne, cond_and, cond_mask, cond_bne, and_mod_elide, and_shl_mod_elide,
    cond_shl_mod_elide, shl_shr_of_le, shl_shr_of_ge, Nat.shiftLeft_zero,
    Nat.shiftRight_zero, Nat.zero_and, Nat.and_zero, Nat.zero_or, Nat.or_zero,
    Nat.reduceShiftLeft, Nat.reduceShiftRight, Nat.reduceOr, Nat.reduceMod,
    Nat.reduceLT, Nat.reduceLeDiff, Nat.reduceSub]

theorem IHoldIRun_encode_decode (x : Nat) :
    IHoldIRun.encode (IHoldIRun.decode x) = x &&& 0xF1F1F := by
  simp only [IHoldIRun.encode, IHoldIRun.decode]
  simp +decide only [read_from_bit, and_mod_elide, acc_bool0, acc_bool, acc_field0, acc_field,
    Nat.reduceShiftLeft, Nat.reduceOr, Nat.reduceMod, Nat.reduceLT, Nat.reduceLeDiff]

theorem IHoldIRun_decode_encode (i_hold i_run i_hold_delay : Nat)
    (hi_hold : i_hold &&& 0x1F = i_hold) (hi_run : i_run &&& 0x1F = i_run) (hi_hold_delay : i_hold_delay &&& 0xF = i_hold_delay) :
    IHoldIRun.decode (IHoldIRun.encode ⟨i_hold, i_run, i_hold_delay⟩) = ⟨i_hold, i_run, i_hold_delay⟩ := by
  rw [← hi_hold, ← hi_run, ← hi_hold_delay]
  simp only [IHoldIRun.encode, IHoldIRun.decode]
  simp +decide only [read_from_bit, read_bool_from_bit, write_from_bit_zero, write_from_bit_disjoint,
    write_bool_to_bit_zero, write_bool_to_bit_disjoint, and_shl, lor_and_right, shr_or,
    shr_and, land_land_zero, land_land_self, cond_shl_and, cond_piece_mask, cond_shr,
    cond_shl_bne, cond_and, cond_mask, cond_bne, and_mod_elide, and_shl_mod_elide,
    cond_shl_mod_elide, shl_shr_of_le, shl_shr_of_ge, Nat.shiftLeft_zero,
    Nat.shiftRight_zero, Nat.zero_and, Nat.and_zero, Nat.zero_or, Nat.or_zero,
    Nat.reduceShiftLeft, Nat.reduceShiftRight, Nat.reduceOr, Nat.reduceMod,
    Nat.reduceLT, Nat.reduceLeDiff, Nat.reduceSub]

theorem VCoolThrs_encode_decode (x : Nat) :
    VCoolThrs.encode (VCoolThrs.decode x) = x &&& 0x7FFFFF := by
  simp only [VCoolThrs.encode, VCoolThrs.decode]
  simp +decide only [read_from_bit, and_mod_elide, acc_bool0, acc_bool, acc_field0, acc_field,
    Nat.reduceShiftLeft, Nat.reduceOr, Nat.reduceMod, Nat.reduceLT, Nat.reduceLeDiff]

theorem VCoolThrs_decode_encode (v_cool_thrs : Nat)
    (hv_cool_thrs : v_cool_thrs &&& 0x7FFFFF = v_cool_thrs) :
    VCoolThrs.decode (VCoolThrs.encode ⟨v_cool_thrs⟩) = ⟨v_cool_thrs⟩ := by
  rw [← hv_cool_thrs]
  simp only [VCoolThrs.encode, VCoolThrs.decode]
  simp +decide only [read_from_bit, read_bool_from_bit, write_from_bit_zero, write_from_bit_disjoint,
    write_bool_to_bit_zero, write_bool_to_bit_disjoint, and_shl, lor_and_right, shr_or,
    shr_and, land_land_zero, land_land_self, cond_shl_and, cond_piece_mask, cond_shr,
    cond_shl_bne, cond_and, cond_mask, cond_bne, and_mod_elide, and_shl_mod_elide,
    cond_shl_mod_elide, shl_shr_of_le, shl_shr_of_ge, Nat.shiftLeft_zero,
    Nat.shiftRight_zero, Nat.zero_and, Nat.and_zero, Nat.zero_or, Nat.or_zero,
    Nat.reduceShiftLeft, Nat.reduceShiftRight, Nat.reduceOr, Nat.reduceMod,
    Nat.reduceLT, Nat.reduceLeDiff, Nat.reduceSub]

theorem VHigh_encode_decode (x : Nat) :
    VHigh.encode (VHigh.decode x) = x &&& 0x7FFFFF := by
  simp only [VHigh.encode, VHigh.decode]
  simp +decide only [read_from_bit, and_mod_elide, acc_bool0, acc_bool, acc_field0, acc_field,
    Nat.reduceShiftLeft, Nat.reduceOr, Nat.reduceMod, Nat.reduceLT, Nat.reduceLeDiff]

theorem VHigh_decode_encode (v_high : Nat)
    (hv_high : v_high &&& 0x7FFFFF = v_high) :
    VHigh.decode (VHigh.encode ⟨v_high⟩) = ⟨v_high⟩ := by
  rw [← hv_high]
  simp only [VHigh.encode, VHigh.decode]
  simp +decide only [read_from_bit, read_bool_from_bit, write_from_bit_zero, write_from_bit_disjoint,
    write_bool_to_bit_zero, write_bool_to_bit_disjoint, and_shl, lor_and_right, shr_or,
    shr_and, land_land_zero, land_land_self, cond_shl_and, cond_piece_mask, cond_shr,
    cond_shl_bne, cond_and, cond_mask, cond_bne, and_mod_elide, and_shl_mod_elide,
    cond_shl_mod_elide, shl_shr_of_le, shl_shr_of_ge, Nat.shiftLeft_zero,
    Nat.shiftRight_zero, Nat.zero_and, Nat.and_zero, Nat.zero_or, Nat.or_zero,
    Nat.reduceShiftLeft, Nat.reduceShiftRight, Nat.reduceOr, Nat.reduceMod,
    Nat.reduceLT, Nat.reduceLeDiff, Nat.reduceSub]

theorem VDcMin_encode_decode (x : Nat) :
    VDcMin.encode (VDcMin.decode x) = x &&& 0x7FFFFF := by
  simp only [VDcMin.encode, VDcMin.decode]
  simp +decide only [read_from_bit, and_mod_elide, acc_bool0, acc_bool, acc_field0, acc_field,
    Nat.reduceShiftLeft, Nat.reduceOr, Nat.reduceMod, Nat.reduceLT, Nat.reduceLeDiff]

theorem VDcMin_decode_encode (v_dc_min : Nat)
    (hv_dc_min : v_dc_min &&& 0x7FFFFF = v_dc_min) :
    VDcMin.decode (VDcMin.encode ⟨v_dc_min⟩) = ⟨v_dc_min⟩ := by
  rw [← hv_dc_min]
  simp only [VDcMin.encode, VDcMin.decode]
  simp +decide only [read_from_bit, read_bool_from_bit, write_from_bit_zero, write_from_bit_disjoint,
    write_bool_to_bit_zero, write_bool_to_bit_disjoint, and_shl, lor_and_right, shr_or,
    shr_and, land_land_zero, land_land_self, cond_shl_and, cond_piece_mask, cond_shr,
    cond_shl_bne, cond_and, cond_mask, cond_bne, and_mod_elide, and_shl_mod_elide,
    cond_shl_mod_elide, shl_shr_of_le, shl_shr_of_ge, Nat.shiftLeft_zero,
    Nat.shiftRight_zero, Nat.zero_and, Nat.and_zero, Nat.zero_or, Nat.or_zero,
    Nat.reduceShiftLeft, Nat.reduceShiftRight, Nat.reduceOr, Nat.reduceMod,
    Nat.reduceLT, Nat.reduceLeDiff, Nat.reduceSub]

theorem SwMode_encode_decode (x : Nat) :
    SwMode.encode (SwMode.decode x) = x &&& 0xFFF := by
  simp only [SwMode.encode, SwMode.decode]
  simp +decide only [read_from_bit, and_mod_elide, acc_bool0, acc_bool, acc_field0, acc_field,
    Nat.reduceShiftLeft, Nat.reduceOr, Nat.reduceMod, Nat.reduceLT, Nat.reduceLeDiff]

theorem SwMode_decode_encode (stop_l_enable stop_r_enable pol_stop_l pol_stop_r swap_lr latch_l_active latch_l_inactive latch_r_active latch_r_inactive en_latch_encoder sg_stop en_softstop : Bool)
    :
    SwMode.decode (SwMode.encode ⟨stop_l_enable, stop_r_enable, pol_stop_l, pol_stop_r, swap_lr, latch_l_active, latch_l_inactive, latch_r_active, latch_r_inactive, en_latch_encoder, sg_stop, en_softstop⟩) = ⟨stop_l_enable, stop_r_enable, pol_stop_l, pol_stop_r, swap_lr, latch_l_active, latch_l_inactive, latch_r_active, latch_r_inactive, en_latch_encoder, sg_stop, en_softstop⟩ := by
  simp only [SwMode.encode, SwMode.decode]
  simp +decide only [read_from_bit, read_bool_from_bit, write_from_bit_zero, write_from_bit_disjoint,
    write_bool_to_bit_zero, write_bool_to_bit_disjoint, and_shl, lor_and_right, shr_or,
    shr_and, land_land_zero, land_land_self, cond_shl_and, cond_piece_mask, cond_shr,
    cond_shl_bne, cond_and, cond_mask, cond_bne, and_mod_elide, and_shl_mod_elide,
    cond_shl_mod_elide, shl_shr_of_le, shl_shr_of_ge, Nat.shiftLeft_zero,
    Nat.shiftRight_zero, Nat.zero_and, Nat.and_zero, Nat.zero_or, Nat.or_zero,
    Nat.reduceShiftLeft, Nat.reduceShiftRight, Nat.reduceOr, Nat.reduceMod,
    Nat.reduceLT, Nat.reduceLeDiff, Nat.reduceSub]

theorem RampStat_encode_decode (x : Nat) :
    RampStat.encode (RampStat.decode x) = x &&& 0x3FFF := by
  simp only [RampStat.encode, RampStat.decode]
  simp +decide only [read_from_bit, and_mod_elide, acc_bool0, acc_bool, acc_field0, acc_field,
    Nat.reduceShiftLeft, Nat.reduceOr, Nat.reduceMod, Nat.reduceLT, Nat.reduceLeDiff]

theorem RampStat_decode_encode (status_stop_l status_stop_r status_latch_l status_latch_r event_stop_l event_stop_r event_stop_sg event_pos_reached velocity_reached position_reached vzero t_zerowait_active second_move status_sg : Bool)
    :
    RampStat.decode (RampStat.encode ⟨status_stop_l, status_stop_r, status_latch_l, status_latch_r, event_stop_l, event_stop_r, event_stop_sg, event_pos_reached, velocity_reached, position_reached, vzero, t_zerowait_active, second_move, status_sg⟩) = ⟨status_stop_l, status_stop_r, status_latch_l, status_latch_r, event_stop_l, event_stop_r, event_stop_sg, event_pos_reached, velocity_reached, position_reached, vzero, t_zerowait_active, second_move, status_sg⟩ := by
  simp only [RampStat.encode, RampStat.decode]
  simp +decide only [read_from_bit, read_bool_from_bit, write_from_bit_zero, write_from_bit_disjoint,
    write_bool_to_bit_zero, write_bool_to_bit_disjoint, and_shl, lor_and_right, shr_or,
    shr_and, land_land_zero, land_land_self, cond_shl_and, cond_piece_mask, cond_shr,
    cond_shl_bne, cond_and, cond_mask, cond_bne, and_mod_elide, and_shl_mod_elide,
    cond_shl_mod_elide, shl_shr_of_le, shl_shr_of_ge, Nat.shiftLeft_zero,
    Nat.shiftRight_zero, Nat.zero_and, Nat.and_zero, Nat.zero_or, Nat.or_zero,
    Nat.reduceShiftLeft, Nat.reduceShiftRight, Nat.reduceOr, Nat.reduceMod,
    Nat.reduceLT, Nat.reduceLeDiff, Nat.reduceSub]

theorem XLatch_encode_decode (x : Nat) :
    XLatch.encode (XLatch.decode x) = x &&& 0xFFFFFFFF := by
  simp only [XLatch.encode, XLatch.decode]
  simp +decide only [read_from_bit, and_mod_elide, acc_bool0, acc_bool, acc_field0, acc_field,
    Nat.reduceShiftLeft, Nat.reduceOr, Nat.reduceMod, Nat.reduceLT, Nat.reduceLeDiff]

theorem XLatch_decode_encode (x_latch : Nat)
    (hx_latch : x_latch &&& 0xFFFFFFFF = x_latch) :
    XLatch.decode (XLatch.encode ⟨x_latch⟩) = ⟨x_latch⟩ := by
  rw [← hx_latch]
  simp only [XLatch.encode, XLatch.decode]
  simp +decide only [read_from_bit, read_bool_from_bit, write_from_bit_zero, write_from_bit_disjoint,
    write_bool_to_bit_zero, write_bool_to_bit_disjoint, and_shl, lor_and_right, shr_or,
    shr_and, land_land_zero, land_land_self, cond_shl_and, cond_piece_mask, cond_shr,
    cond_shl_bne, cond_and, cond_mask, cond_bne, and_mod_elide, and_shl_mod_elide,
    cond_shl_mod_elide, shl_shr_of_le, shl_shr_of_ge, Nat.shiftLeft_zero,
    Nat.shiftRight_zero, Nat.zero_and, Nat.and_zero, Nat.zero_or, Nat.or_zero,
    Nat.reduceShiftLeft, Nat.reduceShiftRight, Nat.reduceOr, Nat.reduceMod,
    Nat.reduceLT, Nat.reduceLeDiff, Nat.reduceSub]

theorem EncMode_encode_decode (x : Nat) :
    EncMode.encode (EncMode.decode x) = x &&& 0xFFF := by
  simp only [EncMode.encode, EncMode.decode]
  simp +decide only [read_from_bit, and_mod_elide, acc_bool0, acc_bool, acc_field0, acc_field,
    Nat.reduceShiftLeft, Nat.reduceOr, Nat.reduceMod, Nat.reduceLT, Nat.reduceLeDiff]

theorem EncMode_decode_encode (pol_a pol_b pol_n ignore_ab clr_cont clr_once pos_edge neg_edge clr_enc_x latch_x_act enc_sel_decimal latch_now : Bool)
    :
    EncMode.decode (EncMode.encode ⟨pol_a, pol_b, pol_n, ignore_ab, clr_cont, clr_once, pos_edge, neg_edge, clr_enc_x, latch_x_act, enc_sel_decimal, latch_now⟩) = ⟨pol_a, pol_b, pol_n, ignore_ab, clr_cont, clr_once, pos_edge, neg_edge, clr_enc_x, latch_x_act, enc_sel_decimal, latch_now⟩ := by
  simp only [EncMode.encode, EncMode.decode]
  simp +decide only [read_from_bit, read_bool_from_bit, write_from_bit_zero, write_from_bit_disjoint,
    write_bool_to_bit_zero, write_bool_to_bit_disjoint, and_shl, lor_and_right, shr_or,
    shr_and, land_land_zero, land_land_self, cond_shl_and, cond_piece_mask, cond_shr,
    cond_shl_bne, cond_and, cond_mask, cond_bne, and_mod_elide, and_shl_mod_elide,
    cond_shl_mod_elide, shl_shr_of_le, shl_shr_of_ge, Nat.shiftLeft_zero,
    Nat.shiftRight_zero, Nat.zero_and, Nat.and_zero, Nat.zero_or, Nat.or_zero,
    Nat.reduceShiftLeft, Nat.reduceShiftRight, Nat.reduceOr, Nat.reduceMod,
    Nat.reduceLT, Nat.reduceLeDiff, Nat.reduceSub]

theorem EncStatus_encode_decode (x : Nat) :
    EncStatus.encode (EncStatus.decode x) = x &&& 0x1 := by
  simp only [EncStatus.encode, EncStatus.decode]
  simp +decide only [read_from_bit, and_mod_elide, acc_bool0, acc_bool, acc_field0, acc_field,
    Nat.reduceShiftLeft, Nat.reduceOr, Nat.reduceMod, Nat.reduceLT, Nat.reduceLeDiff]

theorem EncStatus_decode_encode (enc_status : Bool)
    :
    EncStatus.decode (EncStatus.encode ⟨enc_status⟩) = ⟨enc_status⟩ := by
  simp only [EncStatus.encode, EncStatus.decode]
  simp +decide only [read_from_bit, read_bool_from_bit, write_from_bit_zero, write_from_bit_disjoint,
    write_bool_to_bit_zero, write_bool_to_bit_disjoint, and_shl, lor_and_right, shr_or,
    shr_and, land_land_zero, land_land_self, cond_shl_and, cond_piece_mask, cond_shr,
    cond_shl_bne, cond_and, cond_mask, cond_bne, and_mod_elide, and_shl_mod_elide,
    cond_shl_mod_elide, shl_shr_of_le, shl_shr_of_ge, Nat.shiftLeft_zero,
    Nat.shiftRight_zero, Nat.zero_and, Nat.and_zero, Nat.zero_or, Nat.or_zero,
    Nat.reduceShiftLeft, Nat.reduceShiftRight, Nat.reduceOr, Nat.reduceMod,
    Nat.reduceLT, Nat.reduceLeDiff, Nat.reduceSub]

theorem PwmConf_encode_decode (x : Nat) :
    PwmConf.encode (PwmConf.decode x) = x &&& 0x37FFFF := by
  simp only [PwmConf.encode, PwmConf.decode]
  simp +decide only [read_from_bit, and_mod_elide, acc_bool0, acc_bool, acc_field0, acc_field,
    Nat.reduceShiftLeft, Nat.reduceOr, Nat.reduceMod, Nat.reduceLT, Nat.reduceLeDiff]

theorem PwmConf_decode_encode (pwm_ampl pwm_grad pwm_freq freewheel : Nat) (pwm_autoscale : Bool)
    (hpwm_ampl : pwm_ampl &&& 0xFF = pwm_ampl) (hpwm_grad : pwm_grad &&& 0xFF = pwm_grad) (hpwm_freq : pwm_freq &&& 0x3 = pwm_freq) (hfreewheel : freewheel &&& 0x3 = freewheel) :
    PwmConf.decode (PwmConf.encode ⟨pwm_ampl, pwm_grad, pwm_freq, pwm_autoscale, freewheel⟩) = ⟨pwm_ampl, pwm_grad, pwm_freq, pwm_autoscale, freewheel⟩ := by
  rw [← hpwm_ampl, ← hpwm_grad, ← hpwm_freq, ← hfreewheel]
  simp only [PwmConf.encode, PwmConf.decode]
  simp +decide only [read_from_bit, read_bool_from_bit, write_from_bit_zero, write_from_bit_disjoint,
    write_bool_to_bit_zero, write_bool_to_bit_disjoint, and_shl, lor_and_right, shr_or,
    shr_and, land_land_zero, land_land_self, cond_shl_and, cond_piece_mask, cond_shr,
    cond_shl_bne, cond_and, cond_mask, cond_bne, and_mod_elide, and_shl_mod_elide,
    cond_shl_mod_elide, shl_shr_of_le, shl_shr_of_ge, Nat.shiftLeft_zero,
    Nat.shiftRight_zero, Nat.zero_and, Nat.and_zero, Nat.zero_or, Nat.or_zero,
    Nat.reduceShiftLeft, Nat.reduceShiftRight, Nat.reduceOr, Nat.reduceMod,
    Nat.reduceLT, Nat.reduceLeDiff, Nat.reduceSub]

theorem PwmStatus_encode_decode (x : Nat) :
    PwmStatus.encode (PwmStatus.decode x) = x &&& 0xFF := by
  simp only [PwmStatus.encode, PwmStatus.decode]
  simp +decide only [read_from_bit, and_mod_elide, acc_bool0, acc_bool, acc_field0, acc_field,
    Nat.reduceShiftLeft, Nat.reduceOr, Nat.reduceMod, Nat.reduceLT, Nat.reduceLeDiff]

theorem PwmStatus_decode_encode (pwm_status : Nat)
    (hpwm_status : pwm_status &&& 0xFF = pwm_status) :
    PwmStatus.decode (PwmStatus.encode ⟨pwm_status⟩) = ⟨pwm_status⟩ := by
  rw [← hpwm_status]
  simp only [PwmStatus.encode, PwmStatus.decode]
  simp +decide only [read_from_bit, read_bool_from_bit, write_from_bit_zero, write_from_bit_disjoint,
    write_bool_to_bit_zero, write_bool_to_bit_disjoint, and_shl, lor_and_right, shr_or,
    shr_and, land_land_zero, land_land_self, cond_shl_and, cond_piece_mask, cond_shr,
    cond_shl_bne, cond_and, cond_mask, cond_bne, and_mod_elide, and_shl_mod_elide,
    cond_shl_mod_elide, shl_shr_of_le, shl_shr_of_ge, Nat.shiftLeft_zero,
    Nat.shiftRight_zero, Nat.zero_and, Nat.and_zero, Nat.zero_or, Nat.or_zero,
    Nat.reduceShiftLeft, Nat.reduceShiftRight, Nat.reduceOr, Nat.reduceMod,
    Nat.reduceLT, Nat.reduceLeDiff, Nat.reduceSub]

/-! ## Bespoke registers: full-width and signed fields -/
theorem i32_as_u32_lt (v : Int) : i32_as_u32 v < 2 ^ 32 := by
  unfold i32_as_u32
  omega

theorem and_mask32 (n : Nat) (h : n < 2 ^ 32) : n &&& 0xFFFFFFFF = n := by
  rw [show (0xFFFFFFFF : Nat) = 2 ^ 32 - 1 from by norm_num, Nat.and_pow_two_sub_one_eq_mod]
  exact Nat.mod_eq_of_lt h

theorem XActual_encode_decode (x : Nat) :
    XActual.encode (XActual.decode x) = x &&& 0xFFFFFFFF := by
  simp only [XActual.encode, XActual.decode, read_from_bit, Nat.shiftRight_zero]
  have hlt : x &&& 0xFFFFFFFF < 2 ^ 32 :=
    Nat.lt_of_le_of_lt Nat.and_le_right (by norm_num)
  rw [u32_i32_roundtrip _ hlt,
    write_from_bit_zero _ _ _ (by decide)
      (by rw [Nat.shiftLeft_zero] ; exact and_mod_elide _ _ _ (by norm_num)),
    Nat.shiftLeft_zero]

theorem XActual_decode_encode (v : Int) (hlo : -(2 ^ 31) ≤ v) (hhi : v < 2 ^ 31) :
    XActual.decode (XActual.encode ⟨v⟩) = ⟨v⟩ := by
  simp only [XActual.encode, XActual.decode, read_from_bit, Nat.shiftRight_zero]
  have hlt : i32_as_u32 v < 2 ^ 32 := i32_as_u32_lt v
  rw [write_from_bit_zero _ _ _ (by decide)
      (by rw [Nat.shiftLeft_zero] ; exact Nat.mod_eq_of_lt (by
        have := i32_as_u32_lt v ; norm_num at this ⊢ ; omega)),
    Nat.shiftLeft_zero, and_mask32 _ hlt, i32_u32_roundtrip v hlo hhi]

theorem XTarget_encode_decode (x : Nat) :
    XTarget.encode (XTarget.decode x) = x &&& 0xFFFFFFFF := by
  simp only [XTarget.encode, XTarget.decode, read_from_bit, Nat.shiftRight_zero]
  have hlt : x &&& 0xFFFFFFFF < 2 ^ 32 :=
    Nat.lt_of_le_of_lt Nat.and_le_right (by norm_num)
  rw [u32_i32_roundtrip _ hlt,
    write_from_bit_zero _ _ _ (by decide)
      (by rw [Nat.shiftLeft_zero] ; exact and_mod_elide _ _ _ (by norm_num)),
    Nat.shiftLeft_zero]

theorem XTarget_decode_encode (v : Int) (hlo : -(2 ^ 31) ≤ v) (hhi : v < 2 ^ 31) :
    XTarget.decode (XTarget.encode ⟨v⟩) = ⟨v⟩ := by
  simp only [XTarget.encode, XTarget.decode, read_from_bit, Nat.shiftRight_zero]
  have hlt : i32_as_u32 v < 2 ^ 32 := i32_as_u32_lt v
  rw [write_from_bit_zero _ _ _ (by decide)
      (by rw [Nat.shiftLeft_zero] ; exact Nat.mod_eq_of_lt (by
        have := i32_as_u32_lt v ; norm_num at this ⊢ ; omega)),
    Nat.shiftLeft_zero, and_mask32 _ hlt, i32_u32_roundtrip v hlo hhi]

theorem XEnc_encode_decode (x : Nat) :
    XEnc.encode (XEnc.decode x) = x &&& 0xFFFFFFFF := by
  simp only [XEnc.encode, XEnc.decode, read_from_bit, Nat.shiftRight_zero]
  have hlt : x &&& 0xFFFFFFFF < 2 ^ 32 :=
    Nat.lt_of_le_of_lt Nat.and_le_right (by norm_num)
  rw [u32_i32_roundtrip _ hlt,
    write_from_bit_zero _ _ _ (by decide)
      (by rw [Nat.shiftLeft_zero] ; exact and_mod_elide _ _ _ (by norm_num)),
    Nat.shiftLeft_zero]

theorem XEnc_decode_encode (v : Int) (hlo : -(2 ^ 31) ≤ v) (hhi : v < 2 ^ 31) :
    XEnc.decode (XEnc.encode ⟨v⟩) = ⟨v⟩ := by
  simp only [XEnc.encode, XEnc.decode, read_from_bit, Nat.shiftRight_zero]
  have hlt : i32_as_u32 v < 2 ^ 32 := i32_as_u32_lt v
  rw [write_from_bit_zero _ _ _ (by decide)
      (by rw [Nat.shiftLeft_zero] ; exact Nat.mod_eq_of_lt (by
        have := i32_as_u32_lt v ; norm_num at this ⊢ ; omega)),
    Nat.shiftLeft_zero, and_mask32 _ hlt, i32_u32_roundtrip v hlo hhi]

theorem EncLatch_encode_decode (x : Nat) :
    EncLatch.encode (EncLatch.decode x) = x &&& 0xFFFFFFFF := by
  simp only [EncLatch.encode, EncLatch.decode, read_from_bit, Nat.shiftRight_zero]
  have hlt : x &&& 0xFFFFFFFF < 2 ^ 32 :=
    Nat.lt_of_le_of_lt Nat.and_le_right (by norm_num)
  rw [u32_i32_roundtrip _ hlt,
    write_from_bit_zero _ _ _ (by decide)
      (by rw [Nat.shiftLeft_zero] ; exact and_mod_elide _ _ _ (by norm_num)),
    Nat.shiftLeft_zero]

theorem EncLatch_decode_encode (v : Int) (hlo : -(2 ^ 31) ≤ v) (hhi : v < 2 ^ 31) :
    EncLatch.decode (EncLatch.encode ⟨v⟩) = ⟨v⟩ := by
  simp only [EncLatch.encode, EncLatch.decode, read_from_bit, Nat.shiftRight_zero]
  have hlt : i32_as_u32 v < 2 ^ 32 := i32_as_u32_lt v
  rw [write_from_bit_zero _ _ _ (by decide)
      (by rw [Nat.shiftLeft_zero] ; exact Nat.mod_eq_of_lt (by
        have := i32_as_u32_lt v ; norm_num at this ⊢ ; omega)),
    Nat.shiftLeft_zero, and_mask32 _ hlt, i32_u32_roundtrip v hlo hhi]

theorem VActual_encode_decode (x : Nat) :
    VActual.encode (VActual.decode x) = x &&& 0xFFFFFF := by
  simp only [VActual.encode, VActual.decode, read_from_bit, Nat.shiftRight_zero]
  have hlt : x &&& 0xFFFFFF < 2 ^ 24 :=
    Nat.lt_of_le_of_lt Nat.and_le_right (by norm_num)
  rw [from_to_signed _ 24 (by norm_num) (by norm_num) hlt,
    write_from_bit_zero _ _ _ (by decide)
      (by rw [Nat.shiftLeft_zero] ; exact and_mod_elide _ _ _ (by norm_num)),
    Nat.shiftLeft_zero]

theorem VActual_decode_encode (v : Int) (hlo : -(2 ^ 23) ≤ v) (hhi : v < 2 ^ 23) :
    VActual.decode (VActual.encode ⟨v⟩) = ⟨v⟩ := by
  simp only [VActual.encode, VActual.decode, read_from_bit, Nat.shiftRight_zero]
  have hlt : convert_from_signed_n v 24 < 2 ^ 24 := from_signed_lt v 24 (by norm_num)
  have hself : convert_from_signed_n v 24 &&& 0xFFFFFF = convert_from_signed_n v 24 := by
    rw [show (0xFFFFFF : Nat) = (1 <<< 24) - 1 from by decide]
    exact from_signed_self_masked v 24
  rw [write_from_bit_zero _ _ _ (by decide)
      (by rw [Nat.shiftLeft_zero] ; exact Nat.mod_eq_of_lt (by
        norm_num at hlt ⊢ ; omega)),
    Nat.shiftLeft_zero, hself,
    to_from_signed v 24 (by norm_num) (by norm_num) (by norm_num ; omega) (by norm_num at hhi ⊢ ; omega)]

theorem MsCurAct_encode_decode (x : Nat) :
    MsCurAct.encode (MsCurAct.decode x) = x &&& 0x1FF01FF := by
  have key : ∀ y : Nat,
      convert_from_signed_n (i32_as_i16 (convert_to_signed_n (y &&& 0x1FF) 9)) 9
        = y &&& 0x1FF := by
    intro y
    have hlt : y &&& 0x1FF < 2 ^ 9 := Nat.lt_of_le_of_lt Nat.and_le_right (by norm_num)
    have hr := to_signed_range (y &&& 0x1FF) 9 (by norm_num) (by norm_num) hlt
    rw [i32_as_i16_of_range _ (by have := hr.1 ; norm_num at this ⊢ ; omega)
        (by have := hr.2 ; norm_num at this ⊢ ; omega),
      from_to_signed _ 9 (by norm_num) (by norm_num) hlt]
  simp only [MsCurAct.encode, MsCurAct.decode]
  simp +decide only [read_from_bit, key, acc_field0, acc_field,
    Nat.reduceShiftLeft, Nat.reduceOr]

theorem MsCurAct_decode_encode (a b : Int)
    (ha1 : -(2 ^ 8) ≤ a) (ha2 : a < 2 ^ 8) (hb1 : -(2 ^ 8) ≤ b) (hb2 : b < 2 ^ 8) :
    MsCurAct.decode (MsCurAct.encode ⟨a, b⟩) = ⟨a, b⟩ := by
  have hwa : convert_from_signed_n a 9 &&& 0x1FF = convert_from_signed_n a 9 := by
    rw [show (0x1FF : Nat) = (1 <<< 9) - 1 from by decide]
    exact from_signed_self_masked a 9
  have hwb : convert_from_signed_n b 9 &&& 0x1FF = convert_from_signed_n b 9 := by
    rw [show (0x1FF : Nat) = (1 <<< 9) - 1 from by decide]
    exact from_signed_self_masked b 9
  have hka : i32_as_i16 (convert_to_signed_n (convert_from_signed_n a 9) 9) = a := by
    rw [to_from_signed a 9 (by norm_num) (by norm_num)
        (by norm_num at ha1 ⊢ ; omega) (by norm_num at ha2 ⊢ ; omega),
      i32_as_i16_of_range a (by norm_num at ha1 ⊢ ; omega) (by norm_num at ha2 ⊢ ; omega)]
  have hkb : i32_as_i16 (convert_to_signed_n (convert_from_signed_n b 9) 9) = b := by
    rw [to_from_signed b 9 (by norm_num) (by norm_num)
        (by norm_num at hb1 ⊢ ; omega) (by norm_num at hb2 ⊢ ; omega),
      i32_as_i16_of_range b (by norm_num at hb1 ⊢ ; omega) (by norm_num at hb2 ⊢ ; omega)]
  simp only [MsCurAct.encode, MsCurAct.decode]
  rw [← hwa, ← hwb]
  simp +decide only [read_from_bit, write_from_bit_zero, write_from_bit_disjoint, and_shl,
    lor_and_right, shr_or, shr_and, land_land_zero, land_land_self, and_mod_elide,
    and_shl_mod_elide, shl_shr_of_le, shl_shr_of_ge, Nat.shiftLeft_zero, Nat.shiftRight_zero,
    Nat.zero_and, Nat.and_zero, Nat.zero_or, Nat.or_zero,
    Nat.reduceShiftLeft, Nat.reduceShiftRight, Nat.reduceOr, Nat.reduceSub]
  rw [hwa, hwb, hka, hkb]

/-! ## Bespoke register EncConst (encoder_registers.rs ENC_CONST) -/
theorem shl16_mod (w : Nat) : (w <<< 16) % 4294967296 = (w % 65536) <<< 16 := by
  rw [Nat.shiftLeft_eq, Nat.shiftLeft_eq,
    show (4294967296 : Nat) = 65536 * 2 ^ 16 from by norm_num]
  exact Nat.mul_mod_mul_right _ _ _

theorem u32_u16_mod (y : Nat) : i32_as_u32 (u32_as_i16 y) % 65536 = y % 65536 := by
  unfold i32_as_u32 u32_as_i16
  split <;> omega

theorem shl_and_low (y o m : Nat) (h : m < 2 ^ o) : (y <<< o) &&& m = 0 := by
  apply Nat.eq_of_testBit_eq
  intro i
  rw [Nat.testBit_and, Nat.testBit_shiftLeft, Nat.zero_testBit]
  rcases Nat.lt_or_ge i o with hio | hio
  · simp [Nat.not_le_of_lt hio]
  · have : m.testBit i = false :=
      Nat.testBit_lt_two_pow (Nat.lt_of_lt_of_le h (Nat.pow_le_pow_right (by norm_num) hio))
    simp [this]

theorem and_mask16 (n : Nat) (h : n < 65536) : n &&& 0xFFFF = n := by
  rw [show (0xFFFF : Nat) = 2 ^ 16 - 1 from by norm_num, Nat.and_pow_two_sub_one_eq_mod]
  exact Nat.mod_eq_of_lt h

theorem u32_as_i16_i32 (v : Int) (h1 : -(2 ^ 15) ≤ v) (h2 : v < 2 ^ 15) :
    u32_as_i16 (i32_as_u32 v % 65536) = v := by
  unfold u32_as_i16 i32_as_u32
  split <;> omega

theorem EncConst_encode_decode (x : Nat) :
    EncConst.encode (EncConst.decode x) = x &&& 0xFFFFFFFF := by
  simp only [EncConst.encode, EncConst.decode, read_from_bit]
  rw [and_mod_elide _ _ _ (by norm_num), acc_field0 _ _ _ (by decide)]
  unfold write_from_bit
  rw [show ((0xFFFF <<< 16) % 4294967296 : Nat) = 0xFFFF0000 from by decide,
    land_land_zero _ _ _ (by decide), Nat.xor_zero, shl16_mod, u32_u16_mod,
    Nat.mod_eq_of_lt (show (x >>> 16) &&& 0xFFFF < 65536 from
      Nat.lt_of_le_of_lt Nat.and_le_right (by norm_num)),
    extract_shl, show ((0xFFFF <<< 16) : Nat) = 0xFFFF0000 from by decide,
    ← Nat.and_or_distrib_left,
    show (0xFFFF <<< 0 ||| 0xFFFF0000 : Nat) = 0xFFFFFFFF from by decide]

theorem EncConst_decode_encode (ci : Int) (cf : Nat)
    (h1 : -(2 ^ 15) ≤ ci) (h2 : ci < 2 ^ 15) (hf : cf &&& 0xFFFF = cf) :
    EncConst.decode (EncConst.encode ⟨ci, cf⟩) = ⟨ci, cf⟩ := by
  simp only [EncConst.encode, EncConst.decode, read_from_bit]
  rw [← hf]
  rw [write_from_bit_zero _ _ _ (by decide)
      (by rw [Nat.shiftLeft_zero] ; exact and_mod_elide _ _ _ (by norm_num)),
    Nat.shiftLeft_zero]
  unfold write_from_bit
  rw [show ((0xFFFF <<< 16) % 4294967296 : Nat) = 0xFFFF0000 from by decide,
    land_land_zero _ _ _ (by decide), Nat.xor_zero, shl16_mod]
  have mod_and_mask16 : ∀ n : Nat, (n % 65536) &&& 0xFFFF = n % 65536 := fun n =>
    and_mask16 _ (Nat.mod_lt _ (by norm_num))
  simp +decide only [shr_or, shr_and, lor_and_right, land_land_self, land_land_zero,
    shl_and_low, shl_shr_of_le, mod_and_mask16, and_mod_elide, Nat.shiftRight_zero,
    Nat.shiftLeft_zero, Nat.zero_and, Nat.and_zero, Nat.zero_or, Nat.or_zero,
    Nat.reduceShiftRight, Nat.reduceSub, Nat.reducePow, Nat.reduceLT]
  rw [u32_as_i16_i32 ci h1 h2, hf]

theorem sgt_codec_id : ∀ r : Nat, r < 128 →
    CoolConf.encode_sgt (CoolConf.decode_sgt r) = r := by decide

theorem sgt_codec_inv : ∀ k : Nat, k < 128 →
    CoolConf.decode_sgt (CoolConf.encode_sgt ((k : Int) - 64)) = (k : Int) - 64 := by decide

theorem sgt_encode_lt : ∀ k : Nat, k < 128 →
    CoolConf.encode_sgt ((k : Int) - 64) < 128 := by decide

theorem CoolConf_encode_decode (x : Nat) :
    CoolConf.encode (CoolConf.decode x) = x &&& 0x17FEF6F := by
  have key : ∀ y : Nat,
      CoolConf.encode_sgt (CoolConf.decode_sgt (y &&& 0x7F)) = y &&& 0x7F := fun y =>
    sgt_codec_id _ (Nat.lt_of_le_of_lt Nat.and_le_right (by norm_num))
  simp only [CoolConf.encode, CoolConf.decode]
  simp +decide only [read_from_bit, key, and_mod_elide, acc_bool0, acc_bool, acc_field0,
    acc_field, Nat.reduceShiftLeft, Nat.reduceOr, Nat.reduceMod, Nat.reduceLT,
    Nat.reduceLeDiff]

theorem CoolConf_decode_encode (semin seup semax sedn : Nat) (seimin : Bool) (sgt : Int)
    (sfilt : Bool) (h1 : semin &&& 0x0F = semin) (h2 : seup &&& 0x03 = seup)
    (h3 : semax &&& 0x0F = semax) (h4 : sedn &&& 0x03 = sedn)
    (h5 : -64 ≤ sgt) (h6 : sgt ≤ 63) :
    CoolConf.decode (CoolConf.encode ⟨semin, seup, semax, sedn, seimin, sgt, sfilt⟩)
      = ⟨semin, seup, semax, sedn, seimin, sgt, sfilt⟩ := by
  have hk : sgt = ((sgt + 64).toNat : Int) - 64 := by omega
  have hklt : (sgt + 64).toNat < 128 := by omega
  have hwlt : CoolConf.encode_sgt sgt < 128 := by
    rw [hk]
    exact sgt_encode_lt _ hklt
  have hw : CoolConf.encode_sgt sgt &&& 0x7F = CoolConf.encode_sgt sgt := by
    rw [show (0x7F : Nat) = 2 ^ 7 - 1 from by norm_num, Nat.and_pow_two_sub_one_eq_mod]
    exact Nat.mod_eq_of_lt (by omega)
  have hdec : CoolConf.decode_sgt (CoolConf.encode_sgt sgt &&& 0x7F) = sgt := by
    rw [hw]
    calc CoolConf.decode_sgt (CoolConf.encode_sgt sgt)
        = CoolConf.decode_sgt (CoolConf.encode_sgt (((sgt + 64).toNat : Int) - 64)) := by
          rw [← hk]
    _ = sgt := by rw [sgt_codec_inv _ hklt, ← hk]
  simp only [CoolConf.encode, CoolConf.decode]
  rw [← h1, ← h2, ← h3, ← h4, ← hw]
  simp +decide only [read_from_bit, read_bool_from_bit, write_from_bit_zero,
    write_from_bit_disjoint, write_bool_to_bit_zero, write_bool_to_bit_disjoint, and_shl,
    lor_and_right, shr_or, shr_and, land_land_zero, land_land_self, cond_shl_and,
    cond_piece_mask, cond_shr, cond_shl_bne, cond_and, cond_mask, cond_bne, and_mod_elide,
    and_shl_mod_elide, cond_shl_mod_elide, shl_shr_of_le, shl_shr_of_ge, Nat.shiftLeft_zero,
    Nat.shiftRight_zero, Nat.zero_and, Nat.and_zero, Nat.zero_or, Nat.or_zero,
    Nat.reduceShiftLeft, Nat.reduceShiftRight, Nat.reduceOr, Nat.reduceMod,
    Nat.reduceLT, Nat.reduceLeDiff, Nat.reduceSub, hdec]

/-! ## Claim theorems -/
set_option maxHeartbeats 2000000 in
set_option maxRecDepth 8000 in
/-- C10: converting any byte to the status structure reads exactly bits 0-6
into the seven flags (reset_flag, driver_error1, driver_error2,
velocity_reached1, velocity_reached2, status_stop_l1, status_stop_l2 in that
bit order), converting back yields the byte masked to its low 7 bits, and
bit 7 of the incoming byte is always discarded. -/
theorem c10_status_byte_codec : ∀ b : Nat, b < 256 →
    SpiStatus.toByte (SpiStatus.fromByte b) = b &&& 0x7F ∧
    (SpiStatus.fromByte b).reset_flag = b.testBit 0 ∧
    (SpiStatus.fromByte b).driver_error1 = b.testBit 1 ∧
    (SpiStatus.fromByte b).driver_error2 = b.testBit 2 ∧
    (SpiStatus.fromByte b).velocity_reached1 = b.testBit 3 ∧
    (SpiStatus.fromByte b).velocity_reached2 = b.testBit 4 ∧
    (SpiStatus.fromByte b).status_stop_l1 = b.testBit 5 ∧
    (SpiStatus.fromByte b).status_stop_l2 = b.testBit 6 ∧
    SpiStatus.fromByte b = SpiStatus.fromByte (b &&& 0x7F) := by decide

/-- Witness for C10 at the concrete byte 0xAB (bit 7 set, so it is
discarded: the round-trip yields 0x2B). -/
theorem c10_status_byte_codec_witness :
    (0xAB : Nat) < 256 ∧
    (SpiStatus.toByte (SpiStatus.fromByte 0xAB) = 0xAB &&& 0x7F ∧
      (SpiStatus.fromByte 0xAB).reset_flag = (0xAB : Nat).testBit 0 ∧
      (SpiStatus.fromByte 0xAB).driver_error1 = (0xAB : Nat).testBit 1 ∧
      (SpiStatus.fromByte 0xAB).driver_error2 = (0xAB : Nat).testBit 2 ∧
      (SpiStatus.fromByte 0xAB).velocity_reached1 = (0xAB : Nat).testBit 3 ∧
      (SpiStatus.fromByte 0xAB).velocity_reached2 = (0xAB : Nat).testBit 4 ∧
      (SpiStatus.fromByte 0xAB).status_stop_l1 = (0xAB : Nat).testBit 5 ∧
      (SpiStatus.fromByte 0xAB).status_stop_l2 = (0xAB : Nat).testBit 6 ∧
      SpiStatus.fromByte 0xAB = SpiStatus.fromByte (0xAB &&& 0x7F)) :=
  ⟨by decide, c10_status_byte_codec 0xAB (by decide)⟩

set_option maxHeartbeats 2000000 in
set_option maxRecDepth 8000 in
/-- C5: the stallGuard-threshold field sgt of CoolConf uses the
inverted-magnitude codec.  Decode takes bit 6 of the raw 7-bit field as
sign: if set, the result is the negation of (NOT (low 6 bits) + 1); if
clear, the raw low 6 bits directly.  Encode is the exact inverse (a
negative v becomes NOT (-(v+1)) masked to 6 bits with bit 6 set, a
non-negative v passes through with bit 6 clear), the two maps are mutual
inverses over the whole range -64..63 including the boundary -64, and the
struct with sgt = -64, seup = 3, semin = 5, sfilt = true and all other
fields default encodes to 0x01400065 (and decodes back from it). -/
theorem c5_coolconf_sgt_codec :
    (∀ r : Nat, r < 128 → CoolConf.encode_sgt (CoolConf.decode_sgt r) = r) ∧
    (∀ k : Nat, k < 128 →
      CoolConf.decode_sgt (CoolConf.encode_sgt ((k : Int) - 64)) = (k : Int) - 64) ∧
    (∀ r : Nat, r < 128 →
      ((r >>> 6) &&& 1 = 1 →
        CoolConf.decode_sgt r = -((((r &&& 0x3F) ^^^ 0x3F : Nat) : Int) + 1)) ∧
      ((r >>> 6) &&& 1 = 0 → CoolConf.decode_sgt r = ((r &&& 0x3F : Nat) : Int))) ∧
    (∀ k : Nat, k < 64 →
      CoolConf.encode_sgt (-((k : Int) + 1)) = ((k ^^^ 0x3F) ||| 0x40) ∧
      CoolConf.encode_sgt (k : Int) = k) ∧
    CoolConf.encode
        { semin := 5, seup := 3, semax := 0, sedn := 0, seimin := false,
          sgt := -64, sfilt := true } = 0x01400065 ∧
    CoolConf.decode 0x01400065
      = { semin := 5, seup := 3, semax := 0, sedn := 0, seimin := false,
          sgt := -64, sfilt := true } :=
  ⟨sgt_codec_id, sgt_codec_inv, by decide, by decide, by decide, by decide⟩

set_option maxRecDepth 8000 in
/-- Witness for C5: the quantified conjuncts applied at concrete raw value
0x40 (which decodes to the boundary -64) and at k = 0. -/
theorem c5_coolconf_sgt_codec_witness :
    (0x40 : Nat) < 128 ∧
    CoolConf.encode_sgt (CoolConf.decode_sgt 0x40) = 0x40 ∧
    CoolConf.decode_sgt (CoolConf.encode_sgt ((0 : Nat) - 64 : Int)) = ((0 : Nat) : Int) - 64 :=
  ⟨by decide, (c5_coolconf_sgt_codec.1 0x40 (by decide)),
    by
      have h := c5_coolconf_sgt_codec.2.1 0 (by decide)
      simpa using h⟩

set_option maxRecDepth 8000 in
/-- C7: every register type's default value equals decode 0, except the
microstep-table-start register MsLutStart, whose default is the explicit
non-zero value with start_sin = 0 and start_sin90 = 247; that default is not
equal to decode 0 and encodes to 0x0000F700. -/
theorem c7_defaults_decode_zero :
    GConf.default = GConf.decode 0 ∧
    GStat.default = GStat.decode 0 ∧
    IfCnt.default = IfCnt.decode 0 ∧
    SlaveConf.default = SlaveConf.decode 0 ∧
    Input.default = Input.decode 0 ∧
    Output.default = Output.decode 0 ∧
    XCompare.default = XCompare.decode 0 ∧
    MsLut0.default = MsLut0.decode 0 ∧
    MsLut1.default = MsLut1.decode 0 ∧
    MsLut2.default = MsLut2.decode 0 ∧
    MsLut3.default = MsLut3.decode 0 ∧
    MsLut4.default = MsLut4.decode 0 ∧
    MsLut5.default = MsLut5.decode 0 ∧
    MsLut6.default = MsLut6.decode 0 ∧
    MsLut7.default = MsLut7.decode 0 ∧
    MsLutSel.default = MsLutSel.decode 0 ∧
    MsCnt.default = MsCnt.decode 0 ∧
    MsCurAct.default = MsCurAct.decode 0 ∧
    ChopConf.default = ChopConf.decode 0 ∧
    CoolConf.default = CoolConf.decode 0 ∧
    DcCtrl.default = DcCtrl.decode 0 ∧
    DrvStatus.default = DrvStatus.decode 0 ∧
    RampMode.default = RampMode.decode 0 ∧
    XActual.default = XActual.decode 0 ∧
    VActual.default = VActual.decode 0 ∧
    VStart.default = VStart.decode 0 ∧
    A1.default = A1.decode 0 ∧
    V1.default = V1.decode 0 ∧
    AMax.default = AMax.decode 0 ∧
    VMax.default = VMax.decode 0 ∧
    DMax.default = DMax.decode 0 ∧
    D1.default = D1.decode 0 ∧
    VStop.default = VStop.decode 0 ∧
    TZeroWait.default = TZeroWait.decode 0 ∧
    XTarget.default = XTarget.decode 0 ∧
    IHoldIRun.default = IHoldIRun.decode 0 ∧
    VCoolThrs.default = VCoolThrs.decode 0 ∧
    VHigh.default = VHigh.decode 0 ∧
    VDcMin.default = VDcMin.decode 0 ∧
    SwMode.default = SwMode.decode 0 ∧
    RampStat.default = RampStat.decode 0 ∧
    XLatch.default = XLatch.decode 0 ∧
    EncMode.default = EncMode.decode 0 ∧
    XEnc.default = XEnc.decode 0 ∧
    EncConst.default = EncConst.decode 0 ∧
    EncStatus.default = EncStatus.decode 0 ∧
    EncLatch.default = EncLatch.decode 0 ∧
    PwmConf.default = PwmConf.decode 0 ∧
    PwmStatus.default = PwmStatus.decode 0 ∧
    MsLutStart.default = { start_sin := 0, start_sin90 := 247 } ∧
    MsLutStart.default ≠ MsLutStart.decode 0 ∧
    MsLutStart.encode MsLutStart.default = 0x0000F700 ∧
    SpiStatus.default = SpiStatus.fromByte 0 :=
  ⟨rfl, rfl, rfl, rfl, rfl, rfl, rfl, rfl, rfl, rfl, rfl, rfl, rfl, rfl, rfl, rfl, rfl, rfl, rfl, rfl, rfl, rfl, rfl, rfl, rfl, rfl, rfl, rfl, rfl, rfl, rfl, rfl, rfl, rfl, rfl, rfl, rfl, rfl, rfl, rfl, rfl, rfl, rfl, rfl, rfl, rfl, rfl, rfl, rfl, rfl, by decide, by decide, rfl⟩

/-- C4: for every bit width W with 1 ≤ W ≤ 31, convert_to_signed_n maps
2^(W-1) to -2^(W-1) (most negative), 2^(W-1)-1 to itself (most positive)
and 2^W - 1 to -1; convert_from_signed_n masks its argument (as a 32-bit
pattern) to the low W bits and inverts convert_to_signed_n on in-range
values; at W = 1, input value 1 yields -1. -/
theorem c4_signed_conversion_boundaries :
    (∀ W : Nat, 1 ≤ W → W ≤ 31 →
      convert_to_signed_n (2 ^ (W - 1)) W = -((2 ^ (W - 1) : Nat) : Int) ∧
      convert_to_signed_n (2 ^ (W - 1) - 1) W = ((2 ^ (W - 1) - 1 : Nat) : Int) ∧
      convert_to_signed_n (2 ^ W - 1) W = -1 ∧
      (∀ v : Int, convert_from_signed_n v W = i32_as_u32 v % 2 ^ W) ∧
      (∀ v : Int, -((2 ^ (W - 1) : Nat) : Int) ≤ v → v < ((2 ^ (W - 1) : Nat) : Int) →
        convert_to_signed_n (convert_from_signed_n v W) W = v)) ∧
    convert_to_signed_n 1 1 = -1 := by
  constructor
  · intro W h1 h31
    have hpos : (1:Nat) ≤ 2 ^ (W - 1) := Nat.one_le_two_pow
    have hsplit : (2:Nat) ^ W = 2 ^ (W - 1) + 2 ^ (W - 1) := by
      rw [← two_mul, ← pow_succ']
      congr 1
      omega
    have hcb : ((2 ^ W : Nat) : Int) = 2 ^ W := by push_cast ; ring
    have hcb1 : ((2 ^ (W - 1) : Nat) : Int) = 2 ^ (W - 1) := by push_cast ; ring
    have hisplit : (2:Int) ^ W = 2 ^ (W - 1) + 2 ^ (W - 1) := by
      rw [← hcb, hsplit]
      push_cast
      ring
    refine ⟨?_, ?_, ?_, ?_, ?_⟩
    · rw [to_signed_hi (2 ^ (W - 1)) W h1 h31 (Nat.le_refl _) (by omega)]
      omega
    · exact to_signed_lo _ W h1 h31 (by omega)
    · rw [to_signed_hi (2 ^ W - 1) W h1 h31 (by omega) (by omega)]
      have : ((2 ^ W - 1 : Nat) : Int) = ((2 ^ W : Nat) : Int) - 1 := by
        push_cast [Nat.cast_sub (Nat.one_le_two_pow)]
        ring
      rw [this, hcb]
      ring
    · intro v
      unfold convert_from_signed_n
      rw [show (1:Nat) <<< W - 1 = 2 ^ W - 1 from by rw [Nat.shiftLeft_eq, one_mul],
        Nat.and_pow_two_sub_one_eq_mod]
    · intro v hlo hhi
      have hcb1 : ((2 ^ (W - 1) : Nat) : Int) = 2 ^ (W - 1) := by push_cast ; ring
      exact to_from_signed v W h1 h31 (by omega) (by omega)
  · decide

/-- Witness for C4 at W = 8: 0x80 decodes to -128, 0x7F to 127, 0xFF to -1,
and -5 round-trips through the 8-bit conversion. -/
theorem c4_signed_conversion_boundaries_witness :
    (1 ≤ 8 ∧ (8:Nat) ≤ 31) ∧
    convert_to_signed_n (2 ^ (8 - 1)) 8 = -((2 ^ (8 - 1) : Nat) : Int) ∧
    convert_to_signed_n (2 ^ (8 - 1) - 1) 8 = ((2 ^ (8 - 1) - 1 : Nat) : Int) ∧
    convert_to_signed_n (2 ^ 8 - 1) 8 = -1 ∧
    (-((2 ^ (8 - 1) : Nat) : Int) ≤ -5 ∧ (-5 : Int) < ((2 ^ (8 - 1) : Nat) : Int)) ∧
    convert_to_signed_n (convert_from_signed_n (-5) 8) 8 = -5 := by
  have h := (c4_signed_conversion_boundaries.1 8 (by norm_num) (by norm_num))
  exact ⟨⟨by norm_num, by norm_num⟩, h.1, h.2.1, h.2.2.1,
    ⟨by norm_num, by norm_num⟩, h.2.2.2.2 (-5) (by norm_num) (by norm_num)⟩

theorem submask_shl_testBit (value mask off : Nat) (hvm : value &&& mask = value) (i : Nat)
    (hi : (mask <<< off).testBit i = false) : (value <<< off).testBit i = false := by
  have h := congrArg (fun t => (t <<< off).testBit i) hvm
  simp only [and_shl, Nat.testBit_and] at h
  rw [← h, hi, Bool.and_false]

theorem write_from_bit_testBit (data off mask value : Nat)
    (hfit : mask <<< off < 4294967296) (hvm : value &&& mask = value) (i : Nat) :
    (write_from_bit data off mask value).testBit i
      = if (mask <<< off).testBit i then (value <<< off).testBit i else data.testBit i := by
  have hvfit : (value <<< off) % 4294967296 = value <<< off := by
    rw [← hvm, and_shl_mod_elide _ _ _ _ hfit, hvm]
  unfold write_from_bit
  rw [Nat.mod_eq_of_lt hfit, hvfit, Nat.testBit_or, Nat.testBit_xor, Nat.testBit_and]
  cases hsp : (mask <<< off).testBit i with
  | false =>
    rw [if_neg (by simp), submask_shl_testBit value mask off hvm i hsp]
    cases data.testBit i <;> rfl
  | true =>
    rw [if_pos rfl]
    cases data.testBit i <;> rfl

/-- C6: for every destination word, offset, mask, and field value contained
in the mask, write_from_bit leaves every bit of data outside the span
(mask shifted by offset) unchanged and sets the bits inside that span to
those of (value shifted by offset); consequently, for disjoint spans,
writing a second field after a first leaves the first field's span equal to
what writing the first alone produces.  The span is assumed to fit in the
32-bit word, as every span of the register catalogue does. -/
theorem c6_write_from_bit_frame (data off mask value : Nat)
    (hfit : mask <<< off < 4294967296) (hvm : value &&& mask = value) :
    (∀ i, (mask <<< off).testBit i = false →
      (write_from_bit data off mask value).testBit i = data.testBit i) ∧
    (∀ i, (mask <<< off).testBit i = true →
      (write_from_bit data off mask value).testBit i = (value <<< off).testBit i) ∧
    (∀ off2 mask2 value2, mask2 <<< off2 < 4294967296 → value2 &&& mask2 = value2 →
      (mask <<< off) &&& (mask2 <<< off2) = 0 →
      ∀ i, (mask <<< off).testBit i = true →
        (write_from_bit (write_from_bit data off mask value) off2 mask2 value2).testBit i
          = (write_from_bit data off mask value).testBit i) := by
  refine ⟨?_, ?_, ?_⟩
  · intro i hi
    rw [write_from_bit_testBit data off mask value hfit hvm i, if_neg (by simp [hi])]
  · intro i hi
    rw [write_from_bit_testBit data off mask value hfit hvm i, if_pos hi]
  · intro off2 mask2 value2 hfit2 hvm2 hdisj i hi
    have hsp2 : (mask2 <<< off2).testBit i = false := by
      have h := congrArg (fun t => t.testBit i) hdisj
      simp only [Nat.testBit_and, Nat.zero_testBit, hi, Bool.true_and] at h
      exact h
    rw [write_from_bit_testBit _ off2 mask2 value2 hfit2 hvm2 i, if_neg (by simp [hsp2])]

/-- Witness for C6 at the vector of the repository's own write test:
data 0xffffffff, offset 8, mask 0xff, value 0x8f; the neighbouring field at
offset 16 with mask 0xff00 and value 0x5500 has a disjoint span. -/
theorem c6_write_from_bit_frame_witness :
    ((0xFF : Nat) <<< 8 < 4294967296 ∧ (0x8F : Nat) &&& 0xFF = 0x8F) ∧
    ((∀ i, ((0xFF : Nat) <<< 8).testBit i = false →
      (write_from_bit 0xFFFFFFFF 8 0xFF 0x8F).testBit i = (0xFFFFFFFF : Nat).testBit i) ∧
    (∀ i, ((0xFF : Nat) <<< 8).testBit i = true →
      (write_from_bit 0xFFFFFFFF 8 0xFF 0x8F).testBit i = ((0x8F : Nat) <<< 8).testBit i) ∧
    (∀ off2 mask2 value2, mask2 <<< off2 < 4294967296 → value2 &&& mask2 = value2 →
      ((0xFF : Nat) <<< 8) &&& (mask2 <<< off2) = 0 →
      ∀ i, ((0xFF : Nat) <<< 8).testBit i = true →
        (write_from_bit (write_from_bit 0xFFFFFFFF 8 0xFF 0x8F) off2 mask2 value2).testBit i
          = (write_from_bit 0xFFFFFFFF 8 0xFF 0x8F).testBit i)) ∧
    write_from_bit 0xFFFFFFFF 8 0xFF 0x8F = 0xFFFF8FFF :=
  ⟨⟨by decide, by decide⟩,
    c6_write_from_bit_frame 0xFFFFFFFF 8 0xFF 0x8F (by decide) (by decide),
    by decide⟩

/-- C8 counterexample: the claim states that XLatch decodes by reinterpreting
the raw 32-bit wire value as a signed 32-bit integer; at wire word
0xFFFFFFFF the signed reinterpretation is -1, but XLatch.decode keeps the
unsigned value 0xFFFFFFFF (the Rust field is u32), so the claim is false
for x_latch. -/
theorem c8_xlatch_not_signed_counterexample :
    ¬ (((XLatch.decode 0xFFFFFFFF).x_latch : Int) = u32_as_i32 0xFFFFFFFF) := by
  decide

/-- C8 (amended): the full-width position registers x_actual, x_target and
x_enc decode by reinterpreting the raw 32-bit unsigned wire value directly
as a signed 32-bit integer (native word sign, not the masked sign-extension
helper) and encode by the inverse cast; x_latch, by contrast, is kept as an
unsigned 32-bit value, decoded and encoded by the identity on 32-bit
words. -/
theorem c8_fullwidth_position_registers :
    (∀ x : Nat, x < 2 ^ 32 →
      (XActual.decode x).x_actual = u32_as_i32 x ∧
      (XTarget.decode x).x_target = u32_as_i32 x ∧
      (XEnc.decode x).x_enc = u32_as_i32 x ∧
      (XLatch.decode x).x_latch = x) ∧
    (∀ v : Int, -(2 ^ 31) ≤ v → v < 2 ^ 31 →
      XActual.encode ⟨v⟩ = i32_as_u32 v ∧
      XTarget.encode ⟨v⟩ = i32_as_u32 v ∧
      XEnc.encode ⟨v⟩ = i32_as_u32 v) ∧
    (∀ w : Nat, w < 2 ^ 32 → XLatch.encode ⟨w⟩ = w) := by
  have henc : ∀ v : Int, -(2 ^ 31) ≤ v → v < 2 ^ 31 →
      write_from_bit 0 0 0xFFFFFFFF (i32_as_u32 v) = i32_as_u32 v := by
    intro v hlo hhi
    rw [write_from_bit_zero _ _ _ (by decide)
        (by rw [Nat.shiftLeft_zero] ; exact Nat.mod_eq_of_lt (by
          have := i32_as_u32_lt v ; norm_num at this ⊢ ; omega)),
      Nat.shiftLeft_zero]
  refine ⟨?_, ?_, ?_⟩
  · intro x hx
    have hm : x &&& 0xFFFFFFFF = x := and_mask32 x hx
    refine ⟨?_, ?_, ?_, ?_⟩ <;>
      simp only [XActual.decode, XTarget.decode, XEnc.decode, XLatch.decode, read_from_bit,
        Nat.shiftRight_zero, hm]
  · intro v hlo hhi
    exact ⟨henc v hlo hhi, henc v hlo hhi, henc v hlo hhi⟩
  · intro w hw
    show write_from_bit 0 0 0xFFFFFFFF w = w
    rw [write_from_bit_zero _ _ _ (by decide)
        (by rw [Nat.shiftLeft_zero] ; exact Nat.mod_eq_of_lt (by norm_num at hw ⊢ ; omega)),
      Nat.shiftLeft_zero]

/-- Witness for C8 (amended) at wire word 0xFFFFF99A (signed value -0x666)
and value -0x666 for the encode direction. -/
theorem c8_fullwidth_position_registers_witness :
    ((0xFFFFF99A : Nat) < 2 ^ 32 ∧
      (XActual.decode 0xFFFFF99A).x_actual = u32_as_i32 0xFFFFF99A ∧
      (XTarget.decode 0xFFFFF99A).x_target = u32_as_i32 0xFFFFF99A ∧
      (XEnc.decode 0xFFFFF99A).x_enc = u32_as_i32 0xFFFFF99A ∧
      (XLatch.decode 0xFFFFF99A).x_latch = 0xFFFFF99A) ∧
    (-(2 ^ 31) ≤ (-0x666 : Int) ∧ (-0x666 : Int) < 2 ^ 31 ∧
      XEnc.encode ⟨-0x666⟩ = i32_as_u32 (-0x666)) ∧
    XLatch.encode ⟨0x666⟩ = 0x666 :=
  ⟨⟨by norm_num, (c8_fullwidth_position_registers.1 0xFFFFF99A (by norm_num))⟩,
    ⟨by norm_num, by norm_num,
      (c8_fullwidth_position_registers.2.1 (-0x666) (by norm_num) (by norm_num)).2.2⟩,
    c8_fullwidth_position_registers.2.2 0x666 (by norm_num)⟩

set_option maxRecDepth 8000 in
/-- C3: for every register type of the catalogue and every field-value
combination within the declared field ranges, decode (encode value) = value;
and for every 32-bit wire word x, encode (decode x) reproduces exactly the
bits covered by the declared fields (the word masked by the register's
covered-bits mask): bits not covered are dropped on decode and zero-filled
on encode.  Concretely, encoding the global-config register with
poscmp_enable true and all other fields default yields 0x00000008, and
decoding 0x00000008 yields that same struct. -/
theorem c3_register_roundtrips :
    (∀ x : Nat, GConf.encode (GConf.decode x) = x &&& 0xFFF) ∧
    (∀ (single_diver stepdir1_enable stepdir2_enable poscmp_enable enc1_refsel enc2_enable enc2_refsel test_mode shaft1 shaft2 lock_gconf dc_sync : Bool), GConf.decode (GConf.encode ⟨single_diver, stepdir1_enable, stepdir2_enable, poscmp_enable, enc1_refsel, enc2_enable, enc2_refsel, test_mode, shaft1, shaft2, lock_gconf, dc_sync⟩) = ⟨single_diver, stepdir1_enable, stepdir2_enable, poscmp_enable, enc1_refsel, enc2_enable, enc2_refsel, test_mode, shaft1, shaft2, lock_gconf, dc_sync⟩) ∧
    (∀ x : Nat, GStat.encode (GStat.decode x) = x &&& 0xF) ∧
    (∀ (reset drv_err1 drv_err2 uv_cp : Bool), GStat.decode (GStat.encode ⟨reset, drv_err1, drv_err2, uv_cp⟩) = ⟨reset, drv_err1, drv_err2, uv_cp⟩) ∧
    (∀ x : Nat, IfCnt.encode (IfCnt.decode x) = x &&& 0xFF) ∧
    (∀ (if_cnt : Nat), if_cnt &&& 0xFF = if_cnt → IfCnt.decode (IfCnt.encode ⟨if_cnt⟩) = ⟨if_cnt⟩) ∧
    (∀ x : Nat, SlaveConf.encode (SlaveConf.decode x) = x &&& 0xFFF) ∧
    (∀ (slave_addr send_delay : Nat), slave_addr &&& 0xFF = slave_addr → send_delay &&& 0xF = send_delay → SlaveConf.decode (SlaveConf.encode ⟨slave_addr, send_delay⟩) = ⟨slave_addr, send_delay⟩) ∧
    (∀ x : Nat, Input.encode (Input.decode x) = x &&& 0xFF0001FF) ∧
    (∀ (version : Nat) (io0 io1 io2 io3 iop ion next_addr drv_enn sw_comp : Bool), version &&& 0xFF = version → Input.decode (Input.encode ⟨io0, io1, io2, io3, iop, ion, next_addr, drv_enn, sw_comp, version⟩) = ⟨io0, io1, io2, io3, iop, ion, next_addr, drv_enn, sw_comp, version⟩) ∧
    (∀ x : Nat, Output.encode (Output.decode x) = x &&& 0x707) ∧
    (∀ (io0 io1 io2 io_ddr0 io_ddr1 io_ddr2 : Bool), Output.decode (Output.encode ⟨io0, io1, io2, io_ddr0, io_ddr1, io_ddr2⟩) = ⟨io0, io1, io2, io_ddr0, io_ddr1, io_ddr2⟩) ∧
    (∀ x : Nat, XCompare.encode (XCompare.decode x) = x &&& 0xFFFFFFFF) ∧
    (∀ (x_compare : Nat), x_compare &&& 0xFFFFFFFF = x_compare → XCompare.decode (XCompare.encode ⟨x_compare⟩) = ⟨x_compare⟩) ∧
    (∀ x : Nat, MsLut0.encode (MsLut0.decode x) = x &&& 0xFFFFFFFF) ∧
    (∀ (ms_lut0 : Nat), ms_lut0 &&& 0xFFFFFFFF = ms_lut0 → MsLut0.decode (MsLut0.encode ⟨ms_lut0⟩) = ⟨ms_lut0⟩) ∧
    (∀ x : Nat, MsLut1.encode (MsLut1.decode x) = x &&& 0xFFFFFFFF) ∧
    (∀ (ms_lut1 : Nat), ms_lut1 &&& 0xFFFFFFFF = ms_lut1 → MsLut1.decode (MsLut1.encode ⟨ms_lut1⟩) = ⟨ms_lut1⟩) ∧
    (∀ x : Nat, MsLut2.encode (MsLut2.decode x) = x &&& 0xFFFFFFFF) ∧
    (∀ (ms_lut2 : Nat), ms_lut2 &&& 0xFFFFFFFF = ms_lut2 → MsLut2.decode (MsLut2.encode ⟨ms_lut2⟩) = ⟨ms_lut2⟩) ∧
    (∀ x : Nat, MsLut3.encode (MsLut3.decode x) = x &&& 0xFFFFFFFF) ∧
    (∀ (ms_lut3 : Nat), ms_lut3 &&& 0xFFFFFFFF = ms_lut3 → MsLut3.decode (MsLut3.encode ⟨ms_lut3⟩) = ⟨ms_lut3⟩) ∧
    (∀ x : Nat, MsLut4.encode (MsLut4.decode x) = x &&& 0xFFFFFFFF) ∧
    (∀ (ms_lut4 : Nat), ms_lut4 &&& 0xFFFFFFFF = ms_lut4 → MsLut4.decode (MsLut4.encode ⟨ms_lut4⟩) = ⟨ms_lut4⟩) ∧
    (∀ x : Nat, MsLut5.encode (MsLut5.decode x) = x &&& 0xFFFFFFFF) ∧
    (∀ (ms_lut5 : Nat), ms_lut5 &&& 0xFFFFFFFF = ms_lut5 → MsLut5.decode (MsLut5.encode ⟨ms_lut5⟩) = ⟨ms_lut5⟩) ∧
    (∀ x : Nat, MsLut6.encode (MsLut6.decode x) = x &&& 0xFFFFFFFF) ∧
    (∀ (ms_lut6 : Nat), ms_lut6 &&& 0xFFFFFFFF = ms_lut6 → MsLut6.decode (MsLut6.encode ⟨ms_lut6⟩) = ⟨ms_lut6⟩) ∧
    (∀ x : Nat, MsLut7.encode (MsLut7.decode x) = x &&& 0xFFFFFFFF) ∧
    (∀ (ms_lut7 : Nat), ms_lut7 &&& 0xFFFFFFFF = ms_lut7 → MsLut7.decode (MsLut7.encode ⟨ms_lut7⟩) = ⟨ms_lut7⟩) ∧
    (∀ x : Nat, MsLutSel.encode (MsLutSel.decode x) = x &&& 0xFFFFFFFF) ∧
    (∀ (w0 w1 w2 w3 x1 x2 x3 : Nat), w0 &&& 0x3 = w0 → w1 &&& 0x3 = w1 → w2 &&& 0x3 = w2 → w3 &&& 0x3 = w3 → x1 &&& 0xFF = x1 → x2 &&& 0xFF = x2 → x3 &&& 0xFF = x3 → MsLutSel.decode (MsLutSel.encode ⟨w0, w1, w2, w3, x1, x2, x3⟩) = ⟨w0, w1, w2, w3, x1, x2, x3⟩) ∧
    (∀ x : Nat, MsLutStart.encode (MsLutStart.decode x) = x &&& 0xFFFF) ∧
    (∀ (start_sin start_sin90 : Nat), start_sin &&& 0xFF = start_sin → start_sin90 &&& 0xFF = start_sin90 → MsLutStart.decode (MsLutStart.encode ⟨start_sin, start_sin90⟩) = ⟨start_sin, start_sin90⟩) ∧
    (∀ x : Nat, MsCnt.encode (MsCnt.decode x) = x &&& 0x3FF) ∧
    (∀ (ms_cnt : Nat), ms_cnt &&& 0x3FF = ms_cnt → MsCnt.decode (MsCnt.encode ⟨ms_cnt⟩) = ⟨ms_cnt⟩) ∧
    (∀ x : Nat, ChopConf.encode (ChopConf.decode x) = x &&& 0x7F0FFFFF) ∧
    (∀ (toff hstrt hend tbl mres : Nat) (fd3 disfdcc rndtf chm vsense vhighfs vhighchm intpol16 dedge diss2g : Bool), toff &&& 0xF = toff → hstrt &&& 0x7 = hstrt → hend &&& 0xF = hend → tbl &&& 0x3 = tbl → mres &&& 0xF = mres → ChopConf.decode (ChopConf.encode ⟨toff, hstrt, hend, fd3, disfdcc, rndtf, chm, tbl, vsense, vhighfs, vhighchm, mres, intpol16, dedge, diss2g⟩) = ⟨toff, hstrt, hend, fd3, disfdcc, rndtf, chm, tbl, vsense, vhighfs, vhighchm, mres, intpol16, dedge, diss2g⟩) ∧
    (∀ x : Nat, DcCtrl.encode (DcCtrl.decode x) = x &&& 0xFFFF) ∧
    (∀ (dc_time dc_sg : Nat), dc_time &&& 0xFF = dc_time → dc_sg &&& 0xFF = dc_sg → DcCtrl.decode (DcCtrl.encode ⟨dc_time, dc_sg⟩) = ⟨dc_time, dc_sg⟩) ∧
    (∀ x : Nat, DrvStatus.encode (DrvStatus.decode x) = x &&& 0xFF1F83FF) ∧
    (∀ (sg_result cs_actual : Nat) (fsactive stall_guard ot otpw s2ga s2gb ola olb stst : Bool), sg_result &&& 0x3FF = sg_result → cs_actual &&& 0x1F = cs_actual → DrvStatus.decode (DrvStatus.encode ⟨sg_result, fsactive, cs_actual, stall_guard, ot, otpw, s2ga, s2gb, ola, olb, stst⟩) = ⟨sg_result, fsactive, cs_actual, stall_guard, ot, otpw, s2ga, s2gb, ola, olb, stst⟩) ∧
    (∀ x : Nat, RampMode.encode (RampMode.decode x) = x &&& 0x3) ∧
    (∀ (ramp_mode : Nat), ramp_mode &&& 0x3 = ramp_mode → RampMode.decode (RampMode.encode ⟨ramp_mode⟩) = ⟨ramp_mode⟩) ∧
    (∀ x : Nat, VStart.encode (VStart.decode x) = x &&& 0x3FFFF) ∧
    (∀ (v_start : Nat), v_start &&& 0x3FFFF = v_start → VStart.decode (VStart.encode ⟨v_start⟩) = ⟨v_start⟩) ∧
    (∀ x : Nat, A1.encode (A1.decode x) = x &&& 0xFFFF) ∧
    (∀ (a1 : Nat), a1 &&& 0xFFFF = a1 → A1.decode (A1.encode ⟨a1⟩) = ⟨a1⟩) ∧
    (∀ x : Nat, V1.encode (V1.decode x) = x &&& 0xFFFFF) ∧
    (∀ (v1 : Nat), v1 &&& 0xFFFFF = v1 → V1.decode (V1.encode ⟨v1⟩) = ⟨v1⟩) ∧
    (∀ x : Nat, AMax.encode (AMax.decode x) = x &&& 0xFFFF) ∧
    (∀ (a_max : Nat), a_max &&& 0xFFFF = a_max → AMax.decode (AMax.encode ⟨a_max⟩) = ⟨a_max⟩) ∧
    (∀ x : Nat, VMax.encode (VMax.decode x) = x &&& 0x7FFFFF) ∧
    (∀ (v_max : Nat), v_max &&& 0x7FFFFF = v_max → VMax.decode (VMax.encode ⟨v_max⟩) = ⟨v_max⟩) ∧
    (∀ x : Nat, DMax.encode (DMax.decode x) = x &&& 0xFFFF) ∧
    (∀ (d_max : Nat), d_max &&& 0xFFFF = d_max → DMax.decode (DMax.encode ⟨d_max⟩) = ⟨d_max⟩) ∧
    (∀ x : Nat, D1.encode (D1.decode x) = x &&& 0xFFFF) ∧
    (∀ (d1 : Nat), d1 &&& 0xFFFF = d1 → D1.decode (D1.encode ⟨d1⟩) = ⟨d1⟩) ∧
    (∀ x : Nat, VStop.encode (VStop.decode x) = x &&& 0x3FFFF) ∧
    (∀ (v_stop : Nat), v_stop &&& 0x3FFFF = v_stop → VStop.decode (VStop.encode ⟨v_stop⟩) = ⟨v_stop⟩) ∧
    (∀ x : Nat, TZeroWait.encode (TZeroWait.decode x) = x &&& 0xFFFF) ∧
    (∀ (t_zero_wait : Nat), t_zero_wait &&& 0xFFFF = t_zero_wait → TZeroWait.decode (TZeroWait.encode ⟨t_zero_wait⟩) = ⟨t_zero_wait⟩) ∧
    (∀ x : Nat, IHoldIRun.encode (IHoldIRun.decode x) = x &&& 0xF1F1F) ∧
    (∀ (i_hold i_run i_hold_delay : Nat), i_hold &&& 0x1F = i_hold → i_run &&& 0x1F = i_run → i_hold_delay &&& 0xF = i_hold_delay → IHoldIRun.decode (IHoldIRun.encode ⟨i_hold, i_run, i_hold_delay⟩) = ⟨i_hold, i_run, i_hold_delay⟩) ∧
    (∀ x : Nat, VCoolThrs.encode (VCoolThrs.decode x) = x &&& 0x7FFFFF) ∧
    (∀ (v_cool_thrs : Nat), v_cool_thrs &&& 0x7FFFFF = v_cool_thrs → VCoolThrs.decode (VCoolThrs.encode ⟨v_cool_thrs⟩) = ⟨v_cool_thrs⟩) ∧
    (∀ x : Nat, VHigh.encode (VHigh.decode x) = x &&& 0x7FFFFF) ∧
    (∀ (v_high : Nat), v_high &&& 0x7FFFFF = v_high → VHigh.decode (VHigh.encode ⟨v_high⟩) = ⟨v_high⟩) ∧
    (∀ x : Nat, VDcMin.encode (VDcMin.decode x) = x &&& 0x7FFFFF) ∧
    (∀ (v_dc_min : Nat), v_dc_min &&& 0x7FFFFF = v_dc_min → VDcMin.decode (VDcMin.encode ⟨v_dc_min⟩) = ⟨v_dc_min⟩) ∧
    (∀ x : Nat, SwMode.encode (SwMode.decode x) = x &&& 0xFFF) ∧
    (∀ (stop_l_enable stop_r_enable pol_stop_l pol_stop_r swap_lr latch_l_active latch_l_inactive latch_r_active latch_r_inactive en_latch_encoder sg_stop en_softstop : Bool), SwMode.decode (SwMode.encode ⟨stop_l_enable, stop_r_enable, pol_stop_l, pol_stop_r, swap_lr, latch_l_active, latch_l_inactive, latch_r_active, latch_r_inactive, en_latch_encoder, sg_stop, en_softstop⟩) = ⟨stop_l_enable, stop_r_enable, pol_stop_l, pol_stop_r, swap_lr, latch_l_active, latch_l_inactive, latch_r_active, latch_r_inactive, en_latch_encoder, sg_stop, en_softstop⟩) ∧
    (∀ x : Nat, RampStat.encode (RampStat.decode x) = x &&& 0x3FFF) ∧
    (∀ (status_stop_l status_stop_r status_latch_l status_latch_r event_stop_l event_stop_r event_stop_sg event_pos_reached velocity_reached position_reached vzero t_zerowait_active second_move status_sg : Bool), RampStat.decode (RampStat.encode ⟨status_stop_l, status_stop_r, status_latch_l, status_latch_r, event_stop_l, event_stop_r, event_stop_sg, event_pos_reached, velocity_reached, position_reached, vzero, t_zerowait_active, second_move, status_sg⟩) = ⟨status_stop_l, status_stop_r, status_latch_l, status_latch_r, event_stop_l, event_stop_r, event_stop_sg, event_pos_reached, velocity_reached, position_reached, vzero, t_zerowait_active, second_move, status_sg⟩) ∧
    (∀ x : Nat, XLatch.encode (XLatch.decode x) = x &&& 0xFFFFFFFF) ∧
    (∀ (x_latch : Nat), x_latch &&& 0xFFFFFFFF = x_latch → XLatch.decode (XLatch.encode ⟨x_latch⟩) = ⟨x_latch⟩) ∧
    (∀ x : Nat, EncMode.encode (EncMode.decode x) = x &&& 0xFFF) ∧
    (∀ (pol_a pol_b pol_n ignore_ab clr_cont clr_once pos_edge neg_edge clr_enc_x latch_x_act enc_sel_decimal latch_now : Bool), EncMode.decode (EncMode.encode ⟨pol_a, pol_b, pol_n, ignore_ab, clr_cont, clr_once, pos_edge, neg_edge, clr_enc_x, latch_x_act, enc_sel_decimal, latch_now⟩) = ⟨pol_a, pol_b, pol_n, ignore_ab, clr_cont, clr_once, pos_edge, neg_edge, clr_enc_x, latch_x_act, enc_sel_decimal, latch_now⟩) ∧
    (∀ x : Nat, EncStatus.encode (EncStatus.decode x) = x &&& 0x1) ∧
    (∀ (enc_status : Bool), EncStatus.decode (EncStatus.encode ⟨enc_status⟩) = ⟨enc_status⟩) ∧
    (∀ x : Nat, PwmConf.encode (PwmConf.decode x) = x &&& 0x37FFFF) ∧
    (∀ (pwm_ampl pwm_grad pwm_freq freewheel : Nat) (pwm_autoscale : Bool), pwm_ampl &&& 0xFF = pwm_ampl → pwm_grad &&& 0xFF = pwm_grad → pwm_freq &&& 0x3 = pwm_freq → freewheel &&& 0x3 = freewheel → PwmConf.decode (PwmConf.encode ⟨pwm_ampl, pwm_grad, pwm_freq, pwm_autoscale, freewheel⟩) = ⟨pwm_ampl, pwm_grad, pwm_freq, pwm_autoscale, freewheel⟩) ∧
    (∀ x : Nat, PwmStatus.encode (PwmStatus.decode x) = x &&& 0xFF) ∧
    (∀ (pwm_status : Nat), pwm_status &&& 0xFF = pwm_status → PwmStatus.decode (PwmStatus.encode ⟨pwm_status⟩) = ⟨pwm_status⟩) ∧
    (∀ x : Nat, XActual.encode (XActual.decode x) = x &&& 0xFFFFFFFF) ∧
    (∀ v : Int, -(2 ^ 31) ≤ v → v < 2 ^ 31 → XActual.decode (XActual.encode ⟨v⟩) = ⟨v⟩) ∧
    (∀ x : Nat, XTarget.encode (XTarget.decode x) = x &&& 0xFFFFFFFF) ∧
    (∀ v : Int, -(2 ^ 31) ≤ v → v < 2 ^ 31 → XTarget.decode (XTarget.encode ⟨v⟩) = ⟨v⟩) ∧
    (∀ x : Nat, XEnc.encode (XEnc.decode x) = x &&& 0xFFFFFFFF) ∧
    (∀ v : Int, -(2 ^ 31) ≤ v → v < 2 ^ 31 → XEnc.decode (XEnc.encode ⟨v⟩) = ⟨v⟩) ∧
    (∀ x : Nat, EncLatch.encode (EncLatch.decode x) = x &&& 0xFFFFFFFF) ∧
    (∀ v : Int, -(2 ^ 31) ≤ v → v < 2 ^ 31 → EncLatch.decode (EncLatch.encode ⟨v⟩) = ⟨v⟩) ∧
    (∀ x : Nat, VActual.encode (VActual.decode x) = x &&& 0xFFFFFF) ∧
    (∀ v : Int, -(2 ^ 23) ≤ v → v < 2 ^ 23 → VActual.decode (VActual.encode ⟨v⟩) = ⟨v⟩) ∧
    (∀ x : Nat, MsCurAct.encode (MsCurAct.decode x) = x &&& 0x1FF01FF) ∧
    (∀ a b : Int, -(2 ^ 8) ≤ a → a < 2 ^ 8 → -(2 ^ 8) ≤ b → b < 2 ^ 8 →
      MsCurAct.decode (MsCurAct.encode ⟨a, b⟩) = ⟨a, b⟩) ∧
    (∀ x : Nat, EncConst.encode (EncConst.decode x) = x &&& 0xFFFFFFFF) ∧
    (∀ (ci : Int) (cf : Nat), -(2 ^ 15) ≤ ci → ci < 2 ^ 15 → cf &&& 0xFFFF = cf →
      EncConst.decode (EncConst.encode ⟨ci, cf⟩) = ⟨ci, cf⟩) ∧
    (∀ x : Nat, CoolConf.encode (CoolConf.decode x) = x &&& 0x17FEF6F) ∧
    (∀ (semin seup semax sedn : Nat) (seimin : Bool) (sgt : Int) (sfilt : Bool),
      semin &&& 0x0F = semin → seup &&& 0x03 = seup → semax &&& 0x0F = semax →
      sedn &&& 0x03 = sedn → -64 ≤ sgt → sgt ≤ 63 →
      CoolConf.decode (CoolConf.encode ⟨semin, seup, semax, sedn, seimin, sgt, sfilt⟩)
        = ⟨semin, seup, semax, sedn, seimin, sgt, sfilt⟩) ∧
    (GConf.encode { GConf.default with poscmp_enable := true } = 0x00000008) ∧
    (GConf.decode 0x00000008 = { GConf.default with poscmp_enable := true }) :=
  ⟨GConf_encode_decode,
    GConf_decode_encode,
    GStat_encode_decode,
    GStat_decode_encode,
    IfCnt_encode_decode,
    IfCnt_decode_encode,
    SlaveConf_encode_decode,
    SlaveConf_decode_encode,
    Input_encode_decode,
    Input_decode_encode,
    Output_encode_decode,
    Output_decode_encode,
    XCompare_encode_decode,
    XCompare_decode_encode,
    MsLut0_encode_decode,
    MsLut0_decode_encode,
    MsLut1_encode_decode,
    MsLut1_decode_encode,
    MsLut2_encode_decode,
    MsLut2_decode_encode,
    MsLut3_encode_decode,
    MsLut3_decode_encode,
    MsLut4_encode_decode,
    MsLut4_decode_encode,
    MsLut5_encode_decode,
    MsLut5_decode_encode,
    MsLut6_encode_decode,
    MsLut6_decode_encode,
    MsLut7_encode_decode,
    MsLut7_decode_encode,
    MsLutSel_encode_decode,
    MsLutSel_decode_encode,
    MsLutStart_encode_decode,
    MsLutStart_decode_encode,
    MsCnt_encode_decode,
    MsCnt_decode_encode,
    ChopConf_encode_decode,
    ChopConf_decode_encode,
    DcCtrl_encode_decode,
    DcCtrl_decode_encode,
    DrvStatus_encode_decode,
    DrvStatus_decode_encode,
    RampMode_encode_decode,
    RampMode_decode_encode,
    VStart_encode_decode,
    VStart_decode_encode,
    A1_encode_decode,
    A1_decode_encode,
    V1_encode_decode,
    V1_decode_encode,
    AMax_encode_decode,
    AMax_decode_encode,
    VMax_encode_decode,
    VMax_decode_encode,
    DMax_encode_decode,
    DMax_decode_encode,
    D1_encode_decode,
    D1_decode_encode,
    VStop_encode_decode,
    VStop_decode_encode,
    TZeroWait_encode_decode,
    TZeroWait_decode_encode,
    IHoldIRun_encode_decode,
    IHoldIRun_decode_encode,
    VCoolThrs_encode_decode,
    VCoolThrs_decode_encode,
    VHigh_encode_decode,
    VHigh_decode_encode,
    VDcMin_encode_decode,
    VDcMin_decode_encode,
    SwMode_encode_decode,
    SwMode_decode_encode,
    RampStat_encode_decode,
    RampStat_decode_encode,
    XLatch_encode_decode,
    XLatch_decode_encode,
    EncMode_encode_decode,
    EncMode_decode_encode,
    EncStatus_encode_decode,
    EncStatus_decode_encode,
    PwmConf_encode_decode,
    PwmConf_decode_encode,
    PwmStatus_encode_decode,
    PwmStatus_decode_encode,
    XActual_encode_decode,
    XActual_decode_encode,
    XTarget_encode_decode,
    XTarget_decode_encode,
    XEnc_encode_decode,
    XEnc_decode_encode,
    EncLatch_encode_decode,
    EncLatch_decode_encode,
    VActual_encode_decode,
    VActual_decode_encode,
    MsCurAct_encode_decode,
    MsCurAct_decode_encode,
    EncConst_encode_decode,
    EncConst_decode_encode,
    CoolConf_encode_decode,
    CoolConf_decode_encode,
    by decide,
    by decide⟩

/-- Witness for C3 at the SlaveConf register with slave_addr 0x55 and
send_delay 8 (the repository's own test vector). -/
theorem c3_register_roundtrips_witness :
    ((0x55 : Nat) &&& 0xFF = 0x55 ∧ (8 : Nat) &&& 0x0F = 8) ∧
    SlaveConf.decode (SlaveConf.encode ⟨0x55, 8⟩) = ⟨0x55, 8⟩ ∧
    SlaveConf.encode ⟨0x55, 8⟩ = 0x00000855 :=
  ⟨⟨by decide, by decide⟩,
    c3_register_roundtrips.2.2.2.2.2.2.2.1 0x55 8 (by decide) (by decide),
    by decide⟩

/-! ## Transaction-engine helper lemmas and concrete test fixtures -/
theorem shl_lt (x k n : Nat) (hx : x < 2 ^ n) : x <<< k < 2 ^ (n + k) := by
  rw [Nat.shiftLeft_eq, pow_add]
  exact Nat.mul_lt_mul_of_lt_of_le hx (Nat.le_refl _) (Nat.pos_pow_of_pos k (by norm_num))

theorem flag_or_eq_add (addr : Nat) (h : addr < 128) : 0x80 ||| addr = 128 + addr := by
  have h0 : (0x80 : Nat) &&& addr = 0 := by
    have := shl_and_low 1 7 addr (by omega)
    simpa using this
  exact or_eq_add 0x80 addr h0

theorem flag_or_testBit7 (addr : Nat) (h : addr < 128) : (0x80 ||| addr).testBit 7 = true := by
  rw [flag_or_eq_add addr h, Nat.testBit_to_div_mod]
  have h1 : (128 + addr) / 2 ^ 7 = 1 := by omega
  rw [h1]
  decide

theorem flag_or_and7F (addr : Nat) (h : addr < 128) : (0x80 ||| addr) &&& 0x7F = addr := by
  rw [lor_and_right]
  have h1 : (0x80 : Nat) &&& 0x7F = 0 := by decide
  have h2 : addr &&& 0x7F = addr := by
    rw [show (0x7F : Nat) = 2 ^ 7 - 1 from by norm_num, Nat.and_pow_two_sub_one_eq_mod]
    exact Nat.mod_eq_of_lt h
  rw [h1, h2, Nat.zero_or]

theorem assemble_bytes (data : Nat) (hd : data < 2 ^ 32) :
    ((data >>> 24) % 256) <<< 24 ||| ((data >>> 16) % 256) <<< 16 |||
      ((data >>> 8) % 256) <<< 8 ||| (data % 256) = data := by
  have hb2 : (data >>> 16) % 256 < 256 := Nat.mod_lt _ (by norm_num)
  have hb3 : (data >>> 8) % 256 < 256 := Nat.mod_lt _ (by norm_num)
  have hb4 : data % 256 < 256 := Nat.mod_lt _ (by norm_num)
  have d12 : ((data >>> 24) % 256) <<< 24 &&& ((data >>> 16) % 256) <<< 16 = 0 := by
    apply shl_and_low
    rw [Nat.shiftLeft_eq]
    omega
  have d123 : (((data >>> 24) % 256) <<< 24 ||| ((data >>> 16) % 256) <<< 16) &&&
      ((data >>> 8) % 256) <<< 8 = 0 := by
    rw [lor_and_right]
    have a1 : ((data >>> 24) % 256) <<< 24 &&& ((data >>> 8) % 256) <<< 8 = 0 := by
      apply shl_and_low
      rw [Nat.shiftLeft_eq]
      omega
    have a2 : ((data >>> 16) % 256) <<< 16 &&& ((data >>> 8) % 256) <<< 8 = 0 := by
      apply shl_and_low
      rw [Nat.shiftLeft_eq]
      omega
    rw [a1, a2]
    decide
  have d1234 : (((data >>> 24) % 256) <<< 24 ||| ((data >>> 16) % 256) <<< 16 |||
      ((data >>> 8) % 256) <<< 8) &&& (data % 256) = 0 := by
    rw [lor_and_right, lor_and_right]
    have a1 : ((data >>> 24) % 256) <<< 24 &&& (data % 256) = 0 := by
      apply shl_and_low
      omega
    have a2 : ((data >>> 16) % 256) <<< 16 &&& (data % 256) = 0 := by
      apply shl_and_low
      omega
    have a3 : ((data >>> 8) % 256) <<< 8 &&& (data % 256) = 0 := by
      apply shl_and_low
      omega
    rw [a1, a2, a3]
    decide
  rw [or_eq_add _ _ d1234, or_eq_add _ _ d123, or_eq_add _ _ d12]
  simp only [Nat.shiftLeft_eq, Nat.shiftRight_eq_div_pow]
  omega

/-- C1: for every register address below 128, read_raw performs exactly two
SPI exchanges, both transmitting the identical address byte (read flag
bit 7 = 0) in byte 0; the payload received in the first exchange is
discarded entirely, and the returned status byte and 32-bit payload
(assembled big-endian from bytes 1-4 by SpiOk.from_buffer) come from the
second exchange only.  On success the trace holds exactly the two frames
sent, and the result is SpiOk.from_buffer of the second received frame. -/
theorem c1_read_raw_two_exchanges {S C Es Ec : Type} (dev : SpiDevice S Es)
    (cs : CsPin C Ec) (addr : Nat) (s : S) (c : C) (h : addr < 128) :
    (∀ f ∈ (read_raw dev cs addr s c).1, f.b0 = addr ∧ f.b0.testBit 7 = false) ∧
    (read_raw dev cs addr s c).1.length ≤ 2 ∧
    (∀ v, (read_raw dev cs addr s c).2 = .ok v →
      ∃ c1 s1 recv c2 c3 s2 recv2 c4,
        cs.set_low c = .ok c1 ∧
        dev.transfer s ⟨addr, 0, 0, 0, 0⟩ = .ok (s1, recv) ∧
        cs.set_high c1 = .ok c2 ∧
        cs.set_low c2 = .ok c3 ∧
        dev.transfer s1 ⟨addr, recv.b1, recv.b2, recv.b3, recv.b4⟩ = .ok (s2, recv2) ∧
        cs.set_high c3 = .ok c4 ∧
        read_raw dev cs addr s c =
          ([⟨addr, 0, 0, 0, 0⟩, ⟨addr, recv.b1, recv.b2, recv.b3, recv.b4⟩],
            .ok (s2, c4, SpiOk.from_buffer recv2)) ∧
        v = (s2, c4, SpiOk.from_buffer recv2)) := by
  have hb : addr.testBit 7 = false := Nat.testBit_lt_two_pow (by omega)
  have hz : READ_FLAG ||| addr = addr := Nat.zero_or addr
  rcases h1 : cs.set_low c with e | c1
  · have hr : read_raw dev cs addr s c = ([], .error (.CSError e)) := by
      simp [read_raw, h1]
    rw [hr]
    simp
  · rcases h2 : dev.transfer s ⟨addr, 0, 0, 0, 0⟩ with e | ⟨s1, recv⟩
    · have hr : read_raw dev cs addr s c = ([⟨addr, 0, 0, 0, 0⟩], .error (.SpiError e)) := by
        simp [read_raw, hz, h1, h2]
      rw [hr]
      simp [hb]
    · rcases h3 : cs.set_high c1 with e | c2
      · have hr : read_raw dev cs addr s c = ([⟨addr, 0, 0, 0, 0⟩], .error (.CSError e)) := by
          simp [read_raw, hz, h1, h2, h3]
        rw [hr]
        simp [hb]
      · rcases h4 : cs.set_low c2 with e | c3
        · have hr : read_raw dev cs addr s c = ([⟨addr, 0, 0, 0, 0⟩], .error (.CSError e)) := by
            simp [read_raw, hz, h1, h2, h3, h4]
          rw [hr]
          simp [hb]
        · rcases h5 : dev.transfer s1 ⟨addr, recv.b1, recv.b2, recv.b3, recv.b4⟩ with e | ⟨s2, recv2⟩
          · have hr : read_raw dev cs addr s c =
                ([⟨addr, 0, 0, 0, 0⟩, ⟨addr, recv.b1, recv.b2, recv.b3, recv.b4⟩],
                  .error (.SpiError e)) := by
              simp [read_raw, hz, h1, h2, h3, h4, h5]
            rw [hr]
            simp [hb]
          · rcases h6 : cs.set_high c3 with e | c4
            · have hr : read_raw dev cs addr s c =
                  ([⟨addr, 0, 0, 0, 0⟩, ⟨addr, recv.b1, recv.b2, recv.b3, recv.b4⟩],
                    .error (.CSError e)) := by
                simp [read_raw, hz, h1, h2, h3, h4, h5, h6]
              rw [hr]
              simp [hb]
            · have hr : read_raw dev cs addr s c =
                  ([⟨addr, 0, 0, 0, 0⟩, ⟨addr, recv.b1, recv.b2, recv.b3, recv.b4⟩],
                    .ok (s2, c4, SpiOk.from_buffer recv2)) := by
                simp [read_raw, hz, h1, h2, h3, h4, h5, h6]
              rw [hr]
              refine ⟨?_, by simp, ?_⟩
              · intro f hf
                simp only [List.mem_cons, List.not_mem_nil, or_false] at hf
                rcases hf with rfl | rfl
                · exact ⟨rfl, hb⟩
                · exact ⟨rfl, hb⟩
              · intro v hv
                have hv2 : (s2, c4, SpiOk.from_buffer recv2) = v := by
                  simpa using hv
                exact ⟨c1, s1, recv, c2, c3, s2, recv2, c4, rfl, rfl, h3, h4, h5, h6, rfl, hv2.symm⟩

/-- Witness for C1: the concrete transport devOkS and pin csOk at register
address 0x21 exercise the theorem; the trace holds exactly the two frames,
both with command byte 0x21, and the payload 0xABCD1234 comes from the
second received frame. -/
theorem c1_read_raw_two_exchanges_witness :
    (0x21 : Nat) < 128 ∧ (read_raw devOkS csOk 0x21 0 ()).1.length ≤ 2 ∧
    (read_raw devOkS csOk 0x21 0 ()).1 =
      [⟨0x21, 0, 0, 0, 0⟩, ⟨0x21, 0xAB, 0xCD, 0x12, 0x34⟩] :=
  ⟨by decide, (c1_read_raw_two_exchanges devOkS csOk 0x21 0 () (by decide)).2.1, by decide⟩

/-- C2: for every address below 128 and every 32-bit payload, write_raw
builds exactly one 5-byte frame whose byte 0 has bit 7 set and the address
in bits 6-0, and whose bytes 1-4 hold the payload big-endian (byte 1 =
bits 31-24, ..., byte 4 = bits 7-0, so the bytes reassemble to the
payload); it performs exactly one duplex exchange, and on success the
result is the status decoded from byte 0 of the echoed frame with the
echoed payload bytes discarded. -/
theorem c2_write_raw_single_frame {S C Es Ec : Type} (dev : SpiDevice S Es)
    (cs : CsPin C Ec) (addr data : Nat) (s : S) (c : C) (h : addr < 128)
    (hd : data < 2 ^ 32) :
    (∀ f ∈ (write_raw dev cs addr data s c).1,
        f.b0 = 0x80 ||| addr ∧ f.b0.testBit 7 = true ∧ f.b0 &&& 0x7F = addr ∧
        f.b1 = (data >>> 24) % 256 ∧ f.b2 = (data >>> 16) % 256 ∧
        f.b3 = (data >>> 8) % 256 ∧ f.b4 = data % 256 ∧
        (f.b1 <<< 24) ||| (f.b2 <<< 16) ||| (f.b3 <<< 8) ||| f.b4 = data) ∧
    (write_raw dev cs addr data s c).1.length ≤ 1 ∧
    (∀ v, (write_raw dev cs addr data s c).2 = .ok v →
      ∃ c1 s1 recv c2,
        cs.set_low c = .ok c1 ∧
        dev.transfer s ⟨0x80 ||| addr, (data >>> 24) % 256, (data >>> 16) % 256,
          (data >>> 8) % 256, data % 256⟩ = .ok (s1, recv) ∧
        cs.set_high c1 = .ok c2 ∧
        write_raw dev cs addr data s c =
          ([⟨0x80 ||| addr, (data >>> 24) % 256, (data >>> 16) % 256, (data >>> 8) % 256,
              data % 256⟩],
            .ok (s1, c2, SpiOk.from_buffer_unit recv)) ∧
        v = (s1, c2, SpiOk.from_buffer_unit recv) ∧
        v.2.2.status = SpiStatus.fromByte recv.b0) := by
  have hfr : ∀ f : Frame, f = ⟨0x80 ||| addr, (data >>> 24) % 256, (data >>> 16) % 256,
      (data >>> 8) % 256, data % 256⟩ →
      f.b0 = 0x80 ||| addr ∧ f.b0.testBit 7 = true ∧ f.b0 &&& 0x7F = addr ∧
      f.b1 = (data >>> 24) % 256 ∧ f.b2 = (data >>> 16) % 256 ∧
      f.b3 = (data >>> 8) % 256 ∧ f.b4 = data % 256 ∧
      (f.b1 <<< 24) ||| (f.b2 <<< 16) ||| (f.b3 <<< 8) ||| f.b4 = data := by
    rintro f rfl
    exact ⟨rfl, flag_or_testBit7 addr h, flag_or_and7F addr h, rfl, rfl, rfl, rfl,
      assemble_bytes data hd⟩
  rcases h1 : cs.set_low c with e | c1
  · have hr : write_raw dev cs addr data s c = ([], .error (.CSError e)) := by
      simp [write_raw, h1]
    rw [hr]
    simp
  · rcases h2 : dev.transfer s ⟨0x80 ||| addr, (data >>> 24) % 256, (data >>> 16) % 256,
        (data >>> 8) % 256, data % 256⟩ with e | p
    · have hr : write_raw dev cs addr data s c =
          ([⟨0x80 ||| addr, (data >>> 24) % 256, (data >>> 16) % 256, (data >>> 8) % 256,
              data % 256⟩], .error (.SpiError e)) := by
        simp [write_raw, WRITE_FLAG, h1, h2]
      rw [hr]
      refine ⟨?_, by simp, by simp⟩
      intro f hf
      simp only [List.mem_cons, List.not_mem_nil, or_false] at hf
      exact hfr f hf
    · obtain ⟨s1, recv⟩ := p
      rcases h3 : cs.set_high c1 with e | c2
      · have hr : write_raw dev cs addr data s c =
            ([⟨0x80 ||| addr, (data >>> 24) % 256, (data >>> 16) % 256, (data >>> 8) % 256,
                data % 256⟩], .error (.CSError e)) := by
          simp [write_raw, WRITE_FLAG, h1, h2, h3]
        rw [hr]
        refine ⟨?_, by simp, by simp⟩
        intro f hf
        simp only [List.mem_cons, List.not_mem_nil, or_false] at hf
        exact hfr f hf
      · have hr : write_raw dev cs addr data s c =
            ([⟨0x80 ||| addr, (data >>> 24) % 256, (data >>> 16) % 256, (data >>> 8) % 256,
                data % 256⟩], .ok (s1, c2, SpiOk.from_buffer_unit recv)) := by
          simp [write_raw, WRITE_FLAG, h1, h2, h3]
        rw [hr]
        refine ⟨?_, by simp, ?_⟩
        · intro f hf
          simp only [List.mem_cons, List.not_mem_nil, or_false] at hf
          exact hfr f hf
        · intro v hv
          have hv2 : (s1, c2, SpiOk.from_buffer_unit recv) = v := by
            simpa using hv
          refine ⟨c1, s1, recv, c2, rfl, rfl, h3, rfl, hv2.symm, ?_⟩
          rw [← hv2]
          rfl

/-- Witness for C2: writing payload 0xABCD1234 to address 0x21 through the
concrete transport devOkS and pin csOk sends exactly the single frame
A1 AB CD 12 34. -/
theorem c2_write_raw_single_frame_witness :
    (0x21 : Nat) < 128 ∧ (0xABCD1234 : Nat) < 2 ^ 32 ∧
    (write_raw devOkS csOk 0x21 0xABCD1234 0 ()).1.length ≤ 1 ∧
    (write_raw devOkS csOk 0x21 0xABCD1234 0 ()).1 = [⟨0xA1, 0xAB, 0xCD, 0x12, 0x34⟩] :=
  ⟨by decide, by decide,
    (c2_write_raw_single_frame devOkS csOk 0x21 0xABCD1234 0 () (by decide) (by decide)).2.1,
    by decide⟩

/-- C9: every core operation surfaces transport and select-line failures
immediately, wrapping the underlying error: a chip-select failure aborts as
CSError and a transfer failure as SpiError, each at the exact point it
occurs, with the trace showing that no further exchange is attempted (in
particular, when the first exchange of the two-phase read fails the trace
holds only that one frame, so the second exchange is never attempted); the
typed wrappers read_register and write_register pass any such error through
unchanged, and no failure is retried or replaced by a default value. -/
theorem c9_error_propagation {S C Es Ec R : Type} (dev : SpiDevice S Es)
    (cs : CsPin C Ec) (decode : Nat → R) (enc : R → Nat) :
    (∀ (addr : Nat) (s : S) (c : C) (e : Ec), cs.set_low c = .error e →
      read_raw dev cs addr s c = ([], .error (.CSError e))) ∧
    (∀ (addr : Nat) (s : S) (c : C) (c1 : C) (e : Es), cs.set_low c = .ok c1 →
      dev.transfer s ⟨READ_FLAG ||| addr, 0, 0, 0, 0⟩ = .error e →
      read_raw dev cs addr s c =
        ([⟨READ_FLAG ||| addr, 0, 0, 0, 0⟩], .error (.SpiError e))) ∧
    (∀ (addr : Nat) (s : S) (c : C) (c1 : C) (s1 : S) (recv : Frame) (e : Ec),
      cs.set_low c = .ok c1 →
      dev.transfer s ⟨READ_FLAG ||| addr, 0, 0, 0, 0⟩ = .ok (s1, recv) →
      cs.set_high c1 = .error e →
      read_raw dev cs addr s c =
        ([⟨READ_FLAG ||| addr, 0, 0, 0, 0⟩], .error (.CSError e))) ∧
    (∀ (addr : Nat) (s : S) (c : C) (c1 : C) (s1 : S) (recv : Frame) (c2 : C) (e : Ec),
      cs.set_low c = .ok c1 →
      dev.transfer s ⟨READ_FLAG ||| addr, 0, 0, 0, 0⟩ = .ok (s1, recv) →
      cs.set_high c1 = .ok c2 → cs.set_low c2 = .error e →
      read_raw dev cs addr s c =
        ([⟨READ_FLAG ||| addr, 0, 0, 0, 0⟩], .error (.CSError e))) ∧
    (∀ (addr : Nat) (s : S) (c : C) (c1 : C) (s1 : S) (recv : Frame) (c2 : C) (c3 : C)
      (e : Es),
      cs.set_low c = .ok c1 →
      dev.transfer s ⟨READ_FLAG ||| addr, 0, 0, 0, 0⟩ = .ok (s1, recv) →
      cs.set_high c1 = .ok c2 → cs.set_low c2 = .ok c3 →
      dev.transfer s1 ⟨READ_FLAG ||| addr, recv.b1, recv.b2, recv.b3, recv.b4⟩ = .error e →
      read_raw dev cs addr s c =
        ([⟨READ_FLAG ||| addr, 0, 0, 0, 0⟩,
          ⟨READ_FLAG ||| addr, recv.b1, recv.b2, recv.b3, recv.b4⟩],
          .error (.SpiError e))) ∧
    (∀ (addr : Nat) (s : S) (c : C) (c1 : C) (s1 : S) (recv : Frame) (c2 : C) (c3 : C)
      (s2 : S) (recv2 : Frame) (e : Ec),
      cs.set_low c = .ok c1 →
      dev.transfer s ⟨READ_FLAG ||| addr, 0, 0, 0, 0⟩ = .ok (s1, recv) →
      cs.set_high c1 = .ok c2 → cs.set_low c2 = .ok c3 →
      dev.transfer s1 ⟨READ_FLAG ||| addr, recv.b1, recv.b2, recv.b3, recv.b4⟩ =
        .ok (s2, recv2) →
      cs.set_high c3 = .error e →
      read_raw dev cs addr s c =
        ([⟨READ_FLAG ||| addr, 0, 0, 0, 0⟩,
          ⟨READ_FLAG ||| addr, recv.b1, recv.b2, recv.b3, recv.b4⟩],
          .error (.CSError e))) ∧
    (∀ (addr data : Nat) (s : S) (c : C) (e : Ec), cs.set_low c = .error e →
      write_raw dev cs addr data s c = ([], .error (.CSError e))) ∧
    (∀ (addr data : Nat) (s : S) (c : C) (c1 : C) (e : Es), cs.set_low c = .ok c1 →
      dev.transfer s ⟨WRITE_FLAG ||| addr, (data >>> 24) % 256, (data >>> 16) % 256,
        (data >>> 8) % 256, data % 256⟩ = .error e →
      write_raw dev cs addr data s c =
        ([⟨WRITE_FLAG ||| addr, (data >>> 24) % 256, (data >>> 16) % 256, (data >>> 8) % 256,
          data % 256⟩], .error (.SpiError e))) ∧
    (∀ (addr data : Nat) (s : S) (c : C) (c1 : C) (s1 : S) (recv : Frame) (e : Ec),
      cs.set_low c = .ok c1 →
      dev.transfer s ⟨WRITE_FLAG ||| addr, (data >>> 24) % 256, (data >>> 16) % 256,
        (data >>> 8) % 256, data % 256⟩ = .ok (s1, recv) →
      cs.set_high c1 = .error e →
      write_raw dev cs addr data s c =
        ([⟨WRITE_FLAG ||| addr, (data >>> 24) % 256, (data >>> 16) % 256, (data >>> 8) % 256,
          data % 256⟩], .error (.CSError e))) ∧
    (∀ (addr : Nat) (s : S) (c : C) (err : SpiError Es Ec),
      (read_raw dev cs addr s c).2 = .error err →
      (read_register dev cs decode addr s c).2 = .error err) ∧
    (∀ (addr : Nat) (r : R) (s : S) (c : C),
      write_register dev cs enc addr r s c = write_raw dev cs addr (enc r) s c) := by
  refine ⟨?_, ?_, ?_, ?_, ?_, ?_, ?_, ?_, ?_, ?_, ?_⟩
  · intro addr s c e h1
    simp [read_raw, h1]
  · intro addr s c c1 e h1 h2
    simp [read_raw, h1, h2]
  · intro addr s c c1 s1 recv e h1 h2 h3
    simp [read_raw, h1, h2, h3]
  · intro addr s c c1 s1 recv c2 e h1 h2 h3 h4
    simp [read_raw, h1, h2, h3, h4]
  · intro addr s c c1 s1 recv c2 c3 e h1 h2 h3 h4 h5
    simp [read_raw, h1, h2, h3, h4, h5]
  · intro addr s c c1 s1 recv c2 c3 s2 recv2 e h1 h2 h3 h4 h5 h6
    simp [read_raw, h1, h2, h3, h4, h5, h6]
  · intro addr data s c e h1
    simp [write_raw, h1]
  · intro addr data s c c1 e h1 h2
    simp [write_raw, h1, h2]
  · intro addr data s c c1 s1 recv e h1 h2 h3
    simp [write_raw, h1, h2, h3]
  · intro addr s c err h1
    simp [read_register, h1, Except.map]
  · intro addr r s c
    rfl

/-- Witness for C9: a failing chip-select assertion surfaces as CSError with
no exchange attempted, and a failing first transfer surfaces as SpiError with
the second exchange of the two-phase read never attempted (the trace holds
only the first frame). -/
theorem c9_error_propagation_witness :
    csLowFail.set_low () = Except.error () ∧
    read_raw devOkS csLowFail 0x21 0 () = ([], .error (.CSError ())) ∧
    devFail.transfer 0 ⟨READ_FLAG ||| 0x21, 0, 0, 0, 0⟩ = Except.error () ∧
    read_raw devFail csOk 0x21 0 () =
      ([⟨READ_FLAG ||| 0x21, 0, 0, 0, 0⟩], .error (.SpiError ())) :=
  ⟨rfl,
    (c9_error_propagation devOkS csLowFail (fun n => n) (fun n : Nat => n)).1 0x21 0 () () rfl,
    rfl,
    (c9_error_propagation devFail csOk (fun n => n) (fun n : Nat => n)).2.1 0x21 0 () () ()
      rfl rfl⟩
